import Mathlib

/-!
# Sensor driver of the B-U585I-IOT02A board

A shallow embedding of `Drivers/Sensors/Source/sensor_B-U585I-IOT02A.c`
(with `Include/sensor_drv.h` and `Config/sensor_config.h`): the shared,
reference-counted mutex and the six sensor driver instances.

* The static variables of the C file are the fields of `DriverState`.
* Every call into the RTOS, the board support package or the ISM330DHCX
  FIFO layer is recorded in `DriverState.trace`; what such a call answers is
  not decided by the driver, so each driver call takes the answers as an
  `Hw` record.
* `uint8_t` and `uint32_t` values are natural numbers, reduced modulo
  `2 ^ 8` and `2 ^ 32` where the C code can overflow.
* The build modelled is the one with the mutex, `SENSOR_NO_LOCK` not defined,
  and all six sensors enabled as in `sensor_config.h`.
* `ISM330DHCX_ID_ACCELEROMETER` and `ISM330DHCX_ID_GYROSCOPE` come from
  `ism330dhcx_fifo.h`, which is not part of the sources at hand: they are the
  two fields of `Cfg`.
-/

namespace SensorDrv

/-! ## sensor_drv.h -/

/-- Operation completed successfully. -/
def SENSOR_OK : Int := 0

/-- Operation failed. -/
def SENSOR_ERROR : Int := -1

/-- Event: data available, `1UL << 0`. -/
def SENSOR_EVENT_DATA : Nat := 1 <<< 0

/-- Event: overflow detected, `1UL << 1`. -/
def SENSOR_EVENT_OVERFLOW : Nat := 1 <<< 1

/-- Configuration descriptor `sensorConfig_t` (the union `u` seen as `fifo`). -/
structure sensorConfig_t where
  name : String
  dma_mode : Nat
  sample_size : Nat
  sample_interval : Nat
  fifo_size : Nat
  data_threshold : Nat
  deriving DecidableEq, Repr

/-- Status `sensorStatus_t`: bit-fields of width 1, 1 and 30. -/
structure sensorStatus_t where
  active : Nat
  overflow : Nat
  reserved : Nat
  deriving DecidableEq, Repr

/-! ## sensor_config.h -/

def TEMPERATURE_SENSOR_SAMPLE_INTERVAL : Nat := 1000000
def HUMIDITY_SENSOR_SAMPLE_INTERVAL : Nat := 1000000
def PRESSURE_SENSOR_SAMPLE_INTERVAL : Nat := 25000
def ACCELEROMETER_SAMPLE_INTERVAL : Nat := 600
def ACCELEROMETER_FIFO_SIZE : Nat := 1536
def GYROSCOPE_SAMPLE_INTERVAL : Nat := 600
def GYROSCOPE_FIFO_SIZE : Nat := 1536
def MAGNETOMETER_SAMPLE_INTERVAL : Nat := 10000

/-! ## Collaborators: RTOS, board support package, FIFO layer -/

/-- Return code of a successful board-support call. -/
def BSP_ERROR_NONE : Int := 0

/-- The measurands named in the board-support calls of the driver. -/
inductive Measurand where
  | ENV_TEMPERATURE
  | ENV_HUMIDITY
  | ENV_PRESSURE
  | MOTION_GYRO
  | MOTION_MAGNETO
  deriving DecidableEq, Repr

/-- One call that leaves the driver. `osMutexAcquire` also records the value
`lock_cnt` has when the call is made. -/
inductive Ev where
  | osMutexNew
  | osMutexDelete (id : Option Nat)
  | osMutexAcquire (id : Option Nat) (cnt : Nat)
  | osMutexRelease (id : Option Nat)
  | BSP_ENV_SENSOR_Enable (inst : Nat) (m : Measurand)
  | BSP_ENV_SENSOR_Disable (inst : Nat) (m : Measurand)
  | BSP_ENV_SENSOR_GetValue (inst : Nat) (m : Measurand)
  | BSP_MOTION_SENSOR_Enable (inst : Nat) (m : Measurand)
  | BSP_MOTION_SENSOR_Disable (inst : Nat) (m : Measurand)
  | BSP_MOTION_SENSOR_GetAxesRaw (inst : Nat) (m : Measurand)
  | HTS221_TEMP_Get_DRDY_Status (inst : Nat)
  | HTS221_HUM_Get_DRDY_Status (inst : Nat)
  | LPS22HH_PRESS_Get_DRDY_Status (inst : Nat)
  | IIS2MDC_MAG_Get_DRDY_Status (inst : Nat)
  | ISM330DHCX_FIFO_Init (id : Nat)
  | ISM330DHCX_FIFO_Uninit (id : Nat)
  | ISM330DHCX_FIFO_Read (id : Nat) (num : Nat)
  | ISM330DHCX_ACC_Enable
  | ISM330DHCX_ACC_Disable
  | ISM330DHCX_GYRO_Enable
  deriving DecidableEq, Repr

/-- The channel ids of `ism330dhcx_fifo.h`. -/
structure Cfg where
  ISM330DHCX_ID_ACCELEROMETER : Nat
  ISM330DHCX_ID_GYROSCOPE : Nat
  deriving DecidableEq, Repr

/-- What the collaborators answer during one driver call. Within one call
every collaborator function is called at most once, except the one-sample
FIFO read of the stale-sample loop, whose successive answers are `drain`. -/
structure Hw where
  /-- handle returned by `osMutexNew` (`none` is `NULL`) -/
  mutexNew : Option Nat
  /-- return code of the hardware enable call -/
  enable : Int
  /-- return code of the hardware disable call -/
  disable : Int
  /-- return code of `BSP_ENV_SENSOR_GetValue` or `BSP_MOTION_SENSOR_GetAxesRaw` -/
  getValue : Int
  /-- raw bytes of the value stored by that call -/
  value : List Nat
  /-- return code of the data-ready query -/
  drdyRet : Int
  /-- data-ready flag stored by the query -/
  drdyStat : Nat
  /-- return code of `ISM330DHCX_FIFO_Init` -/
  fifoInit : Int
  /-- return code of `ISM330DHCX_FIFO_Uninit` -/
  fifoUninit : Int
  /-- answers of the successive one-sample reads of the stale-sample loop -/
  drain : List Nat
  /-- number of samples returned by the `ISM330DHCX_FIFO_Read` of `ReadSamples` -/
  fifoRead : Nat
  /-- bytes stored in the buffer by that read -/
  fifoData : List Nat
  deriving DecidableEq, Repr

/-! ## The static variables of the driver -/

structure DriverState where
  TemperatureSensorActiveFlag : Nat
  HumiditySensorActiveFlag : Nat
  PressureSensorActiveFlag : Nat
  MagnetometerActiveFlag : Nat
  ISM330DHCX_ActiveFlags : Nat
  lock_id : Option Nat
  lock_cnt : Nat
  /-- calls made to the collaborators so far, oldest first -/
  trace : List Ev
  deriving DecidableEq, Repr

/-- The static initialisers: all flags `0U`, `lock_id = NULL`, `lock_cnt = 0U`. -/
def DriverState.init : DriverState :=
  { TemperatureSensorActiveFlag := 0
    HumiditySensorActiveFlag := 0
    PressureSensorActiveFlag := 0
    MagnetometerActiveFlag := 0
    ISM330DHCX_ActiveFlags := 0
    lock_id := none
    lock_cnt := 0
    trace := [] }

/-- Record a call to a collaborator. -/
def emit (s : DriverState) (e : Ev) : DriverState :=
  { s with trace := s.trace ++ [e] }

/-- The `uint32_t` value of `a << n`. -/
def shl32 (a n : Nat) : Nat := (a <<< n) % 4294967296

/-- The `uint32_t` value of `~a`. -/
def not32 (a : Nat) : Nat := 4294967295 - a % 4294967296

/-- Conversion to `uint8_t`. -/
def u8 (a : Nat) : Nat := a % 256

/-- `memcpy (buf, src, n)`: the first `n` bytes of `buf` become those of `src`. -/
def memcpy (buf src : List Nat) (n : Nat) : List Nat :=
  src.take n ++ buf.drop n

/-! ## Mutex lock -/

/-- `sensorLockCreate`. -/
def sensorLockCreate (hw : Hw) (s : DriverState) : DriverState :=
  let s := if s.lock_cnt == 0 then { emit s Ev.osMutexNew with lock_id := hw.mutexNew } else s
  { s with lock_cnt := (s.lock_cnt + 1) % 4294967296 }

/-- `sensorLockDelete`. -/
def sensorLockDelete (s : DriverState) : DriverState :=
  if s.lock_cnt != 0 then
    let s := { s with lock_cnt := s.lock_cnt - 1 }
    if s.lock_cnt == 0 then emit s (Ev.osMutexDelete s.lock_id) else s
  else s

/-- `sensorLock`. -/
def sensorLock (s : DriverState) : DriverState :=
  emit s (Ev.osMutexAcquire s.lock_id s.lock_cnt)

/-- `sensorUnLock`. -/
def sensorUnLock (s : DriverState) : DriverState :=
  emit s (Ev.osMutexRelease s.lock_id)

/-! ## Sensor0: Temperature Sensor -/

def TemperatureSensorConfig : sensorConfig_t :=
  { name := "Temperature", dma_mode := 0, sample_size := 4,
    sample_interval := TEMPERATURE_SENSOR_SAMPLE_INTERVAL, fifo_size := 4, data_threshold := 0 }

def TemperatureSensorGetConfig : sensorConfig_t := TemperatureSensorConfig

def TemperatureSensorRegisterEvents (event_cb : Option Nat) (event_mask : Nat) : Int :=
  if event_cb == none || event_mask == 0 then SENSOR_OK else SENSOR_ERROR

def TemperatureSensorEnable (hw : Hw) (s : DriverState) : Int × DriverState :=
  if s.TemperatureSensorActiveFlag == 0 then
    let s := sensorLockCreate hw s
    let s := sensorLock s
    let s := emit s (Ev.BSP_ENV_SENSOR_Enable 0 Measurand.ENV_TEMPERATURE)
    if hw.enable == BSP_ERROR_NONE then
      let s := emit s (Ev.BSP_ENV_SENSOR_GetValue 0 Measurand.ENV_TEMPERATURE)
      let s := { s with TemperatureSensorActiveFlag := 1 }
      (SENSOR_OK, sensorUnLock s)
    else
      (SENSOR_ERROR, sensorUnLock s)
  else
    (SENSOR_ERROR, s)

def TemperatureSensorDisable (hw : Hw) (s : DriverState) : Int × DriverState :=
  if s.TemperatureSensorActiveFlag == 1 then
    let s := sensorLock s
    let s := emit s (Ev.BSP_ENV_SENSOR_Disable 0 Measurand.ENV_TEMPERATURE)
    if hw.disable == BSP_ERROR_NONE then
      let s := { s with TemperatureSensorActiveFlag := 0 }
      (SENSOR_OK, sensorLockDelete (sensorUnLock s))
    else
      (SENSOR_ERROR, sensorLockDelete (sensorUnLock s))
  else
    (SENSOR_ERROR, s)

def TemperatureSensorGetStatus (s : DriverState) : sensorStatus_t :=
  { active := s.TemperatureSensorActiveFlag % 2, overflow := 0, reserved := 0 }

def TemperatureSensorReadSamples (hw : Hw) (num_samples : Nat) (buf : Option (List Nat))
    (buf_size : Nat) (s : DriverState) : Nat × Option (List Nat) × DriverState :=
  if num_samples != 0 && buf.isSome &&
      decide (buf_size ≥ (num_samples * TemperatureSensorConfig.sample_size) % 4294967296) then
    let s := sensorLock s
    let s := emit s (Ev.HTS221_TEMP_Get_DRDY_Status 0)
    if hw.drdyRet == 0 && hw.drdyStat != 0 then
      let s := emit s (Ev.BSP_ENV_SENSOR_GetValue 0 Measurand.ENV_TEMPERATURE)
      if hw.getValue == BSP_ERROR_NONE then
        (1, buf.map (fun b => memcpy b hw.value 4), sensorUnLock s)
      else
        (0, buf, sensorUnLock s)
    else
      (0, buf, sensorUnLock s)
  else
    (0, buf, s)

/-! ## Sensor1: Humidity Sensor -/

def HumiditySensorConfig : sensorConfig_t :=
  { name := "Humidity", dma_mode := 0, sample_size := 4,
    sample_interval := HUMIDITY_SENSOR_SAMPLE_INTERVAL, fifo_size := 4, data_threshold := 0 }

def HumiditySensorGetConfig : sensorConfig_t := HumiditySensorConfig

def HumiditySensorRegisterEvents (event_cb : Option Nat) (event_mask : Nat) : Int :=
  if event_cb == none || event_mask == 0 then SENSOR_OK else SENSOR_ERROR

def HumiditySensorEnable (hw : Hw) (s : DriverState) : Int × DriverState :=
  if s.HumiditySensorActiveFlag == 0 then
    let s := sensorLockCreate hw s
    let s := sensorLock s
    let s := emit s (Ev.BSP_ENV_SENSOR_Enable 0 Measurand.ENV_HUMIDITY)
    if hw.enable == BSP_ERROR_NONE then
      let s := emit s (Ev.BSP_ENV_SENSOR_GetValue 0 Measurand.ENV_HUMIDITY)
      let s := { s with HumiditySensorActiveFlag := 1 }
      (SENSOR_OK, sensorUnLock s)
    else
      (SENSOR_ERROR, sensorUnLock s)
  else
    (SENSOR_ERROR, s)

def HumiditySensorDisable (hw : Hw) (s : DriverState) : Int × DriverState :=
  if s.HumiditySensorActiveFlag == 1 then
    let s := sensorLock s
    let s := emit s (Ev.BSP_ENV_SENSOR_Disable 0 Measurand.ENV_HUMIDITY)
    if hw.disable == BSP_ERROR_NONE then
      let s := { s with HumiditySensorActiveFlag := 0 }
      (SENSOR_OK, sensorLockDelete (sensorUnLock s))
    else
      (SENSOR_ERROR, sensorLockDelete (sensorUnLock s))
  else
    (SENSOR_ERROR, s)

def HumiditySensorGetStatus (s : DriverState) : sensorStatus_t :=
  { active := s.HumiditySensorActiveFlag % 2, overflow := 0, reserved := 0 }

def HumiditySensorReadSamples (hw : Hw) (num_samples : Nat) (buf : Option (List Nat))
    (buf_size : Nat) (s : DriverState) : Nat × Option (List Nat) × DriverState :=
  if num_samples != 0 && buf.isSome &&
      decide (buf_size ≥ (num_samples * HumiditySensorConfig.sample_size) % 4294967296) then
    let s := sensorLock s
    let s := emit s (Ev.HTS221_HUM_Get_DRDY_Status 0)
    if hw.drdyRet == 0 && hw.drdyStat != 0 then
      let s := emit s (Ev.BSP_ENV_SENSOR_GetValue 0 Measurand.ENV_HUMIDITY)
      if hw.getValue == BSP_ERROR_NONE then
        (1, buf.map (fun b => memcpy b hw.value 4), sensorUnLock s)
      else
        (0, buf, sensorUnLock s)
    else
      (0, buf, sensorUnLock s)
  else
    (0, buf, s)

/-! ## Sensor2: Pressure Sensor -/

def PressureSensorConfig : sensorConfig_t :=
  { name := "Pressure", dma_mode := 0, sample_size := 4,
    sample_interval := PRESSURE_SENSOR_SAMPLE_INTERVAL, fifo_size := 4, data_threshold := 0 }

def PressureSensorGetConfig : sensorConfig_t := PressureSensorConfig

def PressureSensorRegisterEvents (event_cb : Option Nat) (event_mask : Nat) : Int :=
  if event_cb == none || event_mask == 0 then SENSOR_OK else SENSOR_ERROR

def PressureSensorEnable (hw : Hw) (s : DriverState) : Int × DriverState :=
  if s.PressureSensorActiveFlag == 0 then
    let s := sensorLockCreate hw s
    let s := sensorLock s
    let s := emit s (Ev.BSP_ENV_SENSOR_Enable 1 Measurand.ENV_PRESSURE)
    if hw.enable == BSP_ERROR_NONE then
      let s := { s with PressureSensorActiveFlag := 1 }
      (SENSOR_OK, sensorUnLock s)
    else
      (SENSOR_ERROR, sensorUnLock s)
  else
    (SENSOR_ERROR, s)

def PressureSensorDisable (hw : Hw) (s : DriverState) : Int × DriverState :=
  if s.PressureSensorActiveFlag == 1 then
    let s := sensorLock s
    let s := emit s (Ev.BSP_ENV_SENSOR_Disable 1 Measurand.ENV_PRESSURE)
    if hw.disable == BSP_ERROR_NONE then
      let s := { s with PressureSensorActiveFlag := 0 }
      (SENSOR_OK, sensorLockDelete (sensorUnLock s))
    else
      (SENSOR_ERROR, sensorLockDelete (sensorUnLock s))
  else
    (SENSOR_ERROR, s)

def PressureSensorGetStatus (s : DriverState) : sensorStatus_t :=
  { active := s.PressureSensorActiveFlag % 2, overflow := 0, reserved := 0 }

def PressureSensorReadSamples (hw : Hw) (num_samples : Nat) (buf : Option (List Nat))
    (buf_size : Nat) (s : DriverState) : Nat × Option (List Nat) × DriverState :=
  if num_samples != 0 && buf.isSome &&
      decide (buf_size ≥ (num_samples * PressureSensorConfig.sample_size) % 4294967296) then
    let s := sensorLock s
    let s := emit s (Ev.LPS22HH_PRESS_Get_DRDY_Status 1)
    if hw.drdyRet == 0 && hw.drdyStat != 0 then
      let s := emit s (Ev.BSP_ENV_SENSOR_GetValue 1 Measurand.ENV_PRESSURE)
      if hw.getValue == BSP_ERROR_NONE then
        (1, buf.map (fun b => memcpy b hw.value 4), sensorUnLock s)
      else
        (0, buf, sensorUnLock s)
    else
      (0, buf, sensorUnLock s)
  else
    (0, buf, s)

/-! ## The stale-sample loop of the ISM330DHCX FIFO -/

/-- `while (ISM330DHCX_FIFO_Read (id, 1, sample) != 0U);` against the answers
`reads` of the successive reads. The loop ends at the first answer `0`; when
the answers hold no `0` the loop does not end and there is no result. -/
def clearFIFO (id : Nat) : List Nat → DriverState → Option DriverState
  | [], _ => none
  | r :: reads, s =>
    let s := emit s (Ev.ISM330DHCX_FIFO_Read id 1)
    if r != 0 then clearFIFO id reads s else some s

/-! ## Sensor3: Accelerometer -/

def AccelerometerConfig : sensorConfig_t :=
  { name := "Accelerometer", dma_mode := 0, sample_size := 6,
    sample_interval := ACCELEROMETER_SAMPLE_INTERVAL, fifo_size := ACCELEROMETER_FIFO_SIZE,
    data_threshold := 0 }

def AccelerometerGetConfig : sensorConfig_t := AccelerometerConfig

def AccelerometerRegisterEvents (event_cb : Option Nat) (event_mask : Nat) : Int :=
  if event_cb == none || event_mask == 0 then SENSOR_OK else SENSOR_ERROR

def AccelerometerEnable (cfg : Cfg) (hw : Hw) (s : DriverState) : Option (Int × DriverState) :=
  if (s.ISM330DHCX_ActiveFlags &&& shl32 1 cfg.ISM330DHCX_ID_ACCELEROMETER) == 0 then
    let s := sensorLockCreate hw s
    let s := sensorLock s
    let s := emit s (Ev.ISM330DHCX_FIFO_Init cfg.ISM330DHCX_ID_ACCELEROMETER)
    if hw.fifoInit == 0 then
      let cleared :=
        if s.ISM330DHCX_ActiveFlags == 0 then
          clearFIFO cfg.ISM330DHCX_ID_ACCELEROMETER hw.drain s
        else some s
      match cleared with
      | none => none
      | some s =>
        let s := emit s Ev.ISM330DHCX_ACC_Enable
        if hw.enable == 0 then
          let flags := u8 (s.ISM330DHCX_ActiveFlags ||| shl32 1 cfg.ISM330DHCX_ID_ACCELEROMETER)
          let s := { s with ISM330DHCX_ActiveFlags := flags }
          some (SENSOR_OK, sensorUnLock s)
        else
          some (SENSOR_ERROR, sensorUnLock s)
    else
      some (SENSOR_ERROR, sensorUnLock s)
  else
    some (SENSOR_ERROR, s)

def AccelerometerDisable (cfg : Cfg) (hw : Hw) (s : DriverState) : Int × DriverState :=
  if (s.ISM330DHCX_ActiveFlags &&& shl32 1 cfg.ISM330DHCX_ID_ACCELEROMETER) == 1 then
    let s := sensorLock s
    let s := emit s Ev.ISM330DHCX_ACC_Disable
    if hw.disable == 0 then
      let s := emit s (Ev.ISM330DHCX_FIFO_Uninit cfg.ISM330DHCX_ID_ACCELEROMETER)
      if hw.fifoUninit == 0 then
        let flags := u8 (s.ISM330DHCX_ActiveFlags &&& not32 (shl32 1 cfg.ISM330DHCX_ID_ACCELEROMETER))
        let s := { s with ISM330DHCX_ActiveFlags := flags }
        (SENSOR_OK, sensorLockDelete (sensorUnLock s))
      else
        (SENSOR_ERROR, sensorLockDelete (sensorUnLock s))
    else
      (SENSOR_ERROR, sensorLockDelete (sensorUnLock s))
  else
    (SENSOR_ERROR, s)

def AccelerometerGetStatus (cfg : Cfg) (s : DriverState) : sensorStatus_t :=
  { active := (s.ISM330DHCX_ActiveFlags >>> cfg.ISM330DHCX_ID_ACCELEROMETER) &&& 1,
    overflow := 0, reserved := 0 }

def AccelerometerReadSamples (cfg : Cfg) (hw : Hw) (num_samples : Nat) (buf : Option (List Nat))
    (buf_size : Nat) (s : DriverState) : Nat × Option (List Nat) × DriverState :=
  if num_samples != 0 && buf.isSome &&
      decide (buf_size ≥ (num_samples * AccelerometerConfig.sample_size) % 4294967296) then
    let s := sensorLock s
    let s := emit s (Ev.ISM330DHCX_FIFO_Read cfg.ISM330DHCX_ID_ACCELEROMETER num_samples)
    (hw.fifoRead % 4294967296,
      buf.map (fun b => memcpy b hw.fifoData hw.fifoData.length), sensorUnLock s)
  else
    (0, buf, s)

/-! ## Sensor4: Gyroscope -/

def GyroscopeConfig : sensorConfig_t :=
  { name := "Gyroscope", dma_mode := 0, sample_size := 6,
    sample_interval := GYROSCOPE_SAMPLE_INTERVAL, fifo_size := GYROSCOPE_FIFO_SIZE,
    data_threshold := 0 }

def GyroscopeGetConfig : sensorConfig_t := GyroscopeConfig

def GyroscopeRegisterEvents (event_cb : Option Nat) (event_mask : Nat) : Int :=
  if event_cb == none || event_mask == 0 then SENSOR_OK else SENSOR_ERROR

def GyroscopeEnable (cfg : Cfg) (hw : Hw) (s : DriverState) : Option (Int × DriverState) :=
  if (s.ISM330DHCX_ActiveFlags &&& shl32 1 cfg.ISM330DHCX_ID_GYROSCOPE) == 0 then
    let s := sensorLockCreate hw s
    let s := sensorLock s
    let s := emit s (Ev.ISM330DHCX_FIFO_Init cfg.ISM330DHCX_ID_GYROSCOPE)
    if hw.fifoInit == 0 then
      let cleared :=
        if s.ISM330DHCX_ActiveFlags == 0 then
          clearFIFO cfg.ISM330DHCX_ID_GYROSCOPE hw.drain s
        else some s
      match cleared with
      | none => none
      | some s =>
        let s := emit s Ev.ISM330DHCX_GYRO_Enable
        if hw.enable == 0 then
          let flags := u8 (s.ISM330DHCX_ActiveFlags ||| shl32 1 cfg.ISM330DHCX_ID_GYROSCOPE)
          let s := { s with ISM330DHCX_ActiveFlags := flags }
          some (SENSOR_OK, sensorUnLock s)
        else
          some (SENSOR_ERROR, sensorUnLock s)
    else
      some (SENSOR_ERROR, sensorUnLock s)
  else
    some (SENSOR_ERROR, s)

def GyroscopeDisable (cfg : Cfg) (hw : Hw) (s : DriverState) : Int × DriverState :=
  if (s.ISM330DHCX_ActiveFlags &&& shl32 1 cfg.ISM330DHCX_ID_GYROSCOPE) == 1 then
    let s := sensorLock s
    let s := emit s (Ev.BSP_MOTION_SENSOR_Disable 0 Measurand.MOTION_GYRO)
    if hw.disable == BSP_ERROR_NONE then
      let s := emit s (Ev.ISM330DHCX_FIFO_Uninit cfg.ISM330DHCX_ID_GYROSCOPE)
      if hw.fifoUninit == 0 then
        let flags := u8 (s.ISM330DHCX_ActiveFlags &&& not32 (shl32 1 cfg.ISM330DHCX_ID_GYROSCOPE))
        let s := { s with ISM330DHCX_ActiveFlags := flags }
        (SENSOR_OK, sensorLockDelete (sensorUnLock s))
      else
        (SENSOR_ERROR, sensorLockDelete (sensorUnLock s))
    else
      (SENSOR_ERROR, sensorLockDelete (sensorUnLock s))
  else
    (SENSOR_ERROR, s)

def GyroscopeGetStatus (cfg : Cfg) (s : DriverState) : sensorStatus_t :=
  { active := (s.ISM330DHCX_ActiveFlags >>> cfg.ISM330DHCX_ID_GYROSCOPE) &&& 1,
    overflow := 0, reserved := 0 }

def GyroscopeReadSamples (cfg : Cfg) (hw : Hw) (num_samples : Nat) (buf : Option (List Nat))
    (buf_size : Nat) (s : DriverState) : Nat × Option (List Nat) × DriverState :=
  if num_samples != 0 && buf.isSome &&
      decide (buf_size ≥ (num_samples * GyroscopeConfig.sample_size) % 4294967296) then
    let s := sensorLock s
    let s := emit s (Ev.ISM330DHCX_FIFO_Read cfg.ISM330DHCX_ID_GYROSCOPE num_samples)
    (hw.fifoRead % 4294967296,
      buf.map (fun b => memcpy b hw.fifoData hw.fifoData.length), sensorUnLock s)
  else
    (0, buf, s)

/-! ## Sensor5: Magnetometer -/

def MagnetometerConfig : sensorConfig_t :=
  { name := "Magnetometer", dma_mode := 0, sample_size := 6,
    sample_interval := MAGNETOMETER_SAMPLE_INTERVAL, fifo_size := 6, data_threshold := 0 }

def MagnetometerGetConfig : sensorConfig_t := MagnetometerConfig

def MagnetometerRegisterEvents (event_cb : Option Nat) (event_mask : Nat) : Int :=
  if event_cb == none || event_mask == 0 then SENSOR_OK else SENSOR_ERROR

def MagnetometerEnable (hw : Hw) (s : DriverState) : Int × DriverState :=
  if s.MagnetometerActiveFlag == 0 then
    let s := sensorLockCreate hw s
    let s := sensorLock s
    let s := emit s (Ev.BSP_MOTION_SENSOR_Enable 1 Measurand.MOTION_MAGNETO)
    if hw.enable == BSP_ERROR_NONE then
      let s := { s with MagnetometerActiveFlag := 1 }
      (SENSOR_OK, sensorUnLock s)
    else
      (SENSOR_ERROR, sensorUnLock s)
  else
    (SENSOR_ERROR, s)

def MagnetometerDisable (hw : Hw) (s : DriverState) : Int × DriverState :=
  if s.MagnetometerActiveFlag == 1 then
    let s := sensorLock s
    let s := emit s (Ev.BSP_ENV_SENSOR_Disable 0 Measurand.ENV_TEMPERATURE)
    if hw.disable == BSP_ERROR_NONE then
      let s := { s with MagnetometerActiveFlag := 0 }
      (SENSOR_OK, sensorLockDelete (sensorUnLock s))
    else
      (SENSOR_ERROR, sensorLockDelete (sensorUnLock s))
  else
    (SENSOR_ERROR, s)

def MagnetometerGetStatus (s : DriverState) : sensorStatus_t :=
  { active := s.MagnetometerActiveFlag % 2, overflow := 0, reserved := 0 }

def MagnetometerReadSamples (hw : Hw) (num_samples : Nat) (buf : Option (List Nat))
    (buf_size : Nat) (s : DriverState) : Nat × Option (List Nat) × DriverState :=
  if num_samples != 0 && buf.isSome &&
      decide (buf_size ≥ (num_samples * MagnetometerConfig.sample_size) % 4294967296) then
    let s := sensorLock s
    let s := emit s (Ev.IIS2MDC_MAG_Get_DRDY_Status 1)
    if hw.drdyRet == 0 && hw.drdyStat != 0 then
      let s := emit s (Ev.BSP_MOTION_SENSOR_GetAxesRaw 1 Measurand.MOTION_MAGNETO)
      if hw.getValue == BSP_ERROR_NONE then
        (1, buf.map (fun b => memcpy b hw.value 6), sensorUnLock s)
      else
        (0, buf, sensorUnLock s)
    else
      (0, buf, sensorUnLock s)
  else
    (0, buf, s)

/-! ## Global driver structures -/

/-- Access structure of the sensor driver, `DRIVER_SENSOR`. Only the enable
functions of the two FIFO sensors hold a loop; `Enable` has no result when
that loop does not end. -/
structure DRIVER_SENSOR where
  GetConfig : sensorConfig_t
  RegisterEvents : Option Nat → Nat → Int
  Enable : Hw → DriverState → Option (Int × DriverState)
  Disable : Hw → DriverState → Int × DriverState
  GetStatus : DriverState → sensorStatus_t
  ReadSamples : Hw → Nat → Option (List Nat) → Nat → DriverState →
    Nat × Option (List Nat) × DriverState

def Driver_Sensor0 : DRIVER_SENSOR :=
  { GetConfig := TemperatureSensorGetConfig
    RegisterEvents := TemperatureSensorRegisterEvents
    Enable := fun hw s => some (TemperatureSensorEnable hw s)
    Disable := TemperatureSensorDisable
    GetStatus := TemperatureSensorGetStatus
    ReadSamples := TemperatureSensorReadSamples }

def Driver_Sensor1 : DRIVER_SENSOR :=
  { GetConfig := HumiditySensorGetConfig
    RegisterEvents := HumiditySensorRegisterEvents
    Enable := fun hw s => some (HumiditySensorEnable hw s)
    Disable := HumiditySensorDisable
    GetStatus := HumiditySensorGetStatus
    ReadSamples := HumiditySensorReadSamples }

def Driver_Sensor2 : DRIVER_SENSOR :=
  { GetConfig := PressureSensorGetConfig
    RegisterEvents := PressureSensorRegisterEvents
    Enable := fun hw s => some (PressureSensorEnable hw s)
    Disable := PressureSensorDisable
    GetStatus := PressureSensorGetStatus
    ReadSamples := PressureSensorReadSamples }

def Driver_Sensor3 (cfg : Cfg) : DRIVER_SENSOR :=
  { GetConfig := AccelerometerGetConfig
    RegisterEvents := AccelerometerRegisterEvents
    Enable := AccelerometerEnable cfg
    Disable := AccelerometerDisable cfg
    GetStatus := AccelerometerGetStatus cfg
    ReadSamples := AccelerometerReadSamples cfg }

def Driver_Sensor4 (cfg : Cfg) : DRIVER_SENSOR :=
  { GetConfig := GyroscopeGetConfig
    RegisterEvents := GyroscopeRegisterEvents
    Enable := GyroscopeEnable cfg
    Disable := GyroscopeDisable cfg
    GetStatus := GyroscopeGetStatus cfg
    ReadSamples := GyroscopeReadSamples cfg }

def Driver_Sensor5 : DRIVER_SENSOR :=
  { GetConfig := MagnetometerGetConfig
    RegisterEvents := MagnetometerRegisterEvents
    Enable := fun hw s => some (MagnetometerEnable hw s)
    Disable := MagnetometerDisable
    GetStatus := MagnetometerGetStatus
    ReadSamples := MagnetometerReadSamples }

/-! ## The upper layer: calls on the six instances -/

/-- The six driver instances. -/
inductive Sensor where
  | Temperature
  | Humidity
  | Pressure
  | Accelerometer
  | Gyroscope
  | Magnetometer
  deriving DecidableEq, Repr

/-- The driver structure of an instance. -/
def driver (cfg : Cfg) : Sensor → DRIVER_SENSOR
  | Sensor.Temperature => Driver_Sensor0
  | Sensor.Humidity => Driver_Sensor1
  | Sensor.Pressure => Driver_Sensor2
  | Sensor.Accelerometer => Driver_Sensor3 cfg
  | Sensor.Gyroscope => Driver_Sensor4 cfg
  | Sensor.Magnetometer => Driver_Sensor5

/-- All instances of the registry. -/
def Sensor.all : List Sensor :=
  [Sensor.Temperature, Sensor.Humidity, Sensor.Pressure, Sensor.Accelerometer,
   Sensor.Gyroscope, Sensor.Magnetometer]

/-- The two sensors read through the ISM330DHCX FIFO. -/
def Sensor.isFifo : Sensor → Bool
  | Sensor.Accelerometer => true
  | Sensor.Gyroscope => true
  | _ => false

/-- An instance is ACTIVE when its `GetStatus` reports `active = 1`. -/
def isActive (cfg : Cfg) (s : DriverState) (x : Sensor) : Bool :=
  ((driver cfg x).GetStatus s).active == 1

/-- At least one instance of the registry is ACTIVE. -/
def anyActive (cfg : Cfg) (s : DriverState) : Bool :=
  Sensor.all.any (isActive cfg s)

/-- Number of instances that are ACTIVE. -/
def activeCount (cfg : Cfg) (s : DriverState) : Nat :=
  (Sensor.all.filter (isActive cfg s)).length

/-- The active flags of all instances. -/
def flagsOf (s : DriverState) : Nat × Nat × Nat × Nat × Nat :=
  (s.TemperatureSensorActiveFlag, s.HumiditySensorActiveFlag, s.PressureSensorActiveFlag,
   s.MagnetometerActiveFlag, s.ISM330DHCX_ActiveFlags)

/-- A state as the C types and the driver keep it: the four scalar flags are
`0` or `1`, the channel mask is a `uint8_t`, the counter a `uint32_t`. -/
def DriverState.WF (s : DriverState) : Prop :=
  s.TemperatureSensorActiveFlag ≤ 1 ∧ s.HumiditySensorActiveFlag ≤ 1 ∧
  s.PressureSensorActiveFlag ≤ 1 ∧ s.MagnetometerActiveFlag ≤ 1 ∧
  s.ISM330DHCX_ActiveFlags < 256 ∧ s.lock_cnt < 4294967296

/-- Two distinct bit positions of the `uint8_t` channel mask. -/
def Cfg.WF (cfg : Cfg) : Prop :=
  cfg.ISM330DHCX_ID_ACCELEROMETER < 8 ∧ cfg.ISM330DHCX_ID_GYROSCOPE < 8 ∧
  cfg.ISM330DHCX_ID_ACCELEROMETER ≠ cfg.ISM330DHCX_ID_GYROSCOPE

/-- The operations of the driver interface that act on the driver state. -/
inductive Op where
  | Enable
  | Disable
  | GetStatus
  | ReadSamples (num_samples : Nat) (buf : Option (List Nat)) (buf_size : Nat)
  | RegisterEvents (event_cb : Option Nat) (event_mask : Nat)
  deriving DecidableEq, Repr

/-- One call of the upper layer, with the answers the collaborators give during it. -/
structure Call where
  sensor : Sensor
  op : Op
  hw : Hw
  deriving DecidableEq, Repr

/-- The state after one call; no state when the call does not return. -/
def step (cfg : Cfg) (s : DriverState) (c : Call) : Option DriverState :=
  match c.op with
  | Op.Enable => ((driver cfg c.sensor).Enable c.hw s).map (fun r => r.2)
  | Op.Disable => some ((driver cfg c.sensor).Disable c.hw s).2
  | Op.GetStatus => some s
  | Op.ReadSamples n buf size => some ((driver cfg c.sensor).ReadSamples c.hw n buf size s).2.2
  | Op.RegisterEvents _ _ => some s

/-- The state after a sequence of calls. -/
def run (cfg : Cfg) : DriverState → List Call → Option DriverState
  | s, [] => some s
  | s, c :: cs =>
    match step cfg s c with
    | none => none
    | some s1 => run cfg s1 cs

/-- Every hardware call of the enable path answers success. -/
def enableHwOk (x : Sensor) (hw : Hw) : Bool :=
  if x.isFifo then hw.fifoInit == 0 && hw.enable == 0 else hw.enable == BSP_ERROR_NONE

/-- Every hardware call of the disable path answers success. -/
def disableHwOk (x : Sensor) (hw : Hw) : Bool :=
  if x.isFifo then hw.disable == 0 && hw.fifoUninit == 0 else hw.disable == BSP_ERROR_NONE

/-- The call is an `Enable` or a `Disable`. -/
def Call.isEnableDisable (c : Call) : Bool :=
  match c.op with
  | Op.Enable => true
  | Op.Disable => true
  | _ => false

/-- No hardware call of a `Disable` fails. -/
def Call.disableOk (c : Call) : Bool :=
  match c.op with
  | Op.Disable => disableHwOk c.sensor c.hw
  | _ => true

/-- No hardware call of an `Enable` fails. -/
def Call.enableOk (c : Call) : Bool :=
  match c.op with
  | Op.Enable => enableHwOk c.sensor c.hw
  | _ => true

/-- The value of `lock_cnt` recorded by a call of `osMutexAcquire`. -/
def Ev.lockCount : Ev → Option Nat
  | Ev.osMutexAcquire _ cnt => some cnt
  | _ => none

/-- The values `lock_cnt` had at the calls of `sensorLock`, oldest first. -/
def lockCounts (tr : List Ev) : List Nat :=
  tr.filterMap Ev.lockCount

/-- The stale-sample loop of an `Enable` ends: it is not entered, or the FIFO
answers `0` at some read. -/
def drainEnds (x : Sensor) (hw : Hw) (s : DriverState) : Prop :=
  x.isFifo = true → s.ISM330DHCX_ActiveFlags = 0 → 0 ∈ hw.drain

/-- The call is a `ReadSamples`. -/
def Call.isRead (c : Call) : Bool :=
  match c.op with
  | Op.ReadSamples _ _ _ => true
  | _ => false

/-- Along the sequence of calls, every `ReadSamples` is made in a state where
at least one instance is ACTIVE. -/
def readsWhileActive (cfg : Cfg) : DriverState → List Call → Prop
  | _, [] => True
  | s, c :: cs =>
    (c.isRead = true → anyActive cfg s = true) ∧
      ∀ t, step cfg s c = some t → readsWhileActive cfg t cs

/-- Number of calls of `osMutexNew` in a trace. -/
def mutexNews (tr : List Ev) : Nat :=
  tr.count Ev.osMutexNew

/-- Answers with every call succeeding, data ready and an empty FIFO. -/
def Hw.ok : Hw :=
  { mutexNew := some 1, enable := 0, disable := 0, getValue := 0, value := [0, 0, 0, 0, 0, 0],
    drdyRet := 0, drdyStat := 1, fifoInit := 0, fifoUninit := 0, drain := [0],
    fifoRead := 0, fifoData := [] }

/-- Answers with the hardware enable and disable calls failing. -/
def Hw.fail : Hw :=
  { Hw.ok with enable := -1, disable := -1 }

/-- Channel ids 0 (accelerometer) and 1 (gyroscope). -/
def Cfg.std : Cfg :=
  { ISM330DHCX_ID_ACCELEROMETER := 0, ISM330DHCX_ID_GYROSCOPE := 1 }

/-! ## Notions used by the claims on reads, status and the lock manager -/

/-- The size check of `ReadSamples` as the code computes it, the product in
`uint32_t` arithmetic. -/
def sizeCheck (cfg : Cfg) (x : Sensor) (num_samples buf_size : Nat) : Bool :=
  decide (buf_size ≥ (num_samples * (driver cfg x).GetConfig.sample_size) % 4294967296)

/-- The call fetches a measurement from the hardware. -/
def Ev.isFetch : Ev → Bool
  | Ev.BSP_ENV_SENSOR_GetValue _ _ => true
  | Ev.BSP_MOTION_SENSOR_GetAxesRaw _ _ => true
  | _ => false

/-- Number of measurements fetched from the hardware in a trace. -/
def valueFetches (tr : List Ev) : Nat :=
  tr.countP Ev.isFetch

/-- The call is a read of the ISM330DHCX FIFO. -/
def Ev.isFifoRead : Ev → Bool
  | Ev.ISM330DHCX_FIFO_Read _ _ => true
  | _ => false

/-- Number of reads of the ISM330DHCX FIFO in a trace. -/
def fifoReads (tr : List Ev) : Nat :=
  tr.countP Ev.isFifoRead

/-- The active flag of an instance, or its bit of the channel mask, is set. -/
def flagSet (cfg : Cfg) (s : DriverState) : Sensor → Bool
  | Sensor.Temperature => s.TemperatureSensorActiveFlag != 0
  | Sensor.Humidity => s.HumiditySensorActiveFlag != 0
  | Sensor.Pressure => s.PressureSensorActiveFlag != 0
  | Sensor.Accelerometer =>
    (s.ISM330DHCX_ActiveFlags &&& shl32 1 cfg.ISM330DHCX_ID_ACCELEROMETER) != 0
  | Sensor.Gyroscope =>
    (s.ISM330DHCX_ActiveFlags &&& shl32 1 cfg.ISM330DHCX_ID_GYROSCOPE) != 0
  | Sensor.Magnetometer => s.MagnetometerActiveFlag != 0

/-- A call of the shared lock manager. -/
inductive LockOp where
  | Create (hw : Hw)
  | Delete
  deriving DecidableEq, Repr

/-- The state after one call of the lock manager. -/
def lockStep (s : DriverState) : LockOp → DriverState
  | LockOp.Create hw => sensorLockCreate hw s
  | LockOp.Delete => sensorLockDelete s

/-- The state after a sequence of calls of the lock manager. -/
def lockRun (s : DriverState) (ops : List LockOp) : DriverState :=
  ops.foldl lockStep s

/-- The references outstanding after a sequence of calls, counted without a
bound from `n`: a `Create` adds one, a `Delete` takes one when there is one. -/
def outstanding (n : Nat) (ops : List LockOp) : Nat :=
  ops.foldl (fun m op => match op with
    | LockOp.Create _ => m + 1
    | LockOp.Delete => m - 1) n

/-- The mutex is allocated: the last of the calls `osMutexNew` and
`osMutexDelete` in the trace is an `osMutexNew`. -/
def mutexAllocated (tr : List Ev) : Bool :=
  tr.foldl (fun b e => match e with
    | Ev.osMutexNew => true
    | Ev.osMutexDelete _ => false
    | _ => b) false

/-- Number of calls of `osMutexDelete` in a trace. -/
def mutexDeletes (tr : List Ev) : Nat :=
  tr.countP (fun e => match e with
    | Ev.osMutexDelete _ => true
    | _ => false)

/-- Answers of a FIFO holding one sample: the read of `ReadSamples` returns 1. -/
def Hw.oneSample : Hw :=
  { Hw.ok with fifoRead := 1, fifoData := [0, 0, 0, 0, 0, 0] }

/-- A call on instance `x` that takes the driver from `s` to `t` keeps the
active flag of every other scalar instance, and every bit of the channel mask
other than the bit of `x` itself. -/
def keepsOthers (cfg : Cfg) (x : Sensor) (s t : DriverState) : Prop :=
  (x ≠ Sensor.Temperature → t.TemperatureSensorActiveFlag = s.TemperatureSensorActiveFlag) ∧
  (x ≠ Sensor.Humidity → t.HumiditySensorActiveFlag = s.HumiditySensorActiveFlag) ∧
  (x ≠ Sensor.Pressure → t.PressureSensorActiveFlag = s.PressureSensorActiveFlag) ∧
  (x ≠ Sensor.Magnetometer → t.MagnetometerActiveFlag = s.MagnetometerActiveFlag) ∧
  ∀ j, j < 8 → (x = Sensor.Accelerometer → j ≠ cfg.ISM330DHCX_ID_ACCELEROMETER) →
    (x = Sensor.Gyroscope → j ≠ cfg.ISM330DHCX_ID_GYROSCOPE) →
    t.ISM330DHCX_ActiveFlags.testBit j = s.ISM330DHCX_ActiveFlags.testBit j

/-! ## Bit arithmetic of the channel mask -/

theorem shl32_one {i : Nat} (hi : i < 32) : shl32 1 i = 2 ^ i := by
  unfold shl32
  rw [Nat.one_shiftLeft]
  apply Nat.mod_eq_of_lt
  calc 2 ^ i < 2 ^ 32 := Nat.pow_lt_pow_right (by norm_num) hi
    _ = 4294967296 := by norm_num

theorem shr_and_one (m i : Nat) : ((m >>> i) &&& 1 == 1) = m.testBit i := by
  rw [Nat.and_one_is_mod, Nat.testBit_to_div_mod, Nat.shiftRight_eq_div_pow]
  by_cases h : m / 2 ^ i % 2 = 1 <;> simp [h]

theorem and_two_pow_eq (m i : Nat) : m &&& 2 ^ i = if m.testBit i then 2 ^ i else 0 := by
  apply Nat.eq_of_testBit_eq
  intro j
  rw [Nat.testBit_land, Nat.testBit_two_pow]
  by_cases h : m.testBit i
  · simp only [h, if_true, Nat.testBit_two_pow]
    by_cases hij : i = j
    · subst hij; simp [h]
    · simp [hij]
  · simp only [h]
    by_cases hij : i = j
    · subst hij; simp [h]
    · simp [hij]

theorem and_shl32_eq_zero (m : Nat) {i : Nat} (hi : i < 32) :
    ((m &&& shl32 1 i) == 0) = !m.testBit i := by
  rw [shl32_one hi, and_two_pow_eq]
  by_cases h : m.testBit i <;> simp [h]

theorem and_shl32_eq_one (m : Nat) {i : Nat} (hi : i < 32) :
    ((m &&& shl32 1 i) == 1) = (m.testBit i && decide (i = 0)) := by
  rw [shl32_one hi, and_two_pow_eq]
  by_cases h : m.testBit i
  · by_cases h0 : i = 0
    · subst h0; simp [h]
    · have : 2 ^ i ≠ 1 := by
        have h1 : 1 < 2 ^ i := Nat.one_lt_two_pow h0
        omega
      simp [h, h0, this]
  · simp [h]

theorem set_testBit (m : Nat) {i j : Nat} (hi : i < 8) (hj : j < 8) :
    (u8 (m ||| shl32 1 i)).testBit j = (m.testBit j || decide (i = j)) := by
  unfold u8
  rw [shl32_one (by omega), show (256:Nat) = 2 ^ 8 by norm_num, Nat.testBit_mod_two_pow,
    Nat.testBit_lor, Nat.testBit_two_pow]
  simp [hj]

theorem not32_two_pow_testBit (i j : Nat) (hi : i < 32) :
    (not32 (2 ^ i)).testBit j = (decide (j < 32) && decide (i ≠ j)) := by
  unfold not32
  have h2 : 2 ^ i < 2 ^ 32 := Nat.pow_lt_pow_right (by norm_num) hi
  rw [Nat.mod_eq_of_lt (by simpa using h2)]
  have := Nat.testBit_two_pow_sub_succ h2 j
  rw [show (4294967295 : Nat) - 2 ^ i = 2 ^ 32 - (2 ^ i + 1) by norm_num; omega, this,
    Nat.testBit_two_pow]
  by_cases h : j < 32 <;> by_cases hij : i = j <;> simp [h, hij]

theorem clear_testBit (m : Nat) {i j : Nat} (hi : i < 8) (hj : j < 8) :
    (u8 (m &&& not32 (shl32 1 i))).testBit j = (m.testBit j && decide (i ≠ j)) := by
  unfold u8
  rw [shl32_one (by omega), show (256:Nat) = 2 ^ 8 by norm_num, Nat.testBit_mod_two_pow,
    Nat.testBit_land, not32_two_pow_testBit i j (by omega)]
  simp [hj, show j < 32 by omega]

theorem u8_lt (a : Nat) : u8 a < 256 := Nat.mod_lt _ (by norm_num)

/-! ## What `GetStatus` reads -/

theorem isActive_Temperature (cfg : Cfg) (s : DriverState) :
    isActive cfg s Sensor.Temperature = (s.TemperatureSensorActiveFlag % 2 == 1) := rfl

theorem isActive_Humidity (cfg : Cfg) (s : DriverState) :
    isActive cfg s Sensor.Humidity = (s.HumiditySensorActiveFlag % 2 == 1) := rfl

theorem isActive_Pressure (cfg : Cfg) (s : DriverState) :
    isActive cfg s Sensor.Pressure = (s.PressureSensorActiveFlag % 2 == 1) := rfl

theorem isActive_Magnetometer (cfg : Cfg) (s : DriverState) :
    isActive cfg s Sensor.Magnetometer = (s.MagnetometerActiveFlag % 2 == 1) := rfl

theorem isActive_Accelerometer (cfg : Cfg) (s : DriverState) :
    isActive cfg s Sensor.Accelerometer =
      s.ISM330DHCX_ActiveFlags.testBit cfg.ISM330DHCX_ID_ACCELEROMETER := by
  simp only [isActive, driver, Driver_Sensor3, AccelerometerGetStatus, shr_and_one]

theorem isActive_Gyroscope (cfg : Cfg) (s : DriverState) :
    isActive cfg s Sensor.Gyroscope =
      s.ISM330DHCX_ActiveFlags.testBit cfg.ISM330DHCX_ID_GYROSCOPE := by
  simp only [isActive, driver, Driver_Sensor4, GyroscopeGetStatus, shr_and_one]

/-- The ACTIVE status of every instance is read from the active flags alone. -/
theorem isActive_congr (cfg : Cfg) {s t : DriverState} (h : flagsOf t = flagsOf s) (y : Sensor) :
    isActive cfg t y = isActive cfg s y := by
  simp only [flagsOf, Prod.mk.injEq] at h
  obtain ⟨h1, h2, h3, h4, h5⟩ := h
  cases y
  · rw [isActive_Temperature, isActive_Temperature, h1]
  · rw [isActive_Humidity, isActive_Humidity, h2]
  · rw [isActive_Pressure, isActive_Pressure, h3]
  · rw [isActive_Accelerometer, isActive_Accelerometer, h5]
  · rw [isActive_Gyroscope, isActive_Gyroscope, h5]
  · rw [isActive_Magnetometer, isActive_Magnetometer, h4]

/-! ## Calls on an instance that is already in the requested state -/

/-- `Enable` on an instance that is ACTIVE: the guard of the function fails, the
result is `SENSOR_ERROR` and the state is the one before the call. -/
theorem Enable_of_active (cfg : Cfg) (hcfg : cfg.WF) (x : Sensor) (hw : Hw)
    (s : DriverState) (hact : isActive cfg s x = true) :
    (driver cfg x).Enable hw s = some (SENSOR_ERROR, s) := by
  obtain ⟨ha, hg, _⟩ := hcfg
  cases x
  case Temperature =>
    have h0 : s.TemperatureSensorActiveFlag ≠ 0 := by
      intro h; simp [isActive_Temperature, h] at hact
    simp [driver, Driver_Sensor0, TemperatureSensorEnable, h0]
  case Humidity =>
    have h0 : s.HumiditySensorActiveFlag ≠ 0 := by
      intro h; simp [isActive_Humidity, h] at hact
    simp [driver, Driver_Sensor1, HumiditySensorEnable, h0]
  case Pressure =>
    have h0 : s.PressureSensorActiveFlag ≠ 0 := by
      intro h; simp [isActive_Pressure, h] at hact
    simp [driver, Driver_Sensor2, PressureSensorEnable, h0]
  case Accelerometer =>
    rw [isActive_Accelerometer] at hact
    simp [driver, Driver_Sensor3, AccelerometerEnable,
      and_shl32_eq_zero _ (show cfg.ISM330DHCX_ID_ACCELEROMETER < 32 by omega), hact]
  case Gyroscope =>
    rw [isActive_Gyroscope] at hact
    simp [driver, Driver_Sensor4, GyroscopeEnable,
      and_shl32_eq_zero _ (show cfg.ISM330DHCX_ID_GYROSCOPE < 32 by omega), hact]
  case Magnetometer =>
    have h0 : s.MagnetometerActiveFlag ≠ 0 := by
      intro h; simp [isActive_Magnetometer, h] at hact
    simp [driver, Driver_Sensor5, MagnetometerEnable, h0]

/-- `Disable` on an instance that is INACTIVE: the guard of the function fails,
the result is `SENSOR_ERROR` and the state is the one before the call. -/
theorem Disable_of_inactive (cfg : Cfg) (hcfg : cfg.WF) (x : Sensor) (hw : Hw)
    (s : DriverState) (hact : isActive cfg s x = false) :
    (driver cfg x).Disable hw s = (SENSOR_ERROR, s) := by
  obtain ⟨ha, hg, _⟩ := hcfg
  cases x
  case Temperature =>
    have h0 : s.TemperatureSensorActiveFlag ≠ 1 := by
      intro h; simp [isActive_Temperature, h] at hact
    simp [driver, Driver_Sensor0, TemperatureSensorDisable, h0]
  case Humidity =>
    have h0 : s.HumiditySensorActiveFlag ≠ 1 := by
      intro h; simp [isActive_Humidity, h] at hact
    simp [driver, Driver_Sensor1, HumiditySensorDisable, h0]
  case Pressure =>
    have h0 : s.PressureSensorActiveFlag ≠ 1 := by
      intro h; simp [isActive_Pressure, h] at hact
    simp [driver, Driver_Sensor2, PressureSensorDisable, h0]
  case Accelerometer =>
    rw [isActive_Accelerometer] at hact
    simp [driver, Driver_Sensor3, AccelerometerDisable,
      and_shl32_eq_one _ (show cfg.ISM330DHCX_ID_ACCELEROMETER < 32 by omega), hact]
  case Gyroscope =>
    rw [isActive_Gyroscope] at hact
    simp [driver, Driver_Sensor4, GyroscopeDisable,
      and_shl32_eq_one _ (show cfg.ISM330DHCX_ID_GYROSCOPE < 32 by omega), hact]
  case Magnetometer =>
    have h0 : s.MagnetometerActiveFlag ≠ 1 := by
      intro h; simp [isActive_Magnetometer, h] at hact
    simp [driver, Driver_Sensor5, MagnetometerDisable, h0]

/-! ## The helpers change the trace and the lock only -/

@[simp] theorem flagsOf_emit (s : DriverState) (e : Ev) : flagsOf (emit s e) = flagsOf s := rfl

@[simp] theorem flagsOf_sensorLock (s : DriverState) : flagsOf (sensorLock s) = flagsOf s := rfl

@[simp] theorem flagsOf_sensorUnLock (s : DriverState) : flagsOf (sensorUnLock s) = flagsOf s := rfl

@[simp] theorem flagsOf_sensorLockCreate (hw : Hw) (s : DriverState) :
    flagsOf (sensorLockCreate hw s) = flagsOf s := by
  unfold sensorLockCreate
  split <;> rfl

@[simp] theorem flagsOf_sensorLockDelete (s : DriverState) :
    flagsOf (sensorLockDelete s) = flagsOf s := by
  unfold sensorLockDelete
  dsimp only
  split
  · split <;> rfl
  · rfl

/-- The stale-sample loop, when it ends, has added one-sample reads to the
trace, at least one, and changed nothing else. -/
theorem clearFIFO_eq (id : Nat) (reads : List Nat) (s t : DriverState)
    (h : clearFIFO id reads s = some t) :
    ∃ k, 0 < k ∧ t = { s with trace := s.trace ++ List.replicate k (Ev.ISM330DHCX_FIFO_Read id 1) } := by
  induction reads generalizing s with
  | nil => simp [clearFIFO] at h
  | cons r reads ih =>
    simp only [clearFIFO] at h
    split at h
    · obtain ⟨k, _, hk⟩ := ih _ h
      refine ⟨k + 1, Nat.succ_pos k, ?_⟩
      rw [hk]
      simp [emit, List.replicate_succ]
    · refine ⟨1, Nat.one_pos, ?_⟩
      simp only [Option.some.injEq] at h
      rw [← h]
      simp [emit]

/-- The stale-sample loop ends when the FIFO answers `0` at some read. -/
theorem clearFIFO_isSome (id : Nat) (reads : List Nat) (s : DriverState) (h : 0 ∈ reads) :
    (clearFIFO id reads s).isSome = true := by
  induction reads generalizing s with
  | nil => simp at h
  | cons r reads ih =>
    simp only [clearFIFO]
    split
    · rename_i hr
      have hr0 : r ≠ 0 := by simpa using hr
      rcases List.mem_cons.mp h with h0 | h0
      · exact absurd h0.symm hr0
      · exact ih _ h0
    · rfl

/-- The guarded stale-sample loop of the two FIFO enable functions: when it
ends, only reads were added to the trace. -/
theorem cleared_eq (id : Nat) (reads : List Nat) (s t : DriverState)
    (h : (if (s.ISM330DHCX_ActiveFlags == 0) = true then clearFIFO id reads s else some s)
      = some t) :
    ∃ k, t = { s with trace := s.trace ++ List.replicate k (Ev.ISM330DHCX_FIFO_Read id 1) } := by
  split at h
  · obtain ⟨k, _, hk⟩ := clearFIFO_eq id reads s t h
    exact ⟨k, hk⟩
  · refine ⟨0, ?_⟩
    simp only [Option.some.injEq] at h
    rw [← h]
    simp

theorem flagsOf_cleared (id : Nat) (reads : List Nat) (s t : DriverState)
    (h : (if (s.ISM330DHCX_ActiveFlags == 0) = true then clearFIFO id reads s else some s)
      = some t) : flagsOf t = flagsOf s := by
  obtain ⟨k, hk⟩ := cleared_eq id reads s t h
  rw [hk]; rfl

/-- A call of `Enable` or `Disable` that returns `SENSOR_ERROR` has assigned no
active flag. -/
theorem flagsOf_of_error (cfg : Cfg) (x : Sensor) (hw : Hw) (s t : DriverState)
    (h : (driver cfg x).Enable hw s = some (SENSOR_ERROR, t) ∨
      (driver cfg x).Disable hw s = (SENSOR_ERROR, t)) :
    flagsOf t = flagsOf s := by
  have hne : SENSOR_OK ≠ SENSOR_ERROR := by decide
  rcases h with h | h
  · cases x
    case Temperature =>
      simp only [driver, Driver_Sensor0, TemperatureSensorEnable, Option.some.injEq] at h
      split_ifs at h <;> simp only [Prod.mk.injEq, true_and] at h <;> first
        | exact absurd h.1 hne
        | (subst h; simp)
    case Humidity =>
      simp only [driver, Driver_Sensor1, HumiditySensorEnable, Option.some.injEq] at h
      split_ifs at h <;> simp only [Prod.mk.injEq, true_and] at h <;> first
        | exact absurd h.1 hne
        | (subst h; simp)
    case Pressure =>
      simp only [driver, Driver_Sensor2, PressureSensorEnable, Option.some.injEq] at h
      split_ifs at h <;> simp only [Prod.mk.injEq, true_and] at h <;> first
        | exact absurd h.1 hne
        | (subst h; simp)
    case Magnetometer =>
      simp only [driver, Driver_Sensor5, MagnetometerEnable, Option.some.injEq] at h
      split_ifs at h <;> simp only [Prod.mk.injEq, true_and] at h <;> first
        | exact absurd h.1 hne
        | (subst h; simp)
    case Accelerometer =>
      simp only [driver, Driver_Sensor3, AccelerometerEnable] at h
      repeat' split at h
      · exact absurd h (by simp)
      · simp only [Option.some.injEq, Prod.mk.injEq] at h
        exact absurd h.1 hne
      · rename_i heq _
        simp only [Option.some.injEq, Prod.mk.injEq, true_and] at h
        subst h
        simpa using flagsOf_cleared _ _ _ _ heq
      · simp only [Option.some.injEq, Prod.mk.injEq, true_and] at h
        subst h; simp
      · simp only [Option.some.injEq, Prod.mk.injEq, true_and] at h
        subst h; rfl
    case Gyroscope =>
      simp only [driver, Driver_Sensor4, GyroscopeEnable] at h
      repeat' split at h
      · exact absurd h (by simp)
      · simp only [Option.some.injEq, Prod.mk.injEq] at h
        exact absurd h.1 hne
      · rename_i heq _
        simp only [Option.some.injEq, Prod.mk.injEq, true_and] at h
        subst h
        simpa using flagsOf_cleared _ _ _ _ heq
      · simp only [Option.some.injEq, Prod.mk.injEq, true_and] at h
        subst h; simp
      · simp only [Option.some.injEq, Prod.mk.injEq, true_and] at h
        subst h; rfl
  · cases x
    case Temperature =>
      simp only [driver, Driver_Sensor0, TemperatureSensorDisable] at h
      split_ifs at h <;> simp only [Prod.mk.injEq, true_and] at h <;> first
        | exact absurd h.1 hne
        | (subst h; simp)
    case Humidity =>
      simp only [driver, Driver_Sensor1, HumiditySensorDisable] at h
      split_ifs at h <;> simp only [Prod.mk.injEq, true_and] at h <;> first
        | exact absurd h.1 hne
        | (subst h; simp)
    case Pressure =>
      simp only [driver, Driver_Sensor2, PressureSensorDisable] at h
      split_ifs at h <;> simp only [Prod.mk.injEq, true_and] at h <;> first
        | exact absurd h.1 hne
        | (subst h; simp)
    case Magnetometer =>
      simp only [driver, Driver_Sensor5, MagnetometerDisable] at h
      split_ifs at h <;> simp only [Prod.mk.injEq, true_and] at h <;> first
        | exact absurd h.1 hne
        | (subst h; simp)
    case Accelerometer =>
      simp only [driver, Driver_Sensor3, AccelerometerDisable] at h
      split_ifs at h <;> simp only [Prod.mk.injEq, true_and] at h <;> first
        | exact absurd h.1 hne
        | (subst h; simp)
    case Gyroscope =>
      simp only [driver, Driver_Sensor4, GyroscopeDisable] at h
      split_ifs at h <;> simp only [Prod.mk.injEq, true_and] at h <;> first
        | exact absurd h.1 hne
        | (subst h; simp)

/-! ## Counting the ACTIVE instances -/

theorem activeCount_eq (cfg : Cfg) (s : DriverState) :
    activeCount cfg s =
      (isActive cfg s Sensor.Temperature).toNat + (isActive cfg s Sensor.Humidity).toNat +
      (isActive cfg s Sensor.Pressure).toNat + (isActive cfg s Sensor.Accelerometer).toNat +
      (isActive cfg s Sensor.Gyroscope).toNat + (isActive cfg s Sensor.Magnetometer).toNat := by
  unfold activeCount Sensor.all
  simp only [List.filter_cons, List.filter_nil]
  generalize isActive cfg s = f
  cases f Sensor.Temperature <;> cases f Sensor.Humidity <;> cases f Sensor.Pressure <;>
    cases f Sensor.Accelerometer <;> cases f Sensor.Gyroscope <;>
    cases f Sensor.Magnetometer <;> rfl

theorem anyActive_iff (cfg : Cfg) (s : DriverState) :
    anyActive cfg s = true ↔ 0 < activeCount cfg s := by
  rw [activeCount_eq]
  unfold anyActive Sensor.all
  simp only [List.any_cons, List.any_nil]
  generalize isActive cfg s = f
  cases f Sensor.Temperature <;> cases f Sensor.Humidity <;> cases f Sensor.Pressure <;>
    cases f Sensor.Accelerometer <;> cases f Sensor.Gyroscope <;>
    cases f Sensor.Magnetometer <;> simp

theorem activeCount_congr (cfg : Cfg) {s t : DriverState}
    (h : ∀ y, isActive cfg t y = isActive cfg s y) : activeCount cfg t = activeCount cfg s := by
  rw [activeCount_eq, activeCount_eq, h, h, h, h, h, h]

theorem activeCount_set (cfg : Cfg) {s t : DriverState} (x : Sensor)
    (hx : isActive cfg s x = false)
    (h : ∀ y, isActive cfg t y = (isActive cfg s y || decide (y = x))) :
    activeCount cfg t = activeCount cfg s + 1 := by
  rw [activeCount_eq, activeCount_eq, h, h, h, h, h, h]
  cases x <;> rw [hx] <;> simp <;> omega

theorem activeCount_clear (cfg : Cfg) {s t : DriverState} (x : Sensor)
    (hx : isActive cfg s x = true)
    (h : ∀ y, isActive cfg t y = (isActive cfg s y && !decide (y = x))) :
    activeCount cfg t + 1 = activeCount cfg s := by
  rw [activeCount_eq, activeCount_eq, h, h, h, h, h, h]
  cases x <;> rw [hx] <;> simp <;> omega

theorem isActive_le_activeCount (cfg : Cfg) (s : DriverState) (x : Sensor)
    (hx : isActive cfg s x = true) : 1 ≤ activeCount cfg s := by
  rw [activeCount_eq]
  cases x <;> rw [hx] <;> simp <;> omega

/-! ## The lock helpers, field by field -/

theorem lockCounts_append (a b : List Ev) : lockCounts (a ++ b) = lockCounts a ++ lockCounts b := by
  simp [lockCounts, List.filterMap_append]

@[simp] theorem lock_cnt_emit (s : DriverState) (e : Ev) : (emit s e).lock_cnt = s.lock_cnt := rfl

@[simp] theorem trace_emit (s : DriverState) (e : Ev) : (emit s e).trace = s.trace ++ [e] := rfl

@[simp] theorem lock_cnt_sensorLock (s : DriverState) : (sensorLock s).lock_cnt = s.lock_cnt := rfl

@[simp] theorem lock_cnt_sensorUnLock (s : DriverState) :
    (sensorUnLock s).lock_cnt = s.lock_cnt := rfl

@[simp] theorem lock_cnt_sensorLockCreate (hw : Hw) (s : DriverState) :
    (sensorLockCreate hw s).lock_cnt = (s.lock_cnt + 1) % 4294967296 := by
  unfold sensorLockCreate
  split <;> rfl

@[simp] theorem lock_cnt_sensorLockDelete (s : DriverState) :
    (sensorLockDelete s).lock_cnt = s.lock_cnt - 1 := by
  unfold sensorLockDelete
  dsimp only
  split
  · split <;> rfl
  · rename_i h
    have : s.lock_cnt = 0 := by simpa using h
    omega

@[simp] theorem lockCounts_sensorLock (s : DriverState) :
    lockCounts (sensorLock s).trace = lockCounts s.trace ++ [s.lock_cnt] := by
  simp [sensorLock, lockCounts_append, lockCounts, Ev.lockCount]

@[simp] theorem lockCounts_sensorUnLock (s : DriverState) :
    lockCounts (sensorUnLock s).trace = lockCounts s.trace := by
  simp [sensorUnLock, lockCounts_append, lockCounts, Ev.lockCount]

@[simp] theorem lockCounts_sensorLockCreate (hw : Hw) (s : DriverState) :
    lockCounts (sensorLockCreate hw s).trace = lockCounts s.trace := by
  unfold sensorLockCreate
  split <;> simp [lockCounts_append, lockCounts, Ev.lockCount]

@[simp] theorem lockCounts_sensorLockDelete (s : DriverState) :
    lockCounts (sensorLockDelete s).trace = lockCounts s.trace := by
  unfold sensorLockDelete
  dsimp only
  split
  · split <;> simp [lockCounts_append, lockCounts, Ev.lockCount]
  · rfl

theorem WF_of_flags {s t : DriverState} (hs : s.WF) (hf : flagsOf t = flagsOf s)
    (hc : t.lock_cnt < 4294967296) : t.WF := by
  simp only [flagsOf, Prod.mk.injEq] at hf
  obtain ⟨h1, h2, h3, h4, h5⟩ := hf
  obtain ⟨w1, w2, w3, w4, w5, _⟩ := hs
  exact ⟨h1 ▸ w1, h2 ▸ w2, h3 ▸ w3, h4 ▸ w4, h5 ▸ w5, hc⟩

@[simp] theorem sensorLockCreate_TemperatureSensorActiveFlag (hw : Hw) (s : DriverState) :
    (sensorLockCreate hw s).TemperatureSensorActiveFlag = s.TemperatureSensorActiveFlag := by
  unfold sensorLockCreate
  split <;> rfl

@[simp] theorem sensorLockDelete_TemperatureSensorActiveFlag (s : DriverState) :
    (sensorLockDelete s).TemperatureSensorActiveFlag = s.TemperatureSensorActiveFlag := by
  unfold sensorLockDelete
  dsimp only
  split
  · split <;> rfl
  · rfl

@[simp] theorem sensorLockCreate_HumiditySensorActiveFlag (hw : Hw) (s : DriverState) :
    (sensorLockCreate hw s).HumiditySensorActiveFlag = s.HumiditySensorActiveFlag := by
  unfold sensorLockCreate
  split <;> rfl

@[simp] theorem sensorLockDelete_HumiditySensorActiveFlag (s : DriverState) :
    (sensorLockDelete s).HumiditySensorActiveFlag = s.HumiditySensorActiveFlag := by
  unfold sensorLockDelete
  dsimp only
  split
  · split <;> rfl
  · rfl

@[simp] theorem sensorLockCreate_PressureSensorActiveFlag (hw : Hw) (s : DriverState) :
    (sensorLockCreate hw s).PressureSensorActiveFlag = s.PressureSensorActiveFlag := by
  unfold sensorLockCreate
  split <;> rfl

@[simp] theorem sensorLockDelete_PressureSensorActiveFlag (s : DriverState) :
    (sensorLockDelete s).PressureSensorActiveFlag = s.PressureSensorActiveFlag := by
  unfold sensorLockDelete
  dsimp only
  split
  · split <;> rfl
  · rfl

@[simp] theorem sensorLockCreate_MagnetometerActiveFlag (hw : Hw) (s : DriverState) :
    (sensorLockCreate hw s).MagnetometerActiveFlag = s.MagnetometerActiveFlag := by
  unfold sensorLockCreate
  split <;> rfl

@[simp] theorem sensorLockDelete_MagnetometerActiveFlag (s : DriverState) :
    (sensorLockDelete s).MagnetometerActiveFlag = s.MagnetometerActiveFlag := by
  unfold sensorLockDelete
  dsimp only
  split
  · split <;> rfl
  · rfl

@[simp] theorem sensorLockCreate_ISM330DHCX_ActiveFlags (hw : Hw) (s : DriverState) :
    (sensorLockCreate hw s).ISM330DHCX_ActiveFlags = s.ISM330DHCX_ActiveFlags := by
  unfold sensorLockCreate
  split <;> rfl

@[simp] theorem sensorLockDelete_ISM330DHCX_ActiveFlags (s : DriverState) :
    (sensorLockDelete s).ISM330DHCX_ActiveFlags = s.ISM330DHCX_ActiveFlags := by
  unfold sensorLockDelete
  dsimp only
  split
  · split <;> rfl
  · rfl

@[simp] theorem lockCounts_nil : lockCounts [] = [] := rfl

theorem lockCounts_cons (e : Ev) (es : List Ev) :
    lockCounts (e :: es) =
      match e.lockCount with
      | some c => c :: lockCounts es
      | none => lockCounts es := by
  cases h : e.lockCount <;> simp [lockCounts, List.filterMap_cons, h]

@[simp] theorem lockCounts_replicate_read (k id n : Nat) :
    lockCounts (List.replicate k (Ev.ISM330DHCX_FIFO_Read id n)) = [] := by
  induction k with
  | zero => rfl
  | succ k ih => rw [List.replicate_succ, lockCounts_cons, ih]; rfl

/-! ## What `Enable` does to an INACTIVE instance -/

theorem Enable_effect (cfg : Cfg) (hcfg : cfg.WF) (x : Sensor) (hw : Hw) (s t : DriverState)
    (r : Int) (hs : s.WF) (hx : isActive cfg s x = false)
    (h : (driver cfg x).Enable hw s = some (r, t)) :
    t.lock_cnt = (s.lock_cnt + 1) % 4294967296 ∧
    lockCounts t.trace = lockCounts s.trace ++ [(s.lock_cnt + 1) % 4294967296] ∧
    t.WF ∧
    (if enableHwOk x hw = true then
      r = SENSOR_OK ∧ ∀ y, isActive cfg t y = (isActive cfg s y || decide (y = x))
    else r = SENSOR_ERROR ∧ flagsOf t = flagsOf s) := by
  have hlt : (s.lock_cnt + 1) % 4294967296 < 4294967296 := Nat.mod_lt _ (by norm_num)
  obtain ⟨ha, hg, hag⟩ := hcfg
  cases x
  case Temperature =>
    have h0 : s.TemperatureSensorActiveFlag = 0 := by
      have := hs.1
      simp only [isActive_Temperature, beq_eq_false_iff_ne, ne_eq] at hx
      omega
    simp only [driver, Driver_Sensor0, TemperatureSensorEnable, Option.some.injEq, h0,
      beq_self_eq_true, if_true] at h
    split_ifs at h with he
    · simp only [Prod.mk.injEq] at h
      obtain ⟨rfl, rfl⟩ := h
      refine ⟨by simp [sensorUnLock, emit, sensorLock], ?_, ?_, ?_⟩
      · simp [sensorUnLock, emit, lockCounts_append, lockCounts_cons, Ev.lockCount]
      · unfold DriverState.WF at hs ⊢
        simp [sensorUnLock, emit, sensorLock]
        omega
      · simp only [enableHwOk, Sensor.isFifo, he, if_true, true_and]
        simp only [Bool.false_eq_true, if_false, true_and]
        intro y
        cases y <;>
          simp [isActive_Temperature, isActive_Humidity, isActive_Pressure,
            isActive_Magnetometer, isActive_Accelerometer, isActive_Gyroscope,
            sensorUnLock, emit, sensorLock]
    · simp only [Prod.mk.injEq] at h
      obtain ⟨rfl, rfl⟩ := h
      refine ⟨by simp, ?_, ?_, ?_⟩
      · simp [sensorUnLock, emit, lockCounts_append, lockCounts_cons, Ev.lockCount]
      · exact WF_of_flags hs (by simp) (by simpa using hlt)
      · simp [enableHwOk, Sensor.isFifo, he]
  case Humidity =>
    have h0 : s.HumiditySensorActiveFlag = 0 := by
      have := hs.2.1
      simp only [isActive_Humidity, beq_eq_false_iff_ne, ne_eq] at hx
      omega
    simp only [driver, Driver_Sensor1, HumiditySensorEnable, Option.some.injEq, h0,
      beq_self_eq_true, if_true] at h
    split_ifs at h with he
    · simp only [Prod.mk.injEq] at h
      obtain ⟨rfl, rfl⟩ := h
      refine ⟨by simp [sensorUnLock, emit, sensorLock], ?_, ?_, ?_⟩
      · simp [sensorUnLock, emit, lockCounts_append, lockCounts_cons, Ev.lockCount]
      · unfold DriverState.WF at hs ⊢
        simp [sensorUnLock, emit, sensorLock]
        omega
      · simp only [enableHwOk, Sensor.isFifo, he, if_true, true_and]
        simp only [Bool.false_eq_true, if_false, true_and]
        intro y
        cases y <;>
          simp [isActive_Temperature, isActive_Humidity, isActive_Pressure,
            isActive_Magnetometer, isActive_Accelerometer, isActive_Gyroscope,
            sensorUnLock, emit, sensorLock]
    · simp only [Prod.mk.injEq] at h
      obtain ⟨rfl, rfl⟩ := h
      refine ⟨by simp, ?_, ?_, ?_⟩
      · simp [sensorUnLock, emit, lockCounts_append, lockCounts_cons, Ev.lockCount]
      · exact WF_of_flags hs (by simp) (by simpa using hlt)
      · simp [enableHwOk, Sensor.isFifo, he]
  case Pressure =>
    have h0 : s.PressureSensorActiveFlag = 0 := by
      have := hs.2.2.1
      simp only [isActive_Pressure, beq_eq_false_iff_ne, ne_eq] at hx
      omega
    simp only [driver, Driver_Sensor2, PressureSensorEnable, Option.some.injEq, h0,
      beq_self_eq_true, if_true] at h
    split_ifs at h with he
    · simp only [Prod.mk.injEq] at h
      obtain ⟨rfl, rfl⟩ := h
      refine ⟨by simp [sensorUnLock, emit, sensorLock], ?_, ?_, ?_⟩
      · simp [sensorUnLock, emit, lockCounts_append, lockCounts_cons, Ev.lockCount]
      · unfold DriverState.WF at hs ⊢
        simp [sensorUnLock, emit, sensorLock]
        omega
      · simp only [enableHwOk, Sensor.isFifo, he, if_true, true_and]
        simp only [Bool.false_eq_true, if_false, true_and]
        intro y
        cases y <;>
          simp [isActive_Temperature, isActive_Humidity, isActive_Pressure,
            isActive_Magnetometer, isActive_Accelerometer, isActive_Gyroscope,
            sensorUnLock, emit, sensorLock]
    · simp only [Prod.mk.injEq] at h
      obtain ⟨rfl, rfl⟩ := h
      refine ⟨by simp, ?_, ?_, ?_⟩
      · simp [sensorUnLock, emit, lockCounts_append, lockCounts_cons, Ev.lockCount]
      · exact WF_of_flags hs (by simp) (by simpa using hlt)
      · simp [enableHwOk, Sensor.isFifo, he]
  case Accelerometer =>
    rw [isActive_Accelerometer] at hx
    have hguard : ((s.ISM330DHCX_ActiveFlags &&& shl32 1 cfg.ISM330DHCX_ID_ACCELEROMETER) == 0) = true := by
      rw [and_shl32_eq_zero _ (by omega), hx]; rfl
    simp only [driver, Driver_Sensor3, AccelerometerEnable, hguard, if_true] at h
    split at h
    · rename_i hinit
      split at h
      · exact absurd h (by simp)
      · rename_i s1 heq
        obtain ⟨k, hk⟩ := cleared_eq _ _ _ _ heq
        subst hk
        split at h
        · rename_i he
          simp only [Option.some.injEq, Prod.mk.injEq] at h
          obtain ⟨rfl, rfl⟩ := h
          refine ⟨by simp [sensorUnLock, emit, sensorLock], ?_, ?_, ?_⟩
          · simp [sensorUnLock, emit, lockCounts_append, lockCounts_cons, Ev.lockCount]
          · unfold DriverState.WF at hs ⊢
            simp only [sensorUnLock, emit, sensorLock, sensorLockCreate_TemperatureSensorActiveFlag,
              sensorLockCreate_HumiditySensorActiveFlag, sensorLockCreate_PressureSensorActiveFlag,
              sensorLockCreate_MagnetometerActiveFlag, lock_cnt_sensorLockCreate]
            exact ⟨hs.1, hs.2.1, hs.2.2.1, hs.2.2.2.1, u8_lt _, hlt⟩
          · simp only [enableHwOk, Sensor.isFifo, if_true, hinit, he, Bool.and_self, true_and]
            intro y
            cases y <;>
              simp [isActive_Temperature, isActive_Humidity, isActive_Pressure,
                isActive_Magnetometer, isActive_Accelerometer, isActive_Gyroscope,
                sensorUnLock, emit, sensorLock, set_testBit _ ha ha,
                set_testBit _ ha hg, hag]
        · rename_i he
          simp only [Option.some.injEq, Prod.mk.injEq] at h
          obtain ⟨rfl, rfl⟩ := h
          refine ⟨by simp [sensorUnLock, emit, sensorLock], ?_, ?_, ?_⟩
          · simp [sensorUnLock, emit, lockCounts_append, lockCounts_cons, Ev.lockCount]
          · exact WF_of_flags hs (by simp [flagsOf, sensorUnLock, emit, sensorLock])
              (by simpa [sensorUnLock, emit, sensorLock] using hlt)
          · simp [enableHwOk, Sensor.isFifo, he, flagsOf, sensorUnLock, emit, sensorLock]
    · rename_i hinit
      simp only [Option.some.injEq, Prod.mk.injEq] at h
      obtain ⟨rfl, rfl⟩ := h
      refine ⟨by simp, ?_, ?_, ?_⟩
      · simp [sensorUnLock, emit, lockCounts_append, lockCounts_cons, Ev.lockCount]
      · exact WF_of_flags hs (by simp) (by simpa using hlt)
      · simp [enableHwOk, Sensor.isFifo, hinit]
  case Gyroscope =>
    rw [isActive_Gyroscope] at hx
    have hguard : ((s.ISM330DHCX_ActiveFlags &&& shl32 1 cfg.ISM330DHCX_ID_GYROSCOPE) == 0) = true := by
      rw [and_shl32_eq_zero _ (by omega), hx]; rfl
    simp only [driver, Driver_Sensor4, GyroscopeEnable, hguard, if_true] at h
    split at h
    · rename_i hinit
      split at h
      · exact absurd h (by simp)
      · rename_i s1 heq
        obtain ⟨k, hk⟩ := cleared_eq _ _ _ _ heq
        subst hk
        split at h
        · rename_i he
          simp only [Option.some.injEq, Prod.mk.injEq] at h
          obtain ⟨rfl, rfl⟩ := h
          refine ⟨by simp [sensorUnLock, emit, sensorLock], ?_, ?_, ?_⟩
          · simp [sensorUnLock, emit, lockCounts_append, lockCounts_cons, Ev.lockCount]
          · unfold DriverState.WF at hs ⊢
            simp only [sensorUnLock, emit, sensorLock, sensorLockCreate_TemperatureSensorActiveFlag,
              sensorLockCreate_HumiditySensorActiveFlag, sensorLockCreate_PressureSensorActiveFlag,
              sensorLockCreate_MagnetometerActiveFlag, lock_cnt_sensorLockCreate]
            exact ⟨hs.1, hs.2.1, hs.2.2.1, hs.2.2.2.1, u8_lt _, hlt⟩
          · simp only [enableHwOk, Sensor.isFifo, if_true, hinit, he, Bool.and_self, true_and]
            intro y
            cases y <;>
              simp [isActive_Temperature, isActive_Humidity, isActive_Pressure,
                isActive_Magnetometer, isActive_Accelerometer, isActive_Gyroscope,
                sensorUnLock, emit, sensorLock, set_testBit _ hg hg,
                set_testBit _ hg ha, hag.symm]
        · rename_i he
          simp only [Option.some.injEq, Prod.mk.injEq] at h
          obtain ⟨rfl, rfl⟩ := h
          refine ⟨by simp [sensorUnLock, emit, sensorLock], ?_, ?_, ?_⟩
          · simp [sensorUnLock, emit, lockCounts_append, lockCounts_cons, Ev.lockCount]
          · exact WF_of_flags hs (by simp [flagsOf, sensorUnLock, emit, sensorLock])
              (by simpa [sensorUnLock, emit, sensorLock] using hlt)
          · simp [enableHwOk, Sensor.isFifo, he, flagsOf, sensorUnLock, emit, sensorLock]
    · rename_i hinit
      simp only [Option.some.injEq, Prod.mk.injEq] at h
      obtain ⟨rfl, rfl⟩ := h
      refine ⟨by simp, ?_, ?_, ?_⟩
      · simp [sensorUnLock, emit, lockCounts_append, lockCounts_cons, Ev.lockCount]
      · exact WF_of_flags hs (by simp) (by simpa using hlt)
      · simp [enableHwOk, Sensor.isFifo, hinit]
  case Magnetometer =>
    have h0 : s.MagnetometerActiveFlag = 0 := by
      have := hs.2.2.2.1
      simp only [isActive_Magnetometer, beq_eq_false_iff_ne, ne_eq] at hx
      omega
    simp only [driver, Driver_Sensor5, MagnetometerEnable, Option.some.injEq, h0,
      beq_self_eq_true, if_true] at h
    split_ifs at h with he
    · simp only [Prod.mk.injEq] at h
      obtain ⟨rfl, rfl⟩ := h
      refine ⟨by simp [sensorUnLock, emit, sensorLock], ?_, ?_, ?_⟩
      · simp [sensorUnLock, emit, lockCounts_append, lockCounts_cons, Ev.lockCount]
      · unfold DriverState.WF at hs ⊢
        simp [sensorUnLock, emit, sensorLock]
        omega
      · simp only [enableHwOk, Sensor.isFifo, he, if_true, true_and]
        simp only [Bool.false_eq_true, if_false, true_and]
        intro y
        cases y <;>
          simp [isActive_Temperature, isActive_Humidity, isActive_Pressure,
            isActive_Magnetometer, isActive_Accelerometer, isActive_Gyroscope,
            sensorUnLock, emit, sensorLock]
    · simp only [Prod.mk.injEq] at h
      obtain ⟨rfl, rfl⟩ := h
      refine ⟨by simp, ?_, ?_, ?_⟩
      · simp [sensorUnLock, emit, lockCounts_append, lockCounts_cons, Ev.lockCount]
      · exact WF_of_flags hs (by simp) (by simpa using hlt)
      · simp [enableHwOk, Sensor.isFifo, he]

/-! ## What `Disable` does -/

theorem Disable_effect (cfg : Cfg) (hcfg : cfg.WF) (x : Sensor) (hw : Hw) (s t : DriverState)
    (r : Int) (hs : s.WF) (h : (driver cfg x).Disable hw s = (r, t)) :
    (r = SENSOR_ERROR ∧ t = s) ∨
    (isActive cfg s x = true ∧ t.lock_cnt = s.lock_cnt - 1 ∧
      lockCounts t.trace = lockCounts s.trace ++ [s.lock_cnt] ∧ t.WF ∧
      (if disableHwOk x hw = true then
        r = SENSOR_OK ∧ ∀ y, isActive cfg t y = (isActive cfg s y && !decide (y = x))
      else r = SENSOR_ERROR ∧ flagsOf t = flagsOf s)) := by
  have hlt : s.lock_cnt - 1 < 4294967296 := by
    have := hs.2.2.2.2.2
    omega
  obtain ⟨ha, hg, hag⟩ := hcfg
  cases x
  case Temperature =>
    simp only [driver, Driver_Sensor0, TemperatureSensorDisable] at h
    split at h
    · rename_i h1
      have h1 : s.TemperatureSensorActiveFlag = 1 := by simpa using h1
      right
      refine ⟨by simp [isActive_Temperature, h1], ?_⟩
      split at h
      · rename_i hd
        simp only [Prod.mk.injEq] at h
        obtain ⟨rfl, rfl⟩ := h
        refine ⟨by simp [sensorUnLock, emit, sensorLock], ?_, ?_, ?_⟩
        · simp [sensorUnLock, emit, lockCounts_append, lockCounts_cons, Ev.lockCount]
        · unfold DriverState.WF at hs ⊢
          simp [sensorUnLock, emit, sensorLock]
          omega
        · simp only [disableHwOk, Sensor.isFifo, hd, if_true, true_and]
          simp only [Bool.false_eq_true, if_false, true_and]
          intro y
          cases y <;>
            simp [isActive_Temperature, isActive_Humidity, isActive_Pressure,
              isActive_Magnetometer, isActive_Accelerometer, isActive_Gyroscope,
              sensorUnLock, emit, sensorLock]
      · rename_i hd
        try simp only [BSP_ERROR_NONE] at hd
        simp only [Prod.mk.injEq] at h
        obtain ⟨rfl, rfl⟩ := h
        refine ⟨by simp, ?_, ?_, ?_⟩
        · simp [sensorUnLock, emit, lockCounts_append, lockCounts_cons, Ev.lockCount]
        · exact WF_of_flags hs (by simp) (by simpa using hlt)
        · simp [disableHwOk, Sensor.isFifo, hd, BSP_ERROR_NONE]
    · simp only [Prod.mk.injEq] at h
      exact Or.inl ⟨h.1.symm, h.2.symm⟩
  case Humidity =>
    simp only [driver, Driver_Sensor1, HumiditySensorDisable] at h
    split at h
    · rename_i h1
      have h1 : s.HumiditySensorActiveFlag = 1 := by simpa using h1
      right
      refine ⟨by simp [isActive_Humidity, h1], ?_⟩
      split at h
      · rename_i hd
        simp only [Prod.mk.injEq] at h
        obtain ⟨rfl, rfl⟩ := h
        refine ⟨by simp [sensorUnLock, emit, sensorLock], ?_, ?_, ?_⟩
        · simp [sensorUnLock, emit, lockCounts_append, lockCounts_cons, Ev.lockCount]
        · unfold DriverState.WF at hs ⊢
          simp [sensorUnLock, emit, sensorLock]
          omega
        · simp only [disableHwOk, Sensor.isFifo, hd, if_true, true_and]
          simp only [Bool.false_eq_true, if_false, true_and]
          intro y
          cases y <;>
            simp [isActive_Temperature, isActive_Humidity, isActive_Pressure,
              isActive_Magnetometer, isActive_Accelerometer, isActive_Gyroscope,
              sensorUnLock, emit, sensorLock]
      · rename_i hd
        try simp only [BSP_ERROR_NONE] at hd
        simp only [Prod.mk.injEq] at h
        obtain ⟨rfl, rfl⟩ := h
        refine ⟨by simp, ?_, ?_, ?_⟩
        · simp [sensorUnLock, emit, lockCounts_append, lockCounts_cons, Ev.lockCount]
        · exact WF_of_flags hs (by simp) (by simpa using hlt)
        · simp [disableHwOk, Sensor.isFifo, hd, BSP_ERROR_NONE]
    · simp only [Prod.mk.injEq] at h
      exact Or.inl ⟨h.1.symm, h.2.symm⟩
  case Pressure =>
    simp only [driver, Driver_Sensor2, PressureSensorDisable] at h
    split at h
    · rename_i h1
      have h1 : s.PressureSensorActiveFlag = 1 := by simpa using h1
      right
      refine ⟨by simp [isActive_Pressure, h1], ?_⟩
      split at h
      · rename_i hd
        simp only [Prod.mk.injEq] at h
        obtain ⟨rfl, rfl⟩ := h
        refine ⟨by simp [sensorUnLock, emit, sensorLock], ?_, ?_, ?_⟩
        · simp [sensorUnLock, emit, lockCounts_append, lockCounts_cons, Ev.lockCount]
        · unfold DriverState.WF at hs ⊢
          simp [sensorUnLock, emit, sensorLock]
          omega
        · simp only [disableHwOk, Sensor.isFifo, hd, if_true, true_and]
          simp only [Bool.false_eq_true, if_false, true_and]
          intro y
          cases y <;>
            simp [isActive_Temperature, isActive_Humidity, isActive_Pressure,
              isActive_Magnetometer, isActive_Accelerometer, isActive_Gyroscope,
              sensorUnLock, emit, sensorLock]
      · rename_i hd
        try simp only [BSP_ERROR_NONE] at hd
        simp only [Prod.mk.injEq] at h
        obtain ⟨rfl, rfl⟩ := h
        refine ⟨by simp, ?_, ?_, ?_⟩
        · simp [sensorUnLock, emit, lockCounts_append, lockCounts_cons, Ev.lockCount]
        · exact WF_of_flags hs (by simp) (by simpa using hlt)
        · simp [disableHwOk, Sensor.isFifo, hd, BSP_ERROR_NONE]
    · simp only [Prod.mk.injEq] at h
      exact Or.inl ⟨h.1.symm, h.2.symm⟩
  case Accelerometer =>
    simp only [driver, Driver_Sensor3, AccelerometerDisable] at h
    split at h
    · rename_i h1
      rw [and_shl32_eq_one _ (by omega)] at h1
      have hbit : s.ISM330DHCX_ActiveFlags.testBit cfg.ISM330DHCX_ID_ACCELEROMETER = true := by
        simp only [Bool.and_eq_true] at h1
        exact h1.1
      right
      refine ⟨by rw [isActive_Accelerometer]; exact hbit, ?_⟩
      split at h
      · rename_i hd
        try simp only [BSP_ERROR_NONE] at hd
        split at h
        · rename_i hu
          simp only [Prod.mk.injEq] at h
          obtain ⟨rfl, rfl⟩ := h
          refine ⟨by simp [sensorUnLock, emit, sensorLock], ?_, ?_, ?_⟩
          · simp [sensorUnLock, emit, lockCounts_append, lockCounts_cons, Ev.lockCount]
          · unfold DriverState.WF at hs ⊢
            simp only [sensorUnLock, emit, sensorLock, sensorLockDelete_TemperatureSensorActiveFlag,
              sensorLockDelete_HumiditySensorActiveFlag, sensorLockDelete_PressureSensorActiveFlag,
              sensorLockDelete_MagnetometerActiveFlag, sensorLockDelete_ISM330DHCX_ActiveFlags,
              lock_cnt_sensorLockDelete]
            exact ⟨hs.1, hs.2.1, hs.2.2.1, hs.2.2.2.1, u8_lt _, hlt⟩
          · simp only [disableHwOk, Sensor.isFifo, if_true, hd, hu, Bool.and_self, true_and]
            intro y
            cases y <;>
              simp [isActive_Temperature, isActive_Humidity, isActive_Pressure,
                isActive_Magnetometer, isActive_Accelerometer, isActive_Gyroscope,
                sensorUnLock, emit, sensorLock, clear_testBit _ ha ha,
                clear_testBit _ ha hg, hag]
        · rename_i hu
          simp only [Prod.mk.injEq] at h
          obtain ⟨rfl, rfl⟩ := h
          refine ⟨by simp, ?_, ?_, ?_⟩
          · simp [sensorUnLock, emit, lockCounts_append, lockCounts_cons, Ev.lockCount]
          · exact WF_of_flags hs (by simp) (by simpa using hlt)
          · simp [disableHwOk, Sensor.isFifo, hu]
      · rename_i hd
        try simp only [BSP_ERROR_NONE] at hd
        simp only [Prod.mk.injEq] at h
        obtain ⟨rfl, rfl⟩ := h
        refine ⟨by simp, ?_, ?_, ?_⟩
        · simp [sensorUnLock, emit, lockCounts_append, lockCounts_cons, Ev.lockCount]
        · exact WF_of_flags hs (by simp) (by simpa using hlt)
        · simp [disableHwOk, Sensor.isFifo, hd, BSP_ERROR_NONE]
    · simp only [Prod.mk.injEq] at h
      exact Or.inl ⟨h.1.symm, h.2.symm⟩
  case Gyroscope =>
    simp only [driver, Driver_Sensor4, GyroscopeDisable] at h
    split at h
    · rename_i h1
      rw [and_shl32_eq_one _ (by omega)] at h1
      have hbit : s.ISM330DHCX_ActiveFlags.testBit cfg.ISM330DHCX_ID_GYROSCOPE = true := by
        simp only [Bool.and_eq_true] at h1
        exact h1.1
      right
      refine ⟨by rw [isActive_Gyroscope]; exact hbit, ?_⟩
      split at h
      · rename_i hd
        try simp only [BSP_ERROR_NONE] at hd
        split at h
        · rename_i hu
          simp only [Prod.mk.injEq] at h
          obtain ⟨rfl, rfl⟩ := h
          refine ⟨by simp [sensorUnLock, emit, sensorLock], ?_, ?_, ?_⟩
          · simp [sensorUnLock, emit, lockCounts_append, lockCounts_cons, Ev.lockCount]
          · unfold DriverState.WF at hs ⊢
            simp only [sensorUnLock, emit, sensorLock, sensorLockDelete_TemperatureSensorActiveFlag,
              sensorLockDelete_HumiditySensorActiveFlag, sensorLockDelete_PressureSensorActiveFlag,
              sensorLockDelete_MagnetometerActiveFlag, sensorLockDelete_ISM330DHCX_ActiveFlags,
              lock_cnt_sensorLockDelete]
            exact ⟨hs.1, hs.2.1, hs.2.2.1, hs.2.2.2.1, u8_lt _, hlt⟩
          · simp only [disableHwOk, Sensor.isFifo, if_true, hd, hu, Bool.and_self, true_and]
            intro y
            cases y <;>
              simp [isActive_Temperature, isActive_Humidity, isActive_Pressure,
                isActive_Magnetometer, isActive_Accelerometer, isActive_Gyroscope,
                sensorUnLock, emit, sensorLock, clear_testBit _ hg hg,
                clear_testBit _ hg ha, hag.symm]
        · rename_i hu
          simp only [Prod.mk.injEq] at h
          obtain ⟨rfl, rfl⟩ := h
          refine ⟨by simp, ?_, ?_, ?_⟩
          · simp [sensorUnLock, emit, lockCounts_append, lockCounts_cons, Ev.lockCount]
          · exact WF_of_flags hs (by simp) (by simpa using hlt)
          · simp [disableHwOk, Sensor.isFifo, hu]
      · rename_i hd
        try simp only [BSP_ERROR_NONE] at hd
        simp only [Prod.mk.injEq] at h
        obtain ⟨rfl, rfl⟩ := h
        refine ⟨by simp, ?_, ?_, ?_⟩
        · simp [sensorUnLock, emit, lockCounts_append, lockCounts_cons, Ev.lockCount]
        · exact WF_of_flags hs (by simp) (by simpa using hlt)
        · simp [disableHwOk, Sensor.isFifo, hd, BSP_ERROR_NONE]
    · simp only [Prod.mk.injEq] at h
      exact Or.inl ⟨h.1.symm, h.2.symm⟩
  case Magnetometer =>
    simp only [driver, Driver_Sensor5, MagnetometerDisable] at h
    split at h
    · rename_i h1
      have h1 : s.MagnetometerActiveFlag = 1 := by simpa using h1
      right
      refine ⟨by simp [isActive_Magnetometer, h1], ?_⟩
      split at h
      · rename_i hd
        simp only [Prod.mk.injEq] at h
        obtain ⟨rfl, rfl⟩ := h
        refine ⟨by simp [sensorUnLock, emit, sensorLock], ?_, ?_, ?_⟩
        · simp [sensorUnLock, emit, lockCounts_append, lockCounts_cons, Ev.lockCount]
        · unfold DriverState.WF at hs ⊢
          simp [sensorUnLock, emit, sensorLock]
          omega
        · simp only [disableHwOk, Sensor.isFifo, hd, if_true, true_and]
          simp only [Bool.false_eq_true, if_false, true_and]
          intro y
          cases y <;>
            simp [isActive_Temperature, isActive_Humidity, isActive_Pressure,
              isActive_Magnetometer, isActive_Accelerometer, isActive_Gyroscope,
              sensorUnLock, emit, sensorLock]
      · rename_i hd
        try simp only [BSP_ERROR_NONE] at hd
        simp only [Prod.mk.injEq] at h
        obtain ⟨rfl, rfl⟩ := h
        refine ⟨by simp, ?_, ?_, ?_⟩
        · simp [sensorUnLock, emit, lockCounts_append, lockCounts_cons, Ev.lockCount]
        · exact WF_of_flags hs (by simp) (by simpa using hlt)
        · simp [disableHwOk, Sensor.isFifo, hd, BSP_ERROR_NONE]
    · simp only [Prod.mk.injEq] at h
      exact Or.inl ⟨h.1.symm, h.2.symm⟩

/-! ## What `ReadSamples` does to the driver state -/

theorem ReadSamples_effect (cfg : Cfg) (x : Sensor) (hw : Hw) (n : Nat) (buf : Option (List Nat))
    (size : Nat) (s : DriverState) :
    flagsOf ((driver cfg x).ReadSamples hw n buf size s).2.2 = flagsOf s ∧
    ((driver cfg x).ReadSamples hw n buf size s).2.2.lock_cnt = s.lock_cnt ∧
    (((driver cfg x).ReadSamples hw n buf size s).2.2 = s ∨
      lockCounts ((driver cfg x).ReadSamples hw n buf size s).2.2.trace =
        lockCounts s.trace ++ [s.lock_cnt]) := by
  cases x
  case Temperature =>
    simp only [driver, Driver_Sensor0, TemperatureSensorReadSamples]
    split_ifs <;>
      simp [sensorUnLock, emit, sensorLock, flagsOf, lockCounts_append, lockCounts_cons,
        Ev.lockCount]
  case Humidity =>
    simp only [driver, Driver_Sensor1, HumiditySensorReadSamples]
    split_ifs <;>
      simp [sensorUnLock, emit, sensorLock, flagsOf, lockCounts_append, lockCounts_cons,
        Ev.lockCount]
  case Pressure =>
    simp only [driver, Driver_Sensor2, PressureSensorReadSamples]
    split_ifs <;>
      simp [sensorUnLock, emit, sensorLock, flagsOf, lockCounts_append, lockCounts_cons,
        Ev.lockCount]
  case Accelerometer =>
    simp only [driver, Driver_Sensor3, AccelerometerReadSamples]
    split_ifs <;>
      simp [sensorUnLock, emit, sensorLock, flagsOf, lockCounts_append, lockCounts_cons,
        Ev.lockCount]
  case Gyroscope =>
    simp only [driver, Driver_Sensor4, GyroscopeReadSamples]
    split_ifs <;>
      simp [sensorUnLock, emit, sensorLock, flagsOf, lockCounts_append, lockCounts_cons,
        Ev.lockCount]
  case Magnetometer =>
    simp only [driver, Driver_Sensor5, MagnetometerReadSamples]
    split_ifs <;>
      simp [sensorUnLock, emit, sensorLock, flagsOf, lockCounts_append, lockCounts_cons,
        Ev.lockCount]

/-! ## Invariants of the reference count along a run -/

theorem activeCount_le_six (cfg : Cfg) (s : DriverState) : activeCount cfg s ≤ 6 := by
  rw [activeCount_eq]
  generalize isActive cfg s = f
  cases f Sensor.Temperature <;> cases f Sensor.Humidity <;> cases f Sensor.Pressure <;>
    cases f Sensor.Accelerometer <;> cases f Sensor.Gyroscope <;>
    cases f Sensor.Magnetometer <;> simp

theorem init_WF : DriverState.init.WF := by
  simp [DriverState.WF, DriverState.init]

theorem activeCount_init (cfg : Cfg) : activeCount cfg DriverState.init = 0 := by
  rw [activeCount_eq]
  simp [isActive_Temperature, isActive_Humidity, isActive_Pressure, isActive_Magnetometer,
    isActive_Accelerometer, isActive_Gyroscope, DriverState.init]

/-- One call, when no hardware disable call fails and the counter is far from
`2 ^ 32`: the count of references stays at least the number of ACTIVE
instances, and every `sensorLock` of the call sees a positive count. -/
theorem step_bound (cfg : Cfg) (hcfg : cfg.WF) (s t : DriverState) (c : Call) (n : Nat)
    (hs : s.WF) (hle : activeCount cfg s ≤ s.lock_cnt) (hn : s.lock_cnt ≤ n)
    (hn1 : n + 1 < 4294967296) (hd : c.disableOk = true)
    (hread : c.isRead = true → anyActive cfg s = true) (h : step cfg s c = some t) :
    t.WF ∧ activeCount cfg t ≤ t.lock_cnt ∧ t.lock_cnt ≤ n + 1 ∧
    ((∀ k ∈ lockCounts s.trace, 0 < k) → ∀ k ∈ lockCounts t.trace, 0 < k) := by
  obtain ⟨x, op, hw⟩ := c
  cases op
  case Enable =>
    simp only [step] at h
    cases hE : (driver cfg x).Enable hw s with
    | none => rw [hE] at h; simp at h
    | some rt =>
      obtain ⟨r, u⟩ := rt
      rw [hE] at h
      simp only [Option.map_some', Option.some.injEq] at h
      subst h
      cases hx : isActive cfg s x
      · obtain ⟨h1, h2, h3, h4⟩ := Enable_effect cfg hcfg x hw s u r hs hx hE
        have hmod : (s.lock_cnt + 1) % 4294967296 = s.lock_cnt + 1 :=
          Nat.mod_eq_of_lt (by omega)
        rw [hmod] at h1 h2
        refine ⟨h3, ?_, by omega, ?_⟩
        · split at h4
          · have := activeCount_set cfg x hx h4.2
            omega
          · have := activeCount_congr cfg (isActive_congr cfg h4.2)
            omega
        · intro hpos k hk
          rw [h2] at hk
          rcases List.mem_append.mp hk with hk | hk
          · exact hpos k hk
          · simp only [List.mem_singleton] at hk
            omega
      · have hE2 := Enable_of_active cfg hcfg x hw s hx
        rw [hE2] at hE
        simp only [Option.some.injEq, Prod.mk.injEq] at hE
        obtain ⟨_, rfl⟩ := hE
        exact ⟨hs, hle, by omega, fun hp => hp⟩
  case Disable =>
    simp only [step, Option.some.injEq] at h
    have hD : (driver cfg x).Disable hw s = (((driver cfg x).Disable hw s).1, t) :=
      Prod.ext rfl h
    rcases Disable_effect cfg hcfg x hw s t _ hs hD with ⟨_, rfl⟩ | ⟨hx, h1, h2, h3, h4⟩
    · exact ⟨hs, hle, by omega, fun hp => hp⟩
    · have hx1 := isActive_le_activeCount cfg s x hx
      have hok : disableHwOk x hw = true := hd
      rw [if_pos hok] at h4
      have hc := activeCount_clear cfg x hx h4.2
      refine ⟨h3, by omega, by omega, ?_⟩
      intro hpos k hk
      rw [h2] at hk
      rcases List.mem_append.mp hk with hk | hk
      · exact hpos k hk
      · simp only [List.mem_singleton] at hk
        omega
  case GetStatus =>
    simp only [step, Option.some.injEq] at h
    subst h
    exact ⟨hs, hle, by omega, fun hp => hp⟩
  case ReadSamples num buf size =>
    simp only [step, Option.some.injEq] at h
    obtain ⟨h1, h2, h3⟩ := ReadSamples_effect cfg x hw num buf size s
    rw [h] at h1 h2 h3
    have hc := activeCount_congr cfg (isActive_congr cfg h1)
    refine ⟨WF_of_flags hs h1 (by rw [h2]; exact hs.2.2.2.2.2), by omega, by omega, ?_⟩
    intro hpos k hk
    rcases h3 with rfl | h3
    · exact hpos k hk
    · rw [h3] at hk
      rcases List.mem_append.mp hk with hk | hk
      · exact hpos k hk
      · simp only [List.mem_singleton] at hk
        have := (anyActive_iff cfg s).mp (hread rfl)
        omega
  case RegisterEvents cb mask =>
    simp only [step, Option.some.injEq] at h
    subst h
    exact ⟨hs, hle, by omega, fun hp => hp⟩

/-- One call, when no hardware enable or disable call fails: the count of
references stays equal to the number of ACTIVE instances. -/
theorem step_count (cfg : Cfg) (hcfg : cfg.WF) (s t : DriverState) (c : Call)
    (hs : s.WF) (heq : activeCount cfg s = s.lock_cnt) (he : c.enableOk = true)
    (hd : c.disableOk = true) (h : step cfg s c = some t) :
    t.WF ∧ activeCount cfg t = t.lock_cnt := by
  have h6 := activeCount_le_six cfg s
  obtain ⟨x, op, hw⟩ := c
  cases op
  case Enable =>
    simp only [step] at h
    cases hE : (driver cfg x).Enable hw s with
    | none => rw [hE] at h; simp at h
    | some rt =>
      obtain ⟨r, u⟩ := rt
      rw [hE] at h
      simp only [Option.map_some', Option.some.injEq] at h
      subst h
      cases hx : isActive cfg s x
      · obtain ⟨h1, _, h3, h4⟩ := Enable_effect cfg hcfg x hw s u r hs hx hE
        have hmod : (s.lock_cnt + 1) % 4294967296 = s.lock_cnt + 1 :=
          Nat.mod_eq_of_lt (by omega)
        rw [hmod] at h1
        have hok : enableHwOk x hw = true := he
        rw [if_pos hok] at h4
        have := activeCount_set cfg x hx h4.2
        exact ⟨h3, by omega⟩
      · have hE2 := Enable_of_active cfg hcfg x hw s hx
        rw [hE2] at hE
        simp only [Option.some.injEq, Prod.mk.injEq] at hE
        obtain ⟨_, rfl⟩ := hE
        exact ⟨hs, heq⟩
  case Disable =>
    simp only [step, Option.some.injEq] at h
    have hD : (driver cfg x).Disable hw s = (((driver cfg x).Disable hw s).1, t) :=
      Prod.ext rfl h
    rcases Disable_effect cfg hcfg x hw s t _ hs hD with ⟨_, rfl⟩ | ⟨hx, h1, _, h3, h4⟩
    · exact ⟨hs, heq⟩
    · have hx1 := isActive_le_activeCount cfg s x hx
      have hok : disableHwOk x hw = true := hd
      rw [if_pos hok] at h4
      have hc := activeCount_clear cfg x hx h4.2
      exact ⟨h3, by omega⟩
  case GetStatus =>
    simp only [step, Option.some.injEq] at h
    subst h
    exact ⟨hs, heq⟩
  case ReadSamples num buf size =>
    simp only [step, Option.some.injEq] at h
    obtain ⟨h1, h2, _⟩ := ReadSamples_effect cfg x hw num buf size s
    rw [h] at h1 h2
    have hc := activeCount_congr cfg (isActive_congr cfg h1)
    exact ⟨WF_of_flags hs h1 (by rw [h2]; exact hs.2.2.2.2.2), by omega⟩
  case RegisterEvents cb mask =>
    simp only [step, Option.some.injEq] at h
    subst h
    exact ⟨hs, heq⟩

theorem run_bound (cfg : Cfg) (hcfg : cfg.WF) (calls : List Call) :
    ∀ (s t : DriverState) (n : Nat), s.WF → activeCount cfg s ≤ s.lock_cnt → s.lock_cnt ≤ n →
      n + calls.length < 4294967296 → (∀ c ∈ calls, c.disableOk = true) →
      readsWhileActive cfg s calls → (∀ k ∈ lockCounts s.trace, 0 < k) →
      run cfg s calls = some t →
      t.WF ∧ activeCount cfg t ≤ t.lock_cnt ∧ ∀ k ∈ lockCounts t.trace, 0 < k := by
  induction calls with
  | nil =>
    intro s t n hs hle _ _ _ _ hpos h
    simp only [run, Option.some.injEq] at h
    subst h
    exact ⟨hs, hle, hpos⟩
  | cons c cs ih =>
    intro s t n hs hle hn hlen hd hread hpos h
    simp only [run] at h
    cases hstep : step cfg s c with
    | none => rw [hstep] at h; simp at h
    | some u =>
      rw [hstep] at h
      simp only [List.length_cons] at hlen
      obtain ⟨h1, h2, h3, h4⟩ := step_bound cfg hcfg s u c n hs hle hn (by omega)
        (hd c (List.mem_cons_self c cs)) hread.1 hstep
      exact ih u t (n + 1) h1 h2 h3 (by omega)
        (fun c' hc' => hd c' (List.mem_cons_of_mem c hc')) (hread.2 u hstep) (h4 hpos) h

theorem run_count (cfg : Cfg) (hcfg : cfg.WF) (calls : List Call) :
    ∀ (s t : DriverState), s.WF → activeCount cfg s = s.lock_cnt →
      (∀ c ∈ calls, c.enableOk = true) → (∀ c ∈ calls, c.disableOk = true) →
      run cfg s calls = some t → t.WF ∧ activeCount cfg t = t.lock_cnt := by
  induction calls with
  | nil =>
    intro s t hs heq _ _ h
    simp only [run, Option.some.injEq] at h
    subst h
    exact ⟨hs, heq⟩
  | cons c cs ih =>
    intro s t hs heq he hd h
    simp only [run] at h
    cases hstep : step cfg s c with
    | none => rw [hstep] at h; simp at h
    | some u =>
      rw [hstep] at h
      obtain ⟨h1, h2⟩ := step_count cfg hcfg s u c hs heq (he c (List.mem_cons_self c cs))
        (hd c (List.mem_cons_self c cs)) hstep
      exact ih u t h1 h2 (fun c' hc' => he c' (List.mem_cons_of_mem c hc'))
        (fun c' hc' => hd c' (List.mem_cons_of_mem c hc')) h

theorem readsWhileActive_of_noRead (cfg : Cfg) (calls : List Call) :
    ∀ s : DriverState, (∀ c ∈ calls, c.isRead = false) → readsWhileActive cfg s calls := by
  induction calls with
  | nil => intro s _; trivial
  | cons c cs ih =>
    intro s h
    refine ⟨fun hr => ?_, fun t _ => ih t (fun c' hc' => h c' (List.mem_cons_of_mem c hc'))⟩
    rw [h c (List.mem_cons_self c cs)] at hr
    exact absurd hr (by simp)

theorem isRead_of_isEnableDisable (c : Call) (h : c.isEnableDisable = true) :
    c.isRead = false := by
  obtain ⟨x, op, hw⟩ := c
  cases op <;> simp_all [Call.isEnableDisable, Call.isRead]

/-! ## `Enable` returns, and creates the mutex on the first reference -/

theorem mutexNews_sensorLockCreate (hw : Hw) (s : DriverState) :
    mutexNews (sensorLockCreate hw s).trace =
      mutexNews s.trace + (if s.lock_cnt = 0 then 1 else 0) := by
  unfold sensorLockCreate mutexNews
  by_cases h : s.lock_cnt = 0 <;> simp [h, emit]

/-- `Enable` returns when its stale-sample loop ends. -/
theorem Enable_isSome (cfg : Cfg) (x : Sensor) (hw : Hw) (s : DriverState)
    (hdrain : drainEnds x hw s) : ((driver cfg x).Enable hw s).isSome = true := by
  cases x
  case Accelerometer =>
    simp only [driver, Driver_Sensor3, AccelerometerEnable]
    split
    · split
      · split
        · rename_i heq
          exfalso
          split at heq
          · rename_i hz0
            have hz : s.ISM330DHCX_ActiveFlags = 0 := by simpa [emit, sensorLock] using hz0
            have h1 := clearFIFO_isSome cfg.ISM330DHCX_ID_ACCELEROMETER hw.drain
              (emit (sensorLock (sensorLockCreate hw s))
                (Ev.ISM330DHCX_FIFO_Init cfg.ISM330DHCX_ID_ACCELEROMETER)) (hdrain rfl hz)
            rw [heq] at h1
            exact absurd h1 (by simp)
          · exact absurd heq (by simp)
        · split <;> rfl
      · rfl
    · rfl
  case Gyroscope =>
    simp only [driver, Driver_Sensor4, GyroscopeEnable]
    split
    · split
      · split
        · rename_i heq
          exfalso
          split at heq
          · rename_i hz0
            have hz : s.ISM330DHCX_ActiveFlags = 0 := by simpa [emit, sensorLock] using hz0
            have h1 := clearFIFO_isSome cfg.ISM330DHCX_ID_GYROSCOPE hw.drain
              (emit (sensorLock (sensorLockCreate hw s))
                (Ev.ISM330DHCX_FIFO_Init cfg.ISM330DHCX_ID_GYROSCOPE)) (hdrain rfl hz)
            rw [heq] at h1
            exact absurd h1 (by simp)
          · exact absurd heq (by simp)
        · split <;> rfl
      · rfl
    · rfl
  all_goals rfl

/-- An `Enable` that passes its guard calls `osMutexNew` once when `lock_cnt`
was `0` and not at all otherwise. -/
theorem Enable_mutexNews (cfg : Cfg) (hcfg : cfg.WF) (x : Sensor) (hw : Hw) (s t : DriverState)
    (r : Int) (hs : s.WF) (hx : isActive cfg s x = false)
    (h : (driver cfg x).Enable hw s = some (r, t)) :
    mutexNews t.trace = mutexNews s.trace + (if s.lock_cnt = 0 then 1 else 0) := by
  obtain ⟨ha, hg, hag⟩ := hcfg
  rw [← mutexNews_sensorLockCreate hw s]
  cases x
  case Temperature =>
    have h0 : s.TemperatureSensorActiveFlag = 0 := by
      have := hs.1
      simp only [isActive_Temperature, beq_eq_false_iff_ne, ne_eq] at hx
      omega
    simp only [driver, Driver_Sensor0, TemperatureSensorEnable, Option.some.injEq, h0,
      beq_self_eq_true, if_true] at h
    split_ifs at h <;> simp only [Prod.mk.injEq] at h <;> obtain ⟨_, rfl⟩ := h <;>
      simp [mutexNews, sensorUnLock, emit, sensorLock, List.count_cons]
  case Humidity =>
    have h0 : s.HumiditySensorActiveFlag = 0 := by
      have := hs.2.1
      simp only [isActive_Humidity, beq_eq_false_iff_ne, ne_eq] at hx
      omega
    simp only [driver, Driver_Sensor1, HumiditySensorEnable, Option.some.injEq, h0,
      beq_self_eq_true, if_true] at h
    split_ifs at h <;> simp only [Prod.mk.injEq] at h <;> obtain ⟨_, rfl⟩ := h <;>
      simp [mutexNews, sensorUnLock, emit, sensorLock, List.count_cons]
  case Pressure =>
    have h0 : s.PressureSensorActiveFlag = 0 := by
      have := hs.2.2.1
      simp only [isActive_Pressure, beq_eq_false_iff_ne, ne_eq] at hx
      omega
    simp only [driver, Driver_Sensor2, PressureSensorEnable, Option.some.injEq, h0,
      beq_self_eq_true, if_true] at h
    split_ifs at h <;> simp only [Prod.mk.injEq] at h <;> obtain ⟨_, rfl⟩ := h <;>
      simp [mutexNews, sensorUnLock, emit, sensorLock, List.count_cons]
  case Accelerometer =>
    rw [isActive_Accelerometer] at hx
    have hguard : ((s.ISM330DHCX_ActiveFlags &&& shl32 1 cfg.ISM330DHCX_ID_ACCELEROMETER) == 0) = true := by
      rw [and_shl32_eq_zero _ (by omega), hx]; rfl
    simp only [driver, Driver_Sensor3, AccelerometerEnable, hguard, if_true] at h
    split at h
    · split at h
      · exact absurd h (by simp)
      · rename_i s1 heq
        obtain ⟨k, hk⟩ := cleared_eq _ _ _ _ heq
        subst hk
        split at h <;> simp only [Option.some.injEq, Prod.mk.injEq] at h <;>
          obtain ⟨_, rfl⟩ := h <;>
          simp [mutexNews, sensorUnLock, emit, sensorLock, List.count_cons, List.count_replicate]
    · simp only [Option.some.injEq, Prod.mk.injEq] at h
      obtain ⟨_, rfl⟩ := h
      simp [mutexNews, sensorUnLock, emit, sensorLock, List.count_cons]
  case Gyroscope =>
    rw [isActive_Gyroscope] at hx
    have hguard : ((s.ISM330DHCX_ActiveFlags &&& shl32 1 cfg.ISM330DHCX_ID_GYROSCOPE) == 0) = true := by
      rw [and_shl32_eq_zero _ (by omega), hx]; rfl
    simp only [driver, Driver_Sensor4, GyroscopeEnable, hguard, if_true] at h
    split at h
    · split at h
      · exact absurd h (by simp)
      · rename_i s1 heq
        obtain ⟨k, hk⟩ := cleared_eq _ _ _ _ heq
        subst hk
        split at h <;> simp only [Option.some.injEq, Prod.mk.injEq] at h <;>
          obtain ⟨_, rfl⟩ := h <;>
          simp [mutexNews, sensorUnLock, emit, sensorLock, List.count_cons, List.count_replicate]
    · simp only [Option.some.injEq, Prod.mk.injEq] at h
      obtain ⟨_, rfl⟩ := h
      simp [mutexNews, sensorUnLock, emit, sensorLock, List.count_cons]
  case Magnetometer =>
    have h0 : s.MagnetometerActiveFlag = 0 := by
      have := hs.2.2.2.1
      simp only [isActive_Magnetometer, beq_eq_false_iff_ne, ne_eq] at hx
      omega
    simp only [driver, Driver_Sensor5, MagnetometerEnable, Option.some.injEq, h0,
      beq_self_eq_true, if_true] at h
    split_ifs at h <;> simp only [Prod.mk.injEq] at h <;> obtain ⟨_, rfl⟩ := h <;>
      simp [mutexNews, sensorUnLock, emit, sensorLock, List.count_cons]

/-! ## Runs of prefixes -/

theorem readsWhileActive_take (cfg : Cfg) (calls : List Call) :
    ∀ (k : Nat) (s : DriverState), readsWhileActive cfg s calls →
      readsWhileActive cfg s (calls.take k) := by
  induction calls with
  | nil => intro k s _; simp [readsWhileActive]
  | cons c cs ih =>
    intro k s h
    cases k with
    | zero => simp [readsWhileActive]
    | succ k =>
      rw [List.take_succ_cons]
      exact ⟨h.1, fun t ht => ih k t (h.2 t ht)⟩

/-- After `n` temperature `Enable` calls whose hardware call fails, the
instance is still INACTIVE and `lock_cnt` has gone up by `n` modulo `2 ^ 32`. -/
theorem run_failed_enables (n : Nat) :
    ∀ s : DriverState, s.TemperatureSensorActiveFlag = 0 → s.lock_cnt < 4294967296 →
      ∃ t, run Cfg.std s (List.replicate n ⟨Sensor.Temperature, Op.Enable, Hw.fail⟩) = some t ∧
        t.TemperatureSensorActiveFlag = 0 ∧ t.lock_cnt = (s.lock_cnt + n) % 4294967296 := by
  induction n with
  | zero =>
    intro s h0 hlt
    exact ⟨s, rfl, h0, (Nat.mod_eq_of_lt hlt).symm⟩
  | succ n ih =>
    intro s h0 hlt
    have hstep : step Cfg.std s ⟨Sensor.Temperature, Op.Enable, Hw.fail⟩ =
        some (TemperatureSensorEnable Hw.fail s).2 := rfl
    have hflag : (TemperatureSensorEnable Hw.fail s).2.TemperatureSensorActiveFlag = 0 := by
      simp [TemperatureSensorEnable, h0, Hw.fail, Hw.ok, BSP_ERROR_NONE, sensorUnLock, emit,
        sensorLock]
    have hcnt : (TemperatureSensorEnable Hw.fail s).2.lock_cnt =
        (s.lock_cnt + 1) % 4294967296 := by
      simp [TemperatureSensorEnable, h0, Hw.fail, Hw.ok, BSP_ERROR_NONE]
    obtain ⟨t, ht, h1, h2⟩ := ih _ hflag (by rw [hcnt]; exact Nat.mod_lt _ (by norm_num))
    refine ⟨t, ?_, h1, ?_⟩
    · rw [List.replicate_succ]
      simp only [run, hstep]
      exact ht
    · rw [h2, hcnt]
      omega

/-! ## The guard of the two FIFO `Disable` functions -/

/-- The guard of `AccelerometerDisable` and `GyroscopeDisable` compares the
masked bit with `1U`: for a channel id other than `0` it never passes, and the
call returns `SENSOR_ERROR` in the state it was made in. -/
theorem Disable_nonzero_channel (cfg : Cfg) (hw : Hw) (s : DriverState) :
    (cfg.ISM330DHCX_ID_ACCELEROMETER ≠ 0 → cfg.ISM330DHCX_ID_ACCELEROMETER < 32 →
      AccelerometerDisable cfg hw s = (SENSOR_ERROR, s)) ∧
    (cfg.ISM330DHCX_ID_GYROSCOPE ≠ 0 → cfg.ISM330DHCX_ID_GYROSCOPE < 32 →
      GyroscopeDisable cfg hw s = (SENSOR_ERROR, s)) := by
  constructor
  · intro h0 h32
    simp [AccelerometerDisable, and_shl32_eq_one _ h32, h0]
  · intro h0 h32
    simp [GyroscopeDisable, and_shl32_eq_one _ h32, h0]

/-! ## The claims -/

/-- C1, as stated, fails: one temperature `Enable` whose hardware call fails
leaves `lock_cnt = 1`, so the lock is allocated, while no instance is ACTIVE. -/
theorem C1_counterexample :
    ∃ s, run Cfg.std DriverState.init [⟨Sensor.Temperature, Op.Enable, Hw.fail⟩] = some s ∧
      s.lock_cnt = 1 ∧ anyActive Cfg.std s = false :=
  ⟨_, rfl, by decide, by decide⟩

/-- C1, amended: from the initial state, after every step `k` of a sequence of
`Enable` and `Disable` calls on the six instances in which no hardware disable
call fails, an ACTIVE instance implies `lock_cnt > 0` (for fewer than `2 ^ 32`
calls, hardware enable calls free to succeed or fail); and when no hardware
enable call fails either, `lock_cnt > 0` if and only if at least one instance
is ACTIVE. -/
theorem C1_lock_allocated_iff_active (cfg : Cfg) (hcfg : cfg.WF) (calls : List Call) (k : Nat)
    (s : DriverState) (hops : ∀ c ∈ calls, c.isEnableDisable = true)
    (hdis : ∀ c ∈ calls, c.disableOk = true)
    (hrun : run cfg DriverState.init (calls.take k) = some s) :
    (calls.length < 4294967296 → anyActive cfg s = true → 0 < s.lock_cnt) ∧
    ((∀ c ∈ calls, c.enableOk = true) → (0 < s.lock_cnt ↔ anyActive cfg s = true)) := by
  have hmem : ∀ c ∈ calls.take k, c ∈ calls := fun c hc => List.mem_of_mem_take hc
  constructor
  · intro hlen hact
    have hb := run_bound cfg hcfg (calls.take k) DriverState.init s 0 init_WF
      (by rw [activeCount_init]; exact Nat.zero_le _) (Nat.le_refl _)
      (by rw [List.length_take]; omega)
      (fun c hc => hdis c (hmem c hc))
      (readsWhileActive_of_noRead cfg _ _
        (fun c hc => isRead_of_isEnableDisable c (hops c (hmem c hc))))
      (by simp [DriverState.init]) hrun
    have := (anyActive_iff cfg s).mp hact
    omega
  · intro hen
    have hc := run_count cfg hcfg (calls.take k) DriverState.init s init_WF
      (by rw [activeCount_init]; rfl) (fun c hc => hen c (hmem c hc))
      (fun c hc => hdis c (hmem c hc)) hrun
    rw [anyActive_iff, hc.2]

/-- C1, amended, after the three calls of the run: enable the temperature
sensor, enable the gyroscope, disable the temperature sensor, every hardware
call succeeding. -/
theorem C1_witness :
    ∃ s, run Cfg.std DriverState.init
        ([(⟨Sensor.Temperature, Op.Enable, Hw.ok⟩ : Call), ⟨Sensor.Gyroscope, Op.Enable, Hw.ok⟩,
          ⟨Sensor.Temperature, Op.Disable, Hw.ok⟩].take 3) = some s ∧
      (anyActive Cfg.std s = true → 0 < s.lock_cnt) ∧
      (0 < s.lock_cnt ↔ anyActive Cfg.std s = true) :=
  ⟨_, rfl,
    (C1_lock_allocated_iff_active Cfg.std ⟨by decide, by decide, by decide⟩
      [⟨Sensor.Temperature, Op.Enable, Hw.ok⟩, ⟨Sensor.Gyroscope, Op.Enable, Hw.ok⟩,
        ⟨Sensor.Temperature, Op.Disable, Hw.ok⟩] 3 _ (by decide) (by decide) rfl).1 (by decide),
    (C1_lock_allocated_iff_active Cfg.std ⟨by decide, by decide, by decide⟩
      [⟨Sensor.Temperature, Op.Enable, Hw.ok⟩, ⟨Sensor.Gyroscope, Op.Enable, Hw.ok⟩,
        ⟨Sensor.Temperature, Op.Disable, Hw.ok⟩] 3 _ (by decide) (by decide) rfl).2 (by decide)⟩

/-- C2, at its failing input: enable the temperature sensor, then call its
`Disable` with the hardware disable failing. The instance is still ACTIVE and
`lock_cnt` is `0`, the mutex deleted. -/
theorem C2_active_with_zero_count :
    ∃ s, run Cfg.std DriverState.init
        [⟨Sensor.Temperature, Op.Enable, Hw.ok⟩, ⟨Sensor.Temperature, Op.Disable, Hw.fail⟩]
        = some s ∧
      isActive Cfg.std s Sensor.Temperature = true ∧ s.lock_cnt = 0 ∧
      s.trace.getLast? = some (Ev.osMutexDelete (some 1)) :=
  ⟨_, rfl, by decide, by decide, by decide⟩

/-- C3, as stated, fails: `ReadSamples` with valid arguments on the temperature
sensor, never enabled, calls `sensorLock` while `lock_cnt` is `0` (and
`lock_id` is `NULL`). -/
theorem C3_counterexample :
    ∃ s, run Cfg.std DriverState.init
        [⟨Sensor.Temperature, Op.ReadSamples 1 (some [0, 0, 0, 0]) 4, Hw.ok⟩] = some s ∧
      s.trace.head? = some (Ev.osMutexAcquire none 0) ∧ lockCounts s.trace = [0] :=
  ⟨_, rfl, by decide, by decide⟩

/-- C3, amended: from the initial state, along every sequence of fewer than
`2 ^ 32` calls in which no hardware disable call fails and every `ReadSamples`
is made while at least one instance is ACTIVE, every `sensorLock` performed
up to any step `k` happens in a state with `lock_cnt > 0`. -/
theorem C3_lock_taken_with_positive_count (cfg : Cfg) (hcfg : cfg.WF) (calls : List Call)
    (k : Nat) (s : DriverState) (hlen : calls.length < 4294967296)
    (hdis : ∀ c ∈ calls, c.disableOk = true)
    (hread : readsWhileActive cfg DriverState.init calls)
    (hrun : run cfg DriverState.init (calls.take k) = some s) :
    ∀ cnt ∈ lockCounts s.trace, 0 < cnt := by
  have hmem : ∀ c ∈ calls.take k, c ∈ calls := fun c hc => List.mem_of_mem_take hc
  exact (run_bound cfg hcfg (calls.take k) DriverState.init s 0 init_WF
    (by rw [activeCount_init]; exact Nat.zero_le _) (Nat.le_refl _)
    (by rw [List.length_take]; omega)
    (fun c hc => hdis c (hmem c hc)) (readsWhileActive_take cfg calls k _ hread)
    (by simp [DriverState.init]) hrun).2.2

/-- C3, amended, at a run of three calls: enable the pressure sensor, read it,
disable it. -/
theorem C3_witness :
    [(⟨Sensor.Pressure, Op.Enable, Hw.ok⟩ : Call),
      ⟨Sensor.Pressure, Op.ReadSamples 1 (some [0, 0, 0, 0]) 4, Hw.ok⟩,
      ⟨Sensor.Pressure, Op.Disable, Hw.ok⟩].length < 4294967296 ∧
    (lockCounts (PressureSensorDisable Hw.ok (PressureSensorReadSamples Hw.ok 1
      (some [0, 0, 0, 0]) 4 (PressureSensorEnable Hw.ok DriverState.init).2).2.2).2.trace).all
      (fun cnt => decide (0 < cnt)) = true :=
  ⟨by decide, List.all_eq_true.mpr (fun cnt hcnt => decide_eq_true
    (C3_lock_taken_with_positive_count Cfg.std ⟨by decide, by decide, by decide⟩
      [⟨Sensor.Pressure, Op.Enable, Hw.ok⟩,
        ⟨Sensor.Pressure, Op.ReadSamples 1 (some [0, 0, 0, 0]) 4, Hw.ok⟩,
        ⟨Sensor.Pressure, Op.Disable, Hw.ok⟩] 3 _ (by decide) (by decide)
      ⟨fun h => absurd h (by decide), fun t h1 => by
        have ht : (PressureSensorEnable Hw.ok DriverState.init).2 = t := Option.some.inj h1
        subst ht
        exact ⟨fun _ => by decide,
          fun _ _ => ⟨fun h => absurd h (by decide), fun _ _ => trivial⟩⟩⟩ rfl cnt hcnt))⟩

/-- C4, as stated, fails: after a successful `Enable` the temperature sensor is
ACTIVE, and a second `Enable` returns `SENSOR_ERROR`, not `SENSOR_OK`. -/
theorem C4_counterexample :
    ∃ s, run Cfg.std DriverState.init [⟨Sensor.Temperature, Op.Enable, Hw.ok⟩] = some s ∧
      isActive Cfg.std s Sensor.Temperature = true ∧
      ((driver Cfg.std Sensor.Temperature).Enable Hw.ok s).map Prod.fst = some SENSOR_ERROR ∧
      SENSOR_ERROR ≠ SENSOR_OK :=
  ⟨_, rfl, by decide, by decide, by decide⟩

/-- C4, amended: for each of the six sensors, `Enable` called on an instance
that is already ACTIVE returns `SENSOR_ERROR`. -/
theorem C4_Enable_on_active_returns_error (cfg : Cfg) (hcfg : cfg.WF) (x : Sensor) (hw : Hw)
    (s : DriverState) (hact : isActive cfg s x = true) :
    ((driver cfg x).Enable hw s).map Prod.fst = some SENSOR_ERROR := by
  rw [Enable_of_active cfg hcfg x hw s hact]
  rfl

/-- C4, amended, at the gyroscope with its bit set in the channel mask. -/
theorem C4_witness :
    ((driver Cfg.std Sensor.Gyroscope).Enable Hw.ok
      { DriverState.init with ISM330DHCX_ActiveFlags := 2, lock_cnt := 1 }).map Prod.fst
      = some SENSOR_ERROR :=
  C4_Enable_on_active_returns_error Cfg.std ⟨by decide, by decide, by decide⟩ Sensor.Gyroscope
    Hw.ok { DriverState.init with ISM330DHCX_ActiveFlags := 2, lock_cnt := 1 } (by decide)

/-- C5, as stated, fails: `Disable` of the temperature sensor before any
`Enable` returns `SENSOR_ERROR`, not `SENSOR_OK`. -/
theorem C5_counterexample :
    isActive Cfg.std DriverState.init Sensor.Temperature = false ∧
    ((driver Cfg.std Sensor.Temperature).Disable Hw.ok DriverState.init).1 = SENSOR_ERROR ∧
    SENSOR_ERROR ≠ SENSOR_OK :=
  ⟨by decide, by decide, by decide⟩

/-- C5, amended: for each of the six sensors, `Disable` called on an instance
that is INACTIVE, in particular before any `Enable`, returns `SENSOR_ERROR`. -/
theorem C5_Disable_on_inactive_returns_error (cfg : Cfg) (hcfg : cfg.WF) (x : Sensor) (hw : Hw)
    (s : DriverState) (hina : isActive cfg s x = false) :
    ((driver cfg x).Disable hw s).1 = SENSOR_ERROR := by
  rw [Disable_of_inactive cfg hcfg x hw s hina]

/-- C5, amended, at the accelerometer in the initial state. -/
theorem C5_witness :
    ((driver Cfg.std Sensor.Accelerometer).Disable Hw.ok DriverState.init).1 = SENSOR_ERROR :=
  C5_Disable_on_inactive_returns_error Cfg.std ⟨by decide, by decide, by decide⟩
    Sensor.Accelerometer Hw.ok DriverState.init (by decide)

/-- C6: redundant calls have no effect. For each of the six sensors and every
state, `Enable` on an ACTIVE instance and `Disable` on an INACTIVE instance
return with the driver state they were called in: the trace holds no new
hardware call and no new lock operation, `lock_cnt` and the active flags of
all six instances are unchanged. -/
theorem C6_redundant_calls_no_effect (cfg : Cfg) (hcfg : cfg.WF) (x : Sensor) (hw : Hw)
    (s : DriverState) :
    (isActive cfg s x = true → ∃ r t, (driver cfg x).Enable hw s = some (r, t) ∧
      t.trace = s.trace ∧ t.lock_cnt = s.lock_cnt ∧ flagsOf t = flagsOf s ∧ t = s) ∧
    (isActive cfg s x = false → ∃ r t, (driver cfg x).Disable hw s = (r, t) ∧
      t.trace = s.trace ∧ t.lock_cnt = s.lock_cnt ∧ flagsOf t = flagsOf s ∧ t = s) :=
  ⟨fun h => ⟨SENSOR_ERROR, s, Enable_of_active cfg hcfg x hw s h, rfl, rfl, rfl, rfl⟩,
   fun h => ⟨SENSOR_ERROR, s, Disable_of_inactive cfg hcfg x hw s h, rfl, rfl, rfl, rfl⟩⟩

/-- C6 at the humidity sensor: `Disable` in the initial state, where it is
INACTIVE. -/
theorem C6_witness :
    isActive Cfg.std DriverState.init Sensor.Humidity = false ∧
    ∃ r t, (driver Cfg.std Sensor.Humidity).Disable Hw.ok DriverState.init = (r, t) ∧
      t.trace = DriverState.init.trace ∧ t.lock_cnt = DriverState.init.lock_cnt ∧
      flagsOf t = flagsOf DriverState.init ∧ t = DriverState.init :=
  ⟨by decide, (C6_redundant_calls_no_effect Cfg.std ⟨by decide, by decide, by decide⟩
    Sensor.Humidity Hw.ok DriverState.init).2 (by decide)⟩

/-- C7, as stated, fails where the `uint32_t` counter is at its maximum. After
`2 ^ 32 - 1` temperature `Enable` calls whose hardware call failed, each of
which kept its reference, the sensor is INACTIVE and `lock_cnt` is
`4294967295`; the `Enable` that then succeeds leaves `lock_cnt = 0`. -/
theorem C7_counterexample :
    ∃ s t, run Cfg.std DriverState.init
        (List.replicate 4294967295 ⟨Sensor.Temperature, Op.Enable, Hw.fail⟩) = some s ∧
      isActive Cfg.std s Sensor.Temperature = false ∧ s.lock_cnt = 4294967295 ∧
      (driver Cfg.std Sensor.Temperature).Enable Hw.ok s = some (SENSOR_OK, t) ∧
      t.lock_cnt = 0 := by
  obtain ⟨s, hrun, hflag, hcnt⟩ :=
    run_failed_enables 4294967295 DriverState.init rfl (by decide)
  have hcnt2 : s.lock_cnt = 4294967295 := by rw [hcnt]; rfl
  refine ⟨s, (TemperatureSensorEnable Hw.ok s).2, hrun, ?_, hcnt2, ?_, ?_⟩
  · simp [isActive_Temperature, hflag]
  · simp [driver, Driver_Sensor0, TemperatureSensorEnable, hflag, Hw.ok, BSP_ERROR_NONE]
  · simp [TemperatureSensorEnable, hflag, Hw.ok, BSP_ERROR_NONE, sensorUnLock, emit,
      sensorLock, hcnt2]

/-- C7, amended: for each of the six sensors, `Enable` called on an INACTIVE
instance whose hardware enable path succeeds (for the accelerometer and the
gyroscope: FIFO init and the enable call succeed and the stale-sample loop
ends) returns `SENSOR_OK`, leaves that instance ACTIVE, and increases
`lock_cnt` by one modulo `2 ^ 32`, that is by exactly one whenever
`lock_cnt < 2 ^ 32 - 1`; `osMutexNew` is called once when `lock_cnt` was `0`
and not at all otherwise. -/
theorem C7_Enable_on_inactive_succeeds (cfg : Cfg) (hcfg : cfg.WF) (x : Sensor) (hw : Hw)
    (s : DriverState) (hs : s.WF) (hina : isActive cfg s x = false)
    (hok : enableHwOk x hw = true) (hdrain : drainEnds x hw s) :
    ∃ t, (driver cfg x).Enable hw s = some (SENSOR_OK, t) ∧ isActive cfg t x = true ∧
      t.lock_cnt = (s.lock_cnt + 1) % 4294967296 ∧
      (s.lock_cnt < 4294967295 → t.lock_cnt = s.lock_cnt + 1) ∧
      mutexNews t.trace = mutexNews s.trace + (if s.lock_cnt = 0 then 1 else 0) := by
  obtain ⟨⟨r, t⟩, hE⟩ := Option.isSome_iff_exists.mp (Enable_isSome cfg x hw s hdrain)
  obtain ⟨h1, _, _, h4⟩ := Enable_effect cfg hcfg x hw s t r hs hina hE
  rw [if_pos hok] at h4
  obtain ⟨rfl, hact⟩ := h4
  refine ⟨t, hE, ?_, h1, ?_, Enable_mutexNews cfg hcfg x hw s t _ hs hina hE⟩
  · rw [hact x]
    simp
  · intro hlt
    rw [h1]
    exact Nat.mod_eq_of_lt (by omega)

/-- C7, amended, at the accelerometer in the initial state, the FIFO empty at
the first read of the stale-sample loop. -/
theorem C7_witness :
    ∃ t, (driver Cfg.std Sensor.Accelerometer).Enable Hw.ok DriverState.init
        = some (SENSOR_OK, t) ∧
      isActive Cfg.std t Sensor.Accelerometer = true ∧
      t.lock_cnt = (DriverState.init.lock_cnt + 1) % 4294967296 ∧
      (DriverState.init.lock_cnt < 4294967295 → t.lock_cnt = DriverState.init.lock_cnt + 1) ∧
      mutexNews t.trace = mutexNews DriverState.init.trace +
        (if DriverState.init.lock_cnt = 0 then 1 else 0) :=
  C7_Enable_on_inactive_succeeds Cfg.std ⟨by decide, by decide, by decide⟩ Sensor.Accelerometer
    Hw.ok DriverState.init (by simp [DriverState.WF, DriverState.init]) (by decide) (by decide)
    (fun _ _ => by decide)

/-- C8, at its failing input: with channel ids 0 (accelerometer) and 1
(gyroscope), after a successful `Enable` the gyroscope is ACTIVE, and its
`Disable`, every hardware call succeeding, returns `SENSOR_ERROR` and changes
nothing: the guard compares the masked bit `2` with `1U`. -/
theorem C8_gyroscope_Disable_fails :
    ∃ s, run Cfg.std DriverState.init [⟨Sensor.Gyroscope, Op.Enable, Hw.ok⟩] = some s ∧
      isActive Cfg.std s Sensor.Gyroscope = true ∧ s.lock_cnt = 1 ∧
      (driver Cfg.std Sensor.Gyroscope).Disable Hw.ok s = (SENSOR_ERROR, s) :=
  ⟨_, rfl, by decide, by decide, by decide⟩

/-- C9: a failed call leaves the instance state unchanged. For each of the six
sensors, every state and all answers of the hardware, when `Enable` or
`Disable` returns `SENSOR_ERROR` every active flag is the same after the call
as before, so every instance reports the same ACTIVE status as before; in
particular an instance that was INACTIVE is INACTIVE after a failed `Enable`
and an instance that was ACTIVE is ACTIVE after a failed `Disable`. -/
theorem C9_failed_call_keeps_flags (cfg : Cfg) (x : Sensor) (hw : Hw) (s t : DriverState) :
    ((driver cfg x).Enable hw s = some (SENSOR_ERROR, t) →
      flagsOf t = flagsOf s ∧ (∀ y, isActive cfg t y = isActive cfg s y) ∧
      (isActive cfg s x = false → isActive cfg t x = false)) ∧
    ((driver cfg x).Disable hw s = (SENSOR_ERROR, t) →
      flagsOf t = flagsOf s ∧ (∀ y, isActive cfg t y = isActive cfg s y) ∧
      (isActive cfg s x = true → isActive cfg t x = true)) := by
  constructor
  · intro h
    have key := flagsOf_of_error cfg x hw s t (Or.inl h)
    exact ⟨key, isActive_congr cfg key, fun hx => by rw [isActive_congr cfg key, hx]⟩
  · intro h
    have key := flagsOf_of_error cfg x hw s t (Or.inr h)
    exact ⟨key, isActive_congr cfg key, fun hx => by rw [isActive_congr cfg key, hx]⟩

/-- C9 at two failed calls: a temperature `Enable` in the initial state whose
hardware call fails, and the `Disable` of the ACTIVE temperature sensor whose
hardware call fails. -/
theorem C9_witness :
    ((driver Cfg.std Sensor.Temperature).Enable Hw.fail DriverState.init =
      some (SENSOR_ERROR, (TemperatureSensorEnable Hw.fail DriverState.init).2) ∧
      isActive Cfg.std DriverState.init Sensor.Temperature = false ∧
      isActive Cfg.std (TemperatureSensorEnable Hw.fail DriverState.init).2
        Sensor.Temperature = false) ∧
    ((driver Cfg.std Sensor.Temperature).Disable Hw.fail
        (TemperatureSensorEnable Hw.ok DriverState.init).2 =
      (SENSOR_ERROR, (TemperatureSensorDisable Hw.fail
        (TemperatureSensorEnable Hw.ok DriverState.init).2).2) ∧
      isActive Cfg.std (TemperatureSensorEnable Hw.ok DriverState.init).2
        Sensor.Temperature = true ∧
      isActive Cfg.std (TemperatureSensorDisable Hw.fail
        (TemperatureSensorEnable Hw.ok DriverState.init).2).2 Sensor.Temperature = true) :=
  ⟨⟨rfl, by decide,
    ((C9_failed_call_keeps_flags Cfg.std Sensor.Temperature Hw.fail DriverState.init
      (TemperatureSensorEnable Hw.fail DriverState.init).2).1 rfl).2.2 (by decide)⟩,
   ⟨rfl, by decide,
    ((C9_failed_call_keeps_flags Cfg.std Sensor.Temperature Hw.fail
      (TemperatureSensorEnable Hw.ok DriverState.init).2
      (TemperatureSensorDisable Hw.fail (TemperatureSensorEnable Hw.ok DriverState.init).2).2).2
      rfl).2.2 (by decide)⟩⟩

/-- C10, at its failing input: the temperature sensor is ACTIVE with
`lock_cnt = 1`; its `Disable` with the hardware disable failing returns
`SENSOR_ERROR` and leaves the instance ACTIVE, yet `lock_cnt` has gone down to
`0` and `osMutexDelete` has been called. -/
theorem C10_failed_Disable_releases_reference :
    ∃ s t, run Cfg.std DriverState.init [⟨Sensor.Temperature, Op.Enable, Hw.ok⟩] = some s ∧
      s.lock_cnt = 1 ∧
      (driver Cfg.std Sensor.Temperature).Disable Hw.fail s = (SENSOR_ERROR, t) ∧
      isActive Cfg.std t Sensor.Temperature = true ∧ t.lock_cnt = 0 ∧
      t.trace.getLast? = some (Ev.osMutexDelete (some 1)) :=
  ⟨_, _, rfl, by decide, rfl, by decide, by decide, by decide⟩

/-- C11, as stated, fails where the `uint32_t` counter is at its maximum.
After `2 ^ 32 - 1` temperature `Enable` calls whose hardware call failed the
sensor is INACTIVE and `lock_cnt` is `4294967295`; one more failed `Enable`
returns `SENSOR_ERROR` and leaves `lock_cnt = 0`, not one greater. -/
theorem C11_counterexample :
    ∃ s t, run Cfg.std DriverState.init
        (List.replicate 4294967295 ⟨Sensor.Temperature, Op.Enable, Hw.fail⟩) = some s ∧
      isActive Cfg.std s Sensor.Temperature = false ∧ s.lock_cnt = 4294967295 ∧
      (driver Cfg.std Sensor.Temperature).Enable Hw.fail s = some (SENSOR_ERROR, t) ∧
      t.lock_cnt = 0 := by
  obtain ⟨s, hrun, hflag, hcnt⟩ :=
    run_failed_enables 4294967295 DriverState.init rfl (by decide)
  have hcnt2 : s.lock_cnt = 4294967295 := by rw [hcnt]; rfl
  refine ⟨s, (TemperatureSensorEnable Hw.fail s).2, hrun, ?_, hcnt2, ?_, ?_⟩
  · simp [isActive_Temperature, hflag]
  · simp [driver, Driver_Sensor0, TemperatureSensorEnable, hflag, Hw.fail, Hw.ok,
      BSP_ERROR_NONE]
  · simp [TemperatureSensorEnable, hflag, Hw.fail, Hw.ok, BSP_ERROR_NONE, sensorUnLock, emit,
      sensorLock, hcnt2]

/-- C11, amended: for each immediate-value sensor (temperature, humidity,
pressure, magnetometer), `Enable` called on an INACTIVE instance whose
hardware enable call fails returns `SENSOR_ERROR`, leaves the instance
INACTIVE and every active flag as it was, and leaves `lock_cnt` one greater
modulo `2 ^ 32`, that is exactly one greater whenever `lock_cnt < 2 ^ 32 - 1`:
the reference taken at the start is not released. -/
theorem C11_failed_Enable_keeps_reference (cfg : Cfg) (hcfg : cfg.WF) (x : Sensor) (hw : Hw)
    (s : DriverState) (hx : x.isFifo = false) (hs : s.WF) (hina : isActive cfg s x = false)
    (hfail : hw.enable ≠ BSP_ERROR_NONE) :
    ∃ t, (driver cfg x).Enable hw s = some (SENSOR_ERROR, t) ∧ isActive cfg t x = false ∧
      flagsOf t = flagsOf s ∧ t.lock_cnt = (s.lock_cnt + 1) % 4294967296 ∧
      (s.lock_cnt < 4294967295 → t.lock_cnt = s.lock_cnt + 1) := by
  have hdrain : drainEnds x hw s := fun h => by rw [hx] at h; exact absurd h (by simp)
  obtain ⟨⟨r, t⟩, hE⟩ := Option.isSome_iff_exists.mp (Enable_isSome cfg x hw s hdrain)
  obtain ⟨h1, _, _, h4⟩ := Enable_effect cfg hcfg x hw s t r hs hina hE
  have hnok : ¬ (enableHwOk x hw = true) := by
    simp only [enableHwOk, hx, Bool.false_eq_true, if_false, beq_iff_eq]
    exact hfail
  rw [if_neg hnok] at h4
  obtain ⟨rfl, hflags⟩ := h4
  refine ⟨t, hE, ?_, hflags, h1, ?_⟩
  · rw [isActive_congr cfg hflags, hina]
  · intro hlt
    rw [h1]
    exact Nat.mod_eq_of_lt (by omega)

/-- C11, amended, at the magnetometer in the initial state, its hardware
enable failing. -/
theorem C11_witness :
    Hw.fail.enable ≠ BSP_ERROR_NONE ∧
    ∃ t, (driver Cfg.std Sensor.Magnetometer).Enable Hw.fail DriverState.init
        = some (SENSOR_ERROR, t) ∧
      isActive Cfg.std t Sensor.Magnetometer = false ∧
      flagsOf t = flagsOf DriverState.init ∧
      t.lock_cnt = (DriverState.init.lock_cnt + 1) % 4294967296 ∧
      (DriverState.init.lock_cnt < 4294967295 → t.lock_cnt = DriverState.init.lock_cnt + 1) :=
  ⟨by decide, C11_failed_Enable_keeps_reference Cfg.std ⟨by decide, by decide, by decide⟩
    Sensor.Magnetometer Hw.fail DriverState.init rfl
    (by simp [DriverState.WF, DriverState.init]) (by decide) (by decide)⟩

/-- C12, at its failing inputs. Temperature: `num_samples = 2 ^ 30`, a buffer,
`buf_size = 0`; the exact product `2 ^ 32` is greater than `buf_size`, the
`uint32_t` product is `0`, the check passes and `ReadSamples` returns 1.
Gyroscope: `num_samples = 715827883`, `buf_size = 2`; the exact product
`4294967298` wraps to `2` and `ReadSamples` returns the one sample the FIFO
holds. -/
theorem C12_size_check_wraps :
    (0 < 1073741824 * TemperatureSensorConfig.sample_size ∧
      (TemperatureSensorReadSamples Hw.ok 1073741824 (some [0, 0, 0, 0]) 0
        DriverState.init).1 = 1) ∧
    (2 < 715827883 * GyroscopeConfig.sample_size ∧
      (GyroscopeReadSamples Cfg.std Hw.oneSample 715827883 (some [0, 0]) 2
        DriverState.init).1 = 1) :=
  ⟨⟨by decide, by decide⟩, ⟨by decide, by decide⟩⟩

/-- C14, at its failing input: accelerometer `ReadSamples` with
`num_samples = 715827883`, a buffer and `buf_size = 2`, the FIFO read
returning 1 sample, which is no more than requested. The result is 1 and
`1 * 6 > buf_size`: the `uint32_t` product of the size check wrapped to `2`. -/
theorem C14_samples_exceed_buffer :
    Hw.oneSample.fifoRead ≤ 715827883 ∧
    (AccelerometerReadSamples Cfg.std Hw.oneSample 715827883 (some [0, 0]) 2
      DriverState.init).1 = 1 ∧
    ¬ ((AccelerometerReadSamples Cfg.std Hw.oneSample 715827883 (some [0, 0]) 2
      DriverState.init).1 * AccelerometerConfig.sample_size ≤ 2) ∧
    (AccelerometerReadSamples Cfg.std Hw.oneSample 715827883 (some [0, 0]) 2
      DriverState.init).2.1 = some [0, 0, 0, 0, 0, 0] :=
  ⟨by decide, by decide, by decide, by decide⟩

/-- C13: for each immediate-value sensor (temperature, humidity, pressure,
magnetometer) and all arguments, `ReadSamples` returns 0 or 1 whatever
`num_samples` is. It returns 1 exactly when `num_samples != 0`, `buf` is not
`NULL`, the size check of the code passes, the data-ready query succeeds and
reports ready, and the value fetch succeeds; in that case exactly one
measurement was fetched from the hardware. When `num_samples == 0` or `buf`
is `NULL` it returns 0 and the state, trace included, is unchanged. -/
theorem C13_immediate_ReadSamples (cfg : Cfg) (x : Sensor) (hx : x.isFifo = false) (hw : Hw)
    (n : Nat) (buf : Option (List Nat)) (size : Nat) (s : DriverState) :
    (((driver cfg x).ReadSamples hw n buf size s).1 = 0 ∨
      ((driver cfg x).ReadSamples hw n buf size s).1 = 1) ∧
    (((driver cfg x).ReadSamples hw n buf size s).1 = 1 ↔
      (n ≠ 0 ∧ buf.isSome = true ∧ sizeCheck cfg x n size = true ∧ hw.drdyRet = 0 ∧
        hw.drdyStat ≠ 0 ∧ hw.getValue = BSP_ERROR_NONE)) ∧
    (((driver cfg x).ReadSamples hw n buf size s).1 = 1 →
      valueFetches ((driver cfg x).ReadSamples hw n buf size s).2.2.trace =
        valueFetches s.trace + 1) ∧
    ((n = 0 ∨ buf = none) → ((driver cfg x).ReadSamples hw n buf size s).1 = 0 ∧
      ((driver cfg x).ReadSamples hw n buf size s).2.2 = s) := by
  cases x
  case Accelerometer => exact absurd hx (by simp [Sensor.isFifo])
  case Gyroscope => exact absurd hx (by simp [Sensor.isFifo])
  case Temperature =>
    simp only [driver, Driver_Sensor0, TemperatureSensorReadSamples, sizeCheck, TemperatureSensorGetConfig]
    by_cases h1 : n = 0
    · simp [h1]
    · cases buf with
      | none => simp
      | some b =>
        by_cases h2 : size ≥ n * TemperatureSensorConfig.sample_size % 4294967296
        · by_cases h3 : hw.drdyRet = 0
          · by_cases h4 : hw.drdyStat = 0
            · simp [h1, h2, h3, h4]
            · by_cases h5 : hw.getValue = BSP_ERROR_NONE
              · simp [h1, h2, h3, h4, h5, valueFetches, sensorUnLock, sensorLock, emit,
                  List.countP_append, List.countP_cons, Ev.isFetch]
              · simp [h1, h2, h3, h4, h5]
          · simp [h1, h2, h3]
        · simp [h1, h2]
  case Humidity =>
    simp only [driver, Driver_Sensor1, HumiditySensorReadSamples, sizeCheck, HumiditySensorGetConfig]
    by_cases h1 : n = 0
    · simp [h1]
    · cases buf with
      | none => simp
      | some b =>
        by_cases h2 : size ≥ n * HumiditySensorConfig.sample_size % 4294967296
        · by_cases h3 : hw.drdyRet = 0
          · by_cases h4 : hw.drdyStat = 0
            · simp [h1, h2, h3, h4]
            · by_cases h5 : hw.getValue = BSP_ERROR_NONE
              · simp [h1, h2, h3, h4, h5, valueFetches, sensorUnLock, sensorLock, emit,
                  List.countP_append, List.countP_cons, Ev.isFetch]
              · simp [h1, h2, h3, h4, h5]
          · simp [h1, h2, h3]
        · simp [h1, h2]
  case Pressure =>
    simp only [driver, Driver_Sensor2, PressureSensorReadSamples, sizeCheck, PressureSensorGetConfig]
    by_cases h1 : n = 0
    · simp [h1]
    · cases buf with
      | none => simp
      | some b =>
        by_cases h2 : size ≥ n * PressureSensorConfig.sample_size % 4294967296
        · by_cases h3 : hw.drdyRet = 0
          · by_cases h4 : hw.drdyStat = 0
            · simp [h1, h2, h3, h4]
            · by_cases h5 : hw.getValue = BSP_ERROR_NONE
              · simp [h1, h2, h3, h4, h5, valueFetches, sensorUnLock, sensorLock, emit,
                  List.countP_append, List.countP_cons, Ev.isFetch]
              · simp [h1, h2, h3, h4, h5]
          · simp [h1, h2, h3]
        · simp [h1, h2]
  case Magnetometer =>
    simp only [driver, Driver_Sensor5, MagnetometerReadSamples, sizeCheck, MagnetometerGetConfig]
    by_cases h1 : n = 0
    · simp [h1]
    · cases buf with
      | none => simp
      | some b =>
        by_cases h2 : size ≥ n * MagnetometerConfig.sample_size % 4294967296
        · by_cases h3 : hw.drdyRet = 0
          · by_cases h4 : hw.drdyStat = 0
            · simp [h1, h2, h3, h4]
            · by_cases h5 : hw.getValue = BSP_ERROR_NONE
              · simp [h1, h2, h3, h4, h5, valueFetches, sensorUnLock, sensorLock, emit,
                  List.countP_append, List.countP_cons, Ev.isFetch]
              · simp [h1, h2, h3, h4, h5]
          · simp [h1, h2, h3]
        · simp [h1, h2]

/-- C13 at the pressure sensor: five samples asked for, a buffer of 20 bytes,
data ready and the fetch succeeding. One sample is returned and one
measurement fetched. -/
theorem C13_witness :
    Sensor.Pressure.isFifo = false ∧
    ((driver Cfg.std Sensor.Pressure).ReadSamples Hw.ok 5 (some (List.replicate 20 0)) 20
      DriverState.init).1 = 1 ∧
    valueFetches ((driver Cfg.std Sensor.Pressure).ReadSamples Hw.ok 5
      (some (List.replicate 20 0)) 20 DriverState.init).2.2.trace =
      valueFetches DriverState.init.trace + 1 :=
  ⟨rfl,
    (C13_immediate_ReadSamples Cfg.std Sensor.Pressure rfl Hw.ok 5 (some (List.replicate 20 0)) 20
      DriverState.init).2.1.mpr ⟨by decide, rfl, by decide, rfl, by decide, rfl⟩,
    (C13_immediate_ReadSamples Cfg.std Sensor.Pressure rfl Hw.ok 5 (some (List.replicate 20 0)) 20
      DriverState.init).2.2.1 (by decide)⟩

/-- C15, as stated, fails: `RegisterEvents` with a `NULL` callback and the mask
`SENSOR_EVENT_DATA`, and with a callback and the mask `0`, both return
`SENSOR_OK`. -/
theorem C15_counterexample :
    SENSOR_EVENT_DATA ≠ 0 ∧
    (driver Cfg.std Sensor.Temperature).RegisterEvents none SENSOR_EVENT_DATA = SENSOR_OK ∧
    (driver Cfg.std Sensor.Temperature).RegisterEvents (some 1) 0 = SENSOR_OK ∧
    SENSOR_OK ≠ SENSOR_ERROR :=
  ⟨by decide, by decide, by decide, by decide⟩

/-- C15, amended: for each of the six sensors and every callback and mask,
`RegisterEvents` returns `SENSOR_OK` if and only if the callback is `NULL` or
the mask is zero, and `SENSOR_ERROR` if and only if the callback is not `NULL`
and the mask is not zero. -/
theorem C15_RegisterEvents_result (cfg : Cfg) (x : Sensor) (event_cb : Option Nat)
    (event_mask : Nat) :
    ((driver cfg x).RegisterEvents event_cb event_mask = SENSOR_OK ↔
      (event_cb = none ∨ event_mask = 0)) ∧
    ((driver cfg x).RegisterEvents event_cb event_mask = SENSOR_ERROR ↔
      (event_cb ≠ none ∧ event_mask ≠ 0)) := by
  have hne : SENSOR_ERROR ≠ SENSOR_OK := by decide
  have hne2 : SENSOR_OK ≠ SENSOR_ERROR := by decide
  cases x <;>
    simp only [driver, Driver_Sensor0, Driver_Sensor1, Driver_Sensor2, Driver_Sensor3,
      Driver_Sensor4, Driver_Sensor5, TemperatureSensorRegisterEvents,
      HumiditySensorRegisterEvents, PressureSensorRegisterEvents, AccelerometerRegisterEvents,
      GyroscopeRegisterEvents, MagnetometerRegisterEvents] <;>
    cases event_cb <;> by_cases hm : event_mask = 0 <;> simp [hm, hne, hne2]

/-- C16: for each of the six sensors, `RegisterEvents` with a callback that is
not `NULL` and a mask that is not zero, `SENSOR_EVENT_DATA` in particular,
returns `SENSOR_ERROR`; and a call of `RegisterEvents`, whatever its
arguments, leaves the driver state as it was, so no callback is ever
registered. -/
theorem C16_RegisterEvents_rejects_callback (cfg : Cfg) (x : Sensor) (event_cb : Nat)
    (event_mask : Nat) (hmask : event_mask ≠ 0) :
    (driver cfg x).RegisterEvents (some event_cb) event_mask = SENSOR_ERROR ∧
    (driver cfg x).RegisterEvents (some event_cb) SENSOR_EVENT_DATA = SENSOR_ERROR ∧
    ∀ (cb : Option Nat) (mask : Nat) (hw : Hw) (s : DriverState),
      step cfg s ⟨x, Op.RegisterEvents cb mask, hw⟩ = some s := by
  refine ⟨?_, ?_, fun _ _ _ _ => rfl⟩
  · cases x <;>
      simp [driver, Driver_Sensor0, Driver_Sensor1, Driver_Sensor2, Driver_Sensor3,
        Driver_Sensor4, Driver_Sensor5, TemperatureSensorRegisterEvents,
        HumiditySensorRegisterEvents, PressureSensorRegisterEvents,
        AccelerometerRegisterEvents, GyroscopeRegisterEvents, MagnetometerRegisterEvents,
        hmask]
  · cases x <;> rfl

/-- C16 at the accelerometer, a callback and the mask `SENSOR_EVENT_DATA`. -/
theorem C16_witness :
    SENSOR_EVENT_DATA ≠ 0 ∧
    (driver Cfg.std Sensor.Accelerometer).RegisterEvents (some 1) SENSOR_EVENT_DATA
      = SENSOR_ERROR :=
  ⟨by decide, (C16_RegisterEvents_rejects_callback Cfg.std Sensor.Accelerometer 1
    SENSOR_EVENT_DATA (by decide)).1⟩

/-- C20, at its failing input: the magnetometer is ACTIVE after its `Enable`,
which called `BSP_MOTION_SENSOR_Enable (1, MOTION_MAGNETO)`. Its `Disable`
calls `BSP_ENV_SENSOR_Disable (0, ENV_TEMPERATURE)`, the hardware disable of
the temperature sensor, and no disable of the magnetometer; on the success of
that call it clears the magnetometer flag. -/
theorem C20_Magnetometer_Disable_wrong_device :
    ∃ s, run Cfg.std DriverState.init [⟨Sensor.Magnetometer, Op.Enable, Hw.ok⟩] = some s ∧
      isActive Cfg.std s Sensor.Magnetometer = true ∧
      Ev.BSP_MOTION_SENSOR_Enable 1 Measurand.MOTION_MAGNETO ∈ s.trace ∧
      (MagnetometerDisable Hw.ok s).1 = SENSOR_OK ∧
      (MagnetometerDisable Hw.ok s).2.trace = s.trace ++
        [Ev.osMutexAcquire (some 1) 1, Ev.BSP_ENV_SENSOR_Disable 0 Measurand.ENV_TEMPERATURE,
          Ev.osMutexRelease (some 1), Ev.osMutexDelete (some 1)] ∧
      Ev.BSP_MOTION_SENSOR_Disable 1 Measurand.MOTION_MAGNETO ∉ (MagnetometerDisable Hw.ok s).2.trace ∧
      isActive Cfg.std (MagnetometerDisable Hw.ok s).2 Sensor.Magnetometer = false :=
  ⟨_, rfl, by decide, by decide, by decide, by decide, by decide, by decide⟩

/-! ## Well-formed states along a run, and what `GetStatus` reports -/

theorem step_WF (cfg : Cfg) (hcfg : cfg.WF) (s t : DriverState) (c : Call) (hs : s.WF)
    (h : step cfg s c = some t) : t.WF := by
  obtain ⟨x, op, hw⟩ := c
  cases op
  case Enable =>
    simp only [step] at h
    cases hE : (driver cfg x).Enable hw s with
    | none => rw [hE] at h; simp at h
    | some rt =>
      obtain ⟨r, u⟩ := rt
      rw [hE] at h
      simp only [Option.map_some', Option.some.injEq] at h
      subst h
      cases hx : isActive cfg s x
      · exact (Enable_effect cfg hcfg x hw s u r hs hx hE).2.2.1
      · have hE2 := Enable_of_active cfg hcfg x hw s hx
        rw [hE2] at hE
        simp only [Option.some.injEq, Prod.mk.injEq] at hE
        obtain ⟨_, rfl⟩ := hE
        exact hs
  case Disable =>
    simp only [step, Option.some.injEq] at h
    have hD : (driver cfg x).Disable hw s = (((driver cfg x).Disable hw s).1, t) :=
      Prod.ext rfl h
    rcases Disable_effect cfg hcfg x hw s t _ hs hD with ⟨_, rfl⟩ | ⟨_, _, _, h3, _⟩
    · exact hs
    · exact h3
  case GetStatus =>
    simp only [step, Option.some.injEq] at h
    subst h
    exact hs
  case ReadSamples num buf size =>
    simp only [step, Option.some.injEq] at h
    obtain ⟨h1, h2, _⟩ := ReadSamples_effect cfg x hw num buf size s
    rw [h] at h1 h2
    exact WF_of_flags hs h1 (by rw [h2]; exact hs.2.2.2.2.2)
  case RegisterEvents cb mask =>
    simp only [step, Option.some.injEq] at h
    subst h
    exact hs

/-- Every state reached from a well-formed state is well-formed. -/
theorem run_WF (cfg : Cfg) (hcfg : cfg.WF) (calls : List Call) :
    ∀ (s t : DriverState), s.WF → run cfg s calls = some t → t.WF := by
  induction calls with
  | nil =>
    intro s t hs h
    simp only [run, Option.some.injEq] at h
    subst h
    exact hs
  | cons c cs ih =>
    intro s t hs h
    simp only [run] at h
    cases hstep : step cfg s c with
    | none => rw [hstep] at h; simp at h
    | some u =>
      rw [hstep] at h
      exact ih u t (step_WF cfg hcfg s u c hs hstep) h

/-- The status bit of a channel is 1 when its bit of the mask is set, else 0. -/
theorem shr_and_one_eq (m : Nat) {i : Nat} (hi : i < 32) :
    (m >>> i) &&& 1 = if ((m &&& shl32 1 i) != 0) = true then 1 else 0 := by
  have h1 := shr_and_one m i
  have h2 := and_shl32_eq_zero m hi
  have h3 : (m >>> i) &&& 1 < 2 := by
    rw [Nat.and_one_is_mod]
    exact Nat.mod_lt _ (by norm_num)
  cases hb : m.testBit i
  · rw [hb] at h1 h2
    have h4 : (m >>> i) &&& 1 ≠ 1 := by simpa using h1
    have h5 : (m &&& shl32 1 i) = 0 := by simpa using h2
    rw [h5]
    simp only [bne_self_eq_false, Bool.false_eq_true, if_false]
    omega
  · rw [hb] at h1 h2
    have h4 : (m >>> i) &&& 1 = 1 := by simpa using h1
    have h5 : (m &&& shl32 1 i) ≠ 0 := by simpa using h2
    rw [h4]
    simp [h5]

/-- In a well-formed state `GetStatus` reports `active = 1` when the flag of the
instance, or its bit of the mask, is set, and `active = 0` otherwise. -/
theorem GetStatus_active (cfg : Cfg) (hcfg : cfg.WF) (s : DriverState) (hs : s.WF)
    (x : Sensor) :
    ((driver cfg x).GetStatus s).active = if flagSet cfg s x = true then 1 else 0 := by
  obtain ⟨ha, hg, _⟩ := hcfg
  obtain ⟨w1, w2, w3, w4, _, _⟩ := hs
  cases x
  case Temperature =>
    simp only [driver, Driver_Sensor0, TemperatureSensorGetStatus, flagSet]
    by_cases h : s.TemperatureSensorActiveFlag = 0
    · simp [h]
    · have : s.TemperatureSensorActiveFlag = 1 := by omega
      simp [this]
  case Humidity =>
    simp only [driver, Driver_Sensor1, HumiditySensorGetStatus, flagSet]
    by_cases h : s.HumiditySensorActiveFlag = 0
    · simp [h]
    · have : s.HumiditySensorActiveFlag = 1 := by omega
      simp [this]
  case Pressure =>
    simp only [driver, Driver_Sensor2, PressureSensorGetStatus, flagSet]
    by_cases h : s.PressureSensorActiveFlag = 0
    · simp [h]
    · have : s.PressureSensorActiveFlag = 1 := by omega
      simp [this]
  case Accelerometer =>
    simp only [driver, Driver_Sensor3, AccelerometerGetStatus, flagSet]
    exact shr_and_one_eq _ (by omega)
  case Gyroscope =>
    simp only [driver, Driver_Sensor4, GyroscopeGetStatus, flagSet]
    exact shr_and_one_eq _ (by omega)
  case Magnetometer =>
    simp only [driver, Driver_Sensor5, MagnetometerGetStatus, flagSet]
    by_cases h : s.MagnetometerActiveFlag = 0
    · simp [h]
    · have : s.MagnetometerActiveFlag = 1 := by omega
      simp [this]

/-- C17: for each of the six sensors and every state reached from the initial
state, `GetStatus` returns `active = 1` exactly when the active flag of the
instance, or its bit of the shared ISM330DHCX mask, is set, and `active = 0`
otherwise; it returns `overflow = 0` and `reserved = 0`; and it leaves the
driver state as it was, so a second `GetStatus` returns the same value. -/
theorem C17_GetStatus_reports_flag (cfg : Cfg) (hcfg : cfg.WF) (calls : List Call)
    (s : DriverState) (hrun : run cfg DriverState.init calls = some s) (x : Sensor) (hw : Hw) :
    (((driver cfg x).GetStatus s).active = 1 ↔ flagSet cfg s x = true) ∧
    (((driver cfg x).GetStatus s).active = 0 ↔ flagSet cfg s x = false) ∧
    ((driver cfg x).GetStatus s).overflow = 0 ∧
    ((driver cfg x).GetStatus s).reserved = 0 ∧
    step cfg s ⟨x, Op.GetStatus, hw⟩ = some s ∧
    ∀ t, step cfg s ⟨x, Op.GetStatus, hw⟩ = some t →
      (driver cfg x).GetStatus t = (driver cfg x).GetStatus s := by
  have hs := run_WF cfg hcfg calls DriverState.init s init_WF hrun
  have hact := GetStatus_active cfg hcfg s hs x
  refine ⟨?_, ?_, ?_, ?_, rfl, ?_⟩
  · rw [hact]
    cases flagSet cfg s x <;> simp
  · rw [hact]
    cases flagSet cfg s x <;> simp
  · cases x <;> rfl
  · cases x <;> rfl
  · intro t ht
    have : s = t := Option.some.inj ht
    rw [this]

/-- C17 after the gyroscope has been enabled: the gyroscope reports
`active = 1`, the accelerometer `active = 0`. -/
theorem C17_witness :
    ∃ s, run Cfg.std DriverState.init [⟨Sensor.Gyroscope, Op.Enable, Hw.ok⟩] = some s ∧
      ((driver Cfg.std Sensor.Gyroscope).GetStatus s).active = 1 ∧
      ((driver Cfg.std Sensor.Accelerometer).GetStatus s).active = 0 ∧
      ((driver Cfg.std Sensor.Gyroscope).GetStatus s).overflow = 0 :=
  ⟨_, rfl,
    (C17_GetStatus_reports_flag Cfg.std ⟨by decide, by decide, by decide⟩
      [⟨Sensor.Gyroscope, Op.Enable, Hw.ok⟩] _ rfl Sensor.Gyroscope Hw.ok).1.mpr (by decide),
    (C17_GetStatus_reports_flag Cfg.std ⟨by decide, by decide, by decide⟩
      [⟨Sensor.Gyroscope, Op.Enable, Hw.ok⟩] _ rfl Sensor.Accelerometer Hw.ok).2.1.mpr
      (by decide),
    (C17_GetStatus_reports_flag Cfg.std ⟨by decide, by decide, by decide⟩
      [⟨Sensor.Gyroscope, Op.Enable, Hw.ok⟩] _ rfl Sensor.Gyroscope Hw.ok).2.2.1⟩

/-! ## Reads of the ISM330DHCX FIFO in the trace -/

@[simp] theorem fifoReads_sensorLockCreate (hw : Hw) (s : DriverState) :
    List.countP Ev.isFifoRead (sensorLockCreate hw s).trace =
      List.countP Ev.isFifoRead s.trace := by
  unfold sensorLockCreate
  split <;> simp [emit, List.countP_append, List.countP_cons, Ev.isFifoRead]

@[simp] theorem fifoReads_sensorLockDelete (s : DriverState) :
    List.countP Ev.isFifoRead (sensorLockDelete s).trace =
      List.countP Ev.isFifoRead s.trace := by
  unfold sensorLockDelete
  dsimp only
  split
  · split <;> simp [emit, List.countP_append, List.countP_cons, Ev.isFifoRead]
  · rfl

/-- No `Disable` reads the FIFO. -/
theorem fifoReads_Disable (cfg : Cfg) (x : Sensor) (hw : Hw) (s : DriverState) :
    fifoReads ((driver cfg x).Disable hw s).2.trace = fifoReads s.trace := by
  cases x
  case Temperature =>
    simp only [driver, Driver_Sensor0, TemperatureSensorDisable]
    split_ifs <;>
      simp [fifoReads, sensorUnLock, emit, sensorLock, List.countP_append, List.countP_cons,
        Ev.isFifoRead]
  case Humidity =>
    simp only [driver, Driver_Sensor1, HumiditySensorDisable]
    split_ifs <;>
      simp [fifoReads, sensorUnLock, emit, sensorLock, List.countP_append, List.countP_cons,
        Ev.isFifoRead]
  case Pressure =>
    simp only [driver, Driver_Sensor2, PressureSensorDisable]
    split_ifs <;>
      simp [fifoReads, sensorUnLock, emit, sensorLock, List.countP_append, List.countP_cons,
        Ev.isFifoRead]
  case Accelerometer =>
    simp only [driver, Driver_Sensor3, AccelerometerDisable]
    split_ifs <;>
      simp [fifoReads, sensorUnLock, emit, sensorLock, List.countP_append, List.countP_cons,
        Ev.isFifoRead]
  case Gyroscope =>
    simp only [driver, Driver_Sensor4, GyroscopeDisable]
    split_ifs <;>
      simp [fifoReads, sensorUnLock, emit, sensorLock, List.countP_append, List.countP_cons,
        Ev.isFifoRead]
  case Magnetometer =>
    simp only [driver, Driver_Sensor5, MagnetometerDisable]
    split_ifs <;>
      simp [fifoReads, sensorUnLock, emit, sensorLock, List.countP_append, List.countP_cons,
        Ev.isFifoRead]

/-- An `Enable` of a FIFO sensor whose FIFO init succeeds reads the FIFO, in
its stale-sample loop, exactly when the channel mask is `0`. -/
theorem Enable_fifoReads (cfg : Cfg) (hcfg : cfg.WF) (x : Sensor) (hw : Hw) (s t : DriverState)
    (r : Int) (hx : x.isFifo = true) (hina : isActive cfg s x = false)
    (hinit : hw.fifoInit = 0) (h : (driver cfg x).Enable hw s = some (r, t)) :
    (s.ISM330DHCX_ActiveFlags = 0 → fifoReads s.trace < fifoReads t.trace) ∧
    (s.ISM330DHCX_ActiveFlags ≠ 0 → fifoReads t.trace = fifoReads s.trace) := by
  obtain ⟨ha, hg, hag⟩ := hcfg
  cases x
  case Temperature => exact absurd hx (by simp [Sensor.isFifo])
  case Humidity => exact absurd hx (by simp [Sensor.isFifo])
  case Pressure => exact absurd hx (by simp [Sensor.isFifo])
  case Magnetometer => exact absurd hx (by simp [Sensor.isFifo])
  case Accelerometer =>
    rw [isActive_Accelerometer] at hina
    have hguard : ((s.ISM330DHCX_ActiveFlags &&& shl32 1 cfg.ISM330DHCX_ID_ACCELEROMETER) == 0) = true := by
      rw [and_shl32_eq_zero _ (by omega), hina]; rfl
    have hinit2 : (hw.fifoInit == 0) = true := by simpa using hinit
    simp only [driver, Driver_Sensor3, AccelerometerEnable, hguard, hinit2, if_true] at h
    split at h
    · exact absurd h (by simp)
    · rename_i s1 heq
      split at heq
      · rename_i hz0
        have hz : s.ISM330DHCX_ActiveFlags = 0 := by simpa [emit, sensorLock] using hz0
        obtain ⟨k, hk0, hk⟩ := clearFIFO_eq _ _ _ _ heq
        subst hk
        refine ⟨fun _ => ?_, fun hne => absurd hz hne⟩
        split at h <;> simp only [Option.some.injEq, Prod.mk.injEq] at h <;>
          obtain ⟨_, rfl⟩ := h <;>
          simp [fifoReads, sensorUnLock, emit, sensorLock, List.countP_append, List.countP_cons,
            List.countP_replicate, Ev.isFifoRead] <;> omega
      · rename_i hz0
        have hz : s.ISM330DHCX_ActiveFlags ≠ 0 := by simpa [emit, sensorLock] using hz0
        simp only [Option.some.injEq] at heq
        subst heq
        refine ⟨fun hz2 => absurd hz2 hz, fun _ => ?_⟩
        split at h <;> simp only [Option.some.injEq, Prod.mk.injEq] at h <;>
          obtain ⟨_, rfl⟩ := h <;>
          simp [fifoReads, sensorUnLock, emit, sensorLock, List.countP_append, List.countP_cons,
            Ev.isFifoRead]
  case Gyroscope =>
    rw [isActive_Gyroscope] at hina
    have hguard : ((s.ISM330DHCX_ActiveFlags &&& shl32 1 cfg.ISM330DHCX_ID_GYROSCOPE) == 0) = true := by
      rw [and_shl32_eq_zero _ (by omega), hina]; rfl
    have hinit2 : (hw.fifoInit == 0) = true := by simpa using hinit
    simp only [driver, Driver_Sensor4, GyroscopeEnable, hguard, hinit2, if_true] at h
    split at h
    · exact absurd h (by simp)
    · rename_i s1 heq
      split at heq
      · rename_i hz0
        have hz : s.ISM330DHCX_ActiveFlags = 0 := by simpa [emit, sensorLock] using hz0
        obtain ⟨k, hk0, hk⟩ := clearFIFO_eq _ _ _ _ heq
        subst hk
        refine ⟨fun _ => ?_, fun hne => absurd hz hne⟩
        split at h <;> simp only [Option.some.injEq, Prod.mk.injEq] at h <;>
          obtain ⟨_, rfl⟩ := h <;>
          simp [fifoReads, sensorUnLock, emit, sensorLock, List.countP_append, List.countP_cons,
            List.countP_replicate, Ev.isFifoRead] <;> omega
      · rename_i hz0
        have hz : s.ISM330DHCX_ActiveFlags ≠ 0 := by simpa [emit, sensorLock] using hz0
        simp only [Option.some.injEq] at heq
        subst heq
        refine ⟨fun hz2 => absurd hz2 hz, fun _ => ?_⟩
        split at h <;> simp only [Option.some.injEq, Prod.mk.injEq] at h <;>
          obtain ⟨_, rfl⟩ := h <;>
          simp [fifoReads, sensorUnLock, emit, sensorLock, List.countP_append, List.countP_cons,
            Ev.isFifoRead]

/-- C18: the scenario enable accelerometer, enable gyroscope, disable
accelerometer, disable gyroscope from the initial state, every hardware call
succeeding and the stale-sample loop ending. All four calls return; the FIFO
is read, by the stale-sample loop, during the `Enable` of the accelerometer
and by none of the three calls after it, the `Enable` of the gyroscope
included; after the `Disable` of the accelerometer the gyroscope is ACTIVE
and `lock_cnt > 0`. -/
theorem C18_drain_once (cfg : Cfg) (hcfg : cfg.WF) (hw1 hw2 hw3 hw4 : Hw)
    (h1 : enableHwOk Sensor.Accelerometer hw1 = true) (hd : 0 ∈ hw1.drain)
    (h2 : enableHwOk Sensor.Gyroscope hw2 = true)
    (h3 : disableHwOk Sensor.Accelerometer hw3 = true)
    (_h4 : disableHwOk Sensor.Gyroscope hw4 = true) :
    ∃ s1 s2 s3 s4,
      step cfg DriverState.init ⟨Sensor.Accelerometer, Op.Enable, hw1⟩ = some s1 ∧
      step cfg s1 ⟨Sensor.Gyroscope, Op.Enable, hw2⟩ = some s2 ∧
      step cfg s2 ⟨Sensor.Accelerometer, Op.Disable, hw3⟩ = some s3 ∧
      step cfg s3 ⟨Sensor.Gyroscope, Op.Disable, hw4⟩ = some s4 ∧
      fifoReads DriverState.init.trace < fifoReads s1.trace ∧
      fifoReads s2.trace = fifoReads s1.trace ∧
      fifoReads s3.trace = fifoReads s2.trace ∧
      fifoReads s4.trace = fifoReads s3.trace ∧
      isActive cfg s3 Sensor.Gyroscope = true ∧ 0 < s3.lock_cnt := by
  have hag := hcfg.2.2
  have hi1 : hw1.fifoInit = 0 := by
    simp only [enableHwOk, Sensor.isFifo, if_true, Bool.and_eq_true, beq_iff_eq] at h1
    exact h1.1
  have hi2 : hw2.fifoInit = 0 := by
    simp only [enableHwOk, Sensor.isFifo, if_true, Bool.and_eq_true, beq_iff_eq] at h2
    exact h2.1
  -- enable accelerometer
  have hina1 : isActive cfg DriverState.init Sensor.Accelerometer = false := by
    simp [isActive_Accelerometer, DriverState.init]
  obtain ⟨⟨r1, s1⟩, hE1⟩ := Option.isSome_iff_exists.mp
    (Enable_isSome cfg Sensor.Accelerometer hw1 DriverState.init (fun _ _ => hd))
  obtain ⟨c1, _, w1, e1⟩ := Enable_effect cfg hcfg _ hw1 _ s1 r1 init_WF hina1 hE1
  rw [if_pos h1] at e1
  have f1 := (Enable_fifoReads cfg hcfg Sensor.Accelerometer hw1 _ s1 r1 rfl hina1 hi1 hE1).1 rfl
  have c1' : s1.lock_cnt = 1 := by rw [c1]; rfl
  -- enable gyroscope
  have hacc1 : isActive cfg s1 Sensor.Accelerometer = true := by
    rw [e1.2]; simp
  have hina2 : isActive cfg s1 Sensor.Gyroscope = false := by
    rw [e1.2]
    simp [isActive_Gyroscope, DriverState.init]
  have hne : s1.ISM330DHCX_ActiveFlags ≠ 0 := by
    intro hz
    rw [isActive_Accelerometer, hz] at hacc1
    simp at hacc1
  obtain ⟨⟨r2, s2⟩, hE2⟩ := Option.isSome_iff_exists.mp
    (Enable_isSome cfg Sensor.Gyroscope hw2 s1 (fun _ hz => absurd hz hne))
  obtain ⟨c2, _, w2, e2⟩ := Enable_effect cfg hcfg _ hw2 _ s2 r2 w1 hina2 hE2
  rw [if_pos h2] at e2
  have f2 := (Enable_fifoReads cfg hcfg Sensor.Gyroscope hw2 _ s2 r2 rfl hina2 hi2 hE2).2 hne
  have c2' : s2.lock_cnt = 2 := by rw [c2, c1']
  have hgyr2 : isActive cfg s2 Sensor.Gyroscope = true := by
    rw [e2.2]; simp
  -- disable accelerometer, disable gyroscope
  cases hD3 : (driver cfg Sensor.Accelerometer).Disable hw3 s2 with
  | mk r3 s3 =>
    cases hD4 : (driver cfg Sensor.Gyroscope).Disable hw4 s3 with
    | mk r4 s4 =>
      have f3 := fifoReads_Disable cfg Sensor.Accelerometer hw3 s2
      have f4 := fifoReads_Disable cfg Sensor.Gyroscope hw4 s3
      rw [hD3] at f3
      rw [hD4] at f4
      refine ⟨s1, s2, s3, s4, by simp [step, hE1], by simp [step, hE2], by simp [step, hD3],
        by simp [step, hD4], f1, f2, f3, f4, ?_⟩
      rcases Disable_effect cfg hcfg Sensor.Accelerometer hw3 s2 s3 r3 w2 hD3 with
        ⟨_, h⟩ | ⟨_, hc, _, _, h⟩
      · rw [h]
        exact ⟨hgyr2, by omega⟩
      · rw [if_pos h3] at h
        refine ⟨?_, by omega⟩
        rw [h.2, hgyr2]
        simp

/-- C18 with channel ids 0 and 1, each FIFO holding two stale samples. -/
theorem C18_witness :
    ∃ s1 s2 s3 s4,
      step Cfg.std DriverState.init
        ⟨Sensor.Accelerometer, Op.Enable, { Hw.ok with drain := [1, 1, 0] }⟩ = some s1 ∧
      step Cfg.std s1 ⟨Sensor.Gyroscope, Op.Enable, Hw.ok⟩ = some s2 ∧
      step Cfg.std s2 ⟨Sensor.Accelerometer, Op.Disable, Hw.ok⟩ = some s3 ∧
      step Cfg.std s3 ⟨Sensor.Gyroscope, Op.Disable, Hw.ok⟩ = some s4 ∧
      fifoReads DriverState.init.trace < fifoReads s1.trace ∧
      fifoReads s2.trace = fifoReads s1.trace ∧
      fifoReads s3.trace = fifoReads s2.trace ∧
      fifoReads s4.trace = fifoReads s3.trace ∧
      isActive Cfg.std s3 Sensor.Gyroscope = true ∧ 0 < s3.lock_cnt :=
  C18_drain_once Cfg.std ⟨by decide, by decide, by decide⟩ { Hw.ok with drain := [1, 1, 0] }
    Hw.ok Hw.ok Hw.ok (by decide) (by decide) (by decide) (by decide) (by decide)

/-! ## The shared lock manager on its own -/

theorem mutexAllocated_append_new (tr : List Ev) :
    mutexAllocated (tr ++ [Ev.osMutexNew]) = true := by
  simp [mutexAllocated, List.foldl_append]

theorem mutexAllocated_append_delete (tr : List Ev) (id : Option Nat) :
    mutexAllocated (tr ++ [Ev.osMutexDelete id]) = false := by
  simp [mutexAllocated, List.foldl_append]

theorem trace_sensorLockCreate (hw : Hw) (s : DriverState) :
    (sensorLockCreate hw s).trace =
      if s.lock_cnt = 0 then s.trace ++ [Ev.osMutexNew] else s.trace := by
  unfold sensorLockCreate
  by_cases h : s.lock_cnt = 0 <;> simp [h, emit]

theorem trace_sensorLockDelete (s : DriverState) :
    (sensorLockDelete s).trace =
      if s.lock_cnt = 1 then s.trace ++ [Ev.osMutexDelete s.lock_id] else s.trace := by
  unfold sensorLockDelete
  by_cases h0 : s.lock_cnt = 0
  · simp [h0]
  · by_cases h1 : s.lock_cnt = 1
    · simp [h1, emit]
    · have h2 : s.lock_cnt - 1 ≠ 0 := by omega
      simp [h0, h1, h2]

theorem sensorLockDelete_of_zero (s : DriverState) (h : s.lock_cnt = 0) :
    sensorLockDelete s = s := by
  unfold sensorLockDelete
  simp [h]

theorem outstanding_cons (n : Nat) (op : LockOp) (ops : List LockOp) :
    outstanding n (op :: ops) = outstanding (outstanding n [op]) ops := by
  simp [outstanding]

theorem outstanding_le (ops : List LockOp) : ∀ n, outstanding n ops ≤ n + ops.length := by
  induction ops with
  | nil => intro n; simp [outstanding]
  | cons op ops ih =>
    intro n
    rw [outstanding_cons]
    have h := ih (outstanding n [op])
    have h1 : outstanding n [op] ≤ n + 1 := by
      cases op with
      | Create hw => simp [outstanding]
      | Delete =>
        simp only [outstanding, List.foldl_cons, List.foldl_nil]
        omega
    simp only [List.length_cons]
    omega

/-- Short of `2 ^ 32` outstanding references, `lock_cnt` is the number of
references outstanding and the mutex is allocated exactly when it is not `0`. -/
theorem lockRun_inv (ops : List LockOp) :
    ∀ (s : DriverState) (n : Nat), s.lock_cnt = n →
      (mutexAllocated s.trace = true ↔ 0 < n) →
      (∀ j, outstanding n (ops.take j) < 4294967296) →
      (lockRun s ops).lock_cnt = outstanding n ops ∧
      (mutexAllocated (lockRun s ops).trace = true ↔ 0 < outstanding n ops) := by
  induction ops with
  | nil =>
    intro s n hn hm _
    simpa [lockRun, outstanding, hn] using hm
  | cons op ops ih =>
    intro s n hn hm hshort
    have h1 := hshort 1
    simp only [List.take_succ_cons, List.take_zero] at h1
    have htail : ∀ j, outstanding (outstanding n [op]) (ops.take j) < 4294967296 := by
      intro j
      have := hshort (j + 1)
      rwa [List.take_succ_cons, outstanding_cons] at this
    have hrun : lockRun s (op :: ops) = lockRun (lockStep s op) ops := by
      simp [lockRun]
    rw [hrun, outstanding_cons]
    apply ih (lockStep s op) (outstanding n [op]) ?_ ?_ htail
    · cases op with
      | Create hw =>
        simp only [outstanding, List.foldl_cons, List.foldl_nil] at h1 ⊢
        simp only [lockStep, lock_cnt_sensorLockCreate, hn]
        exact Nat.mod_eq_of_lt h1
      | Delete =>
        simp [outstanding, lockStep, hn]
    · cases op with
      | Create hw =>
        simp only [outstanding, List.foldl_cons, List.foldl_nil, lockStep,
          trace_sensorLockCreate, hn]
        by_cases h0 : n = 0
        · simp [h0, mutexAllocated_append_new]
        · have hpos : 0 < n := Nat.pos_of_ne_zero h0
          simp [h0, hm.mpr hpos]
      | Delete =>
        simp only [outstanding, List.foldl_cons, List.foldl_nil, lockStep,
          trace_sensorLockDelete, hn]
        by_cases h1 : n = 1
        · simp [h1, mutexAllocated_append_delete]
        · simp only [h1, if_false]
          rw [hm]
          omega

/-- C19: the shared lock manager, from `lock_cnt = 0` with no mutex. After
every step `k` of a sequence of `sensorLockCreate` and `sensorLockDelete`
calls, unpaired `Delete` calls included and short of `2 ^ 32` outstanding
references, `lock_cnt` is the number of references outstanding and the mutex
is allocated if and only if `lock_cnt > 0`. In the state reached, `Create`
calls `osMutexNew` exactly when `lock_cnt` is `0`, `Delete` calls
`osMutexDelete` exactly when `lock_cnt` is `1`, and `Delete` at `lock_cnt = 0`
changes nothing: the counter does not underflow. -/
theorem C19_lock_manager (ops : List LockOp) (k : Nat) (hw : Hw)
    (hshort : ∀ j, outstanding 0 (ops.take j) < 4294967296) :
    (lockRun DriverState.init (ops.take k)).lock_cnt = outstanding 0 (ops.take k) ∧
    (mutexAllocated (lockRun DriverState.init (ops.take k)).trace = true ↔
      0 < (lockRun DriverState.init (ops.take k)).lock_cnt) ∧
    (sensorLockCreate hw (lockRun DriverState.init (ops.take k))).trace =
      (if (lockRun DriverState.init (ops.take k)).lock_cnt = 0 then
        (lockRun DriverState.init (ops.take k)).trace ++ [Ev.osMutexNew]
      else (lockRun DriverState.init (ops.take k)).trace) ∧
    (sensorLockDelete (lockRun DriverState.init (ops.take k))).trace =
      (if (lockRun DriverState.init (ops.take k)).lock_cnt = 1 then
        (lockRun DriverState.init (ops.take k)).trace ++
          [Ev.osMutexDelete (lockRun DriverState.init (ops.take k)).lock_id]
      else (lockRun DriverState.init (ops.take k)).trace) ∧
    ((lockRun DriverState.init (ops.take k)).lock_cnt = 0 →
      sensorLockDelete (lockRun DriverState.init (ops.take k)) =
        lockRun DriverState.init (ops.take k)) := by
  have hinv := lockRun_inv (ops.take k) DriverState.init 0 rfl
    (by simp [mutexAllocated, DriverState.init])
    (fun j => by
      have := hshort (min j k)
      rwa [List.take_take])
  refine ⟨hinv.1, ?_, trace_sensorLockCreate hw _, trace_sensorLockDelete _,
    sensorLockDelete_of_zero _⟩
  rw [hinv.1]
  exact hinv.2

/-- C19 at the sequence Create, Create, Delete, Delete, Delete: after four
calls and after all five `lock_cnt` is `0` and the mutex is not allocated. -/
theorem C19_witness :
    (lockRun DriverState.init ([LockOp.Create Hw.ok, LockOp.Create Hw.ok, LockOp.Delete,
      LockOp.Delete, LockOp.Delete].take 5)).lock_cnt =
      outstanding 0 ([LockOp.Create Hw.ok, LockOp.Create Hw.ok, LockOp.Delete,
        LockOp.Delete, LockOp.Delete].take 5) ∧
    (mutexAllocated (lockRun DriverState.init ([LockOp.Create Hw.ok, LockOp.Create Hw.ok,
      LockOp.Delete, LockOp.Delete, LockOp.Delete].take 5)).trace = true ↔
      0 < (lockRun DriverState.init ([LockOp.Create Hw.ok, LockOp.Create Hw.ok, LockOp.Delete,
        LockOp.Delete, LockOp.Delete].take 5)).lock_cnt) :=
  ⟨(C19_lock_manager [LockOp.Create Hw.ok, LockOp.Create Hw.ok, LockOp.Delete, LockOp.Delete,
      LockOp.Delete] 5 Hw.ok (fun j => Nat.lt_of_le_of_lt (outstanding_le _ 0)
        (Nat.lt_of_le_of_lt (Nat.add_le_add_left (List.length_take_le' j _) 0)
          (by decide)))).1,
   (C19_lock_manager [LockOp.Create Hw.ok, LockOp.Create Hw.ok, LockOp.Delete, LockOp.Delete,
      LockOp.Delete] 5 Hw.ok (fun j => Nat.lt_of_le_of_lt (outstanding_le _ 0)
        (Nat.lt_of_le_of_lt (Nat.add_le_add_left (List.length_take_le' j _) 0)
          (by decide)))).2.1⟩

/-! ## Measurement reads made by `Enable` -/

@[simp] theorem isFetch_sensorLockCreate (hw : Hw) (s : DriverState) :
    List.countP Ev.isFetch (sensorLockCreate hw s).trace = List.countP Ev.isFetch s.trace := by
  unfold sensorLockCreate
  split <;> simp [emit, List.countP_append, List.countP_cons, Ev.isFetch]

/-- C21, as stated, fails for the pressure sensor: its `Enable` from INACTIVE,
the hardware enable succeeding, returns `SENSOR_OK` and has fetched no
measurement. -/
theorem C21_counterexample :
    isActive Cfg.std DriverState.init Sensor.Pressure = false ∧
    Hw.ok.enable = BSP_ERROR_NONE ∧
    (PressureSensorEnable Hw.ok DriverState.init).1 = SENSOR_OK ∧
    valueFetches (PressureSensorEnable Hw.ok DriverState.init).2.trace = 0 ∧
    (PressureSensorEnable Hw.ok DriverState.init).2.trace =
      [Ev.osMutexNew, Ev.osMutexAcquire (some 1) 1,
        Ev.BSP_ENV_SENSOR_Enable 1 Measurand.ENV_PRESSURE, Ev.osMutexRelease (some 1)] :=
  ⟨by decide, by decide, by decide, by decide, by decide⟩

/-- C21, amended: an `Enable` from INACTIVE whose hardware enable succeeds
returns `SENSOR_OK` after exactly one extra measurement read (`GetValue`) for
the temperature and the humidity sensor, and after none for the pressure
sensor; for all three an `Enable` whose hardware enable fails returns
`SENSOR_ERROR` and reads no measurement. -/
theorem C21_priming_read (cfg : Cfg) (x : Sensor) (hw : Hw) (s : DriverState)
    (hx : x = Sensor.Temperature ∨ x = Sensor.Humidity ∨ x = Sensor.Pressure)
    (hs : s.WF) (hina : isActive cfg s x = false) :
    ∃ r t, (driver cfg x).Enable hw s = some (r, t) ∧
      (hw.enable = BSP_ERROR_NONE → r = SENSOR_OK ∧
        valueFetches t.trace = valueFetches s.trace + (if x = Sensor.Pressure then 0 else 1)) ∧
      (hw.enable ≠ BSP_ERROR_NONE → r = SENSOR_ERROR ∧
        valueFetches t.trace = valueFetches s.trace) := by
  cases x
  case Accelerometer => simp at hx
  case Gyroscope => simp at hx
  case Magnetometer => simp at hx
  case Temperature =>
    have h0 : s.TemperatureSensorActiveFlag = 0 := by
      have := hs.1
      simp only [isActive_Temperature, beq_eq_false_iff_ne, ne_eq] at hina
      omega
    refine ⟨(TemperatureSensorEnable hw s).1, (TemperatureSensorEnable hw s).2, rfl, ?_, ?_⟩
    · intro he
      simp [TemperatureSensorEnable, h0, he, valueFetches, sensorUnLock, emit, sensorLock,
        List.countP_append, List.countP_cons, Ev.isFetch]
    · intro he
      simp [TemperatureSensorEnable, h0, he, valueFetches, sensorUnLock, emit, sensorLock,
        List.countP_append, List.countP_cons, Ev.isFetch]
  case Humidity =>
    have h0 : s.HumiditySensorActiveFlag = 0 := by
      have := hs.2.1
      simp only [isActive_Humidity, beq_eq_false_iff_ne, ne_eq] at hina
      omega
    refine ⟨(HumiditySensorEnable hw s).1, (HumiditySensorEnable hw s).2, rfl, ?_, ?_⟩
    · intro he
      simp [HumiditySensorEnable, h0, he, valueFetches, sensorUnLock, emit, sensorLock,
        List.countP_append, List.countP_cons, Ev.isFetch]
    · intro he
      simp [HumiditySensorEnable, h0, he, valueFetches, sensorUnLock, emit, sensorLock,
        List.countP_append, List.countP_cons, Ev.isFetch]
  case Pressure =>
    have h0 : s.PressureSensorActiveFlag = 0 := by
      have := hs.2.2.1
      simp only [isActive_Pressure, beq_eq_false_iff_ne, ne_eq] at hina
      omega
    refine ⟨(PressureSensorEnable hw s).1, (PressureSensorEnable hw s).2, rfl, ?_, ?_⟩
    · intro he
      simp [PressureSensorEnable, h0, he, valueFetches, sensorUnLock, emit, sensorLock,
        List.countP_append, List.countP_cons, Ev.isFetch]
    · intro he
      simp [PressureSensorEnable, h0, he, valueFetches, sensorUnLock, emit, sensorLock,
        List.countP_append, List.countP_cons, Ev.isFetch]

/-- C21, amended, at the humidity sensor in the initial state, the hardware
enable succeeding: one measurement is read. -/
theorem C21_witness :
    isActive Cfg.std DriverState.init Sensor.Humidity = false ∧
    ∃ r t, (driver Cfg.std Sensor.Humidity).Enable Hw.ok DriverState.init = some (r, t) ∧
      (Hw.ok.enable = BSP_ERROR_NONE → r = SENSOR_OK ∧
        valueFetches t.trace = valueFetches DriverState.init.trace +
          (if Sensor.Humidity = Sensor.Pressure then 0 else 1)) ∧
      (Hw.ok.enable ≠ BSP_ERROR_NONE → r = SENSOR_ERROR ∧
        valueFetches t.trace = valueFetches DriverState.init.trace) :=
  ⟨by decide, C21_priming_read Cfg.std Sensor.Humidity Hw.ok DriverState.init
    (Or.inr (Or.inl rfl)) (by simp [DriverState.WF, DriverState.init]) (by decide)⟩

/-! ## Each call leaves the other instances alone -/

theorem keepsOthers_of_flags (cfg : Cfg) (x : Sensor) {s t : DriverState}
    (h : flagsOf t = flagsOf s) : keepsOthers cfg x s t := by
  simp only [flagsOf, Prod.mk.injEq] at h
  obtain ⟨h1, h2, h3, h4, h5⟩ := h
  exact ⟨fun _ => h1, fun _ => h2, fun _ => h3, fun _ => h4, fun j _ _ _ => by rw [h5]⟩

/-- What is kept decides the ACTIVE status of every other instance. -/
theorem isActive_of_keepsOthers (cfg : Cfg) (hcfg : cfg.WF) (x y : Sensor) (hxy : x ≠ y)
    {s t : DriverState} (h : keepsOthers cfg x s t) : isActive cfg t y = isActive cfg s y := by
  obtain ⟨ha, hg, hag⟩ := hcfg
  obtain ⟨k1, k2, k3, k4, k5⟩ := h
  cases y
  · rw [isActive_Temperature, isActive_Temperature, k1 hxy]
  · rw [isActive_Humidity, isActive_Humidity, k2 hxy]
  · rw [isActive_Pressure, isActive_Pressure, k3 hxy]
  · rw [isActive_Accelerometer, isActive_Accelerometer]
    exact k5 _ ha (fun h => absurd h hxy) (fun _ => hag)
  · rw [isActive_Gyroscope, isActive_Gyroscope]
    exact k5 _ hg (fun _ => hag.symm) (fun h => absurd h hxy)
  · rw [isActive_Magnetometer, isActive_Magnetometer, k4 hxy]

theorem Enable_keepsOthers (cfg : Cfg) (hcfg : cfg.WF) (x : Sensor) (hw : Hw)
    (s t : DriverState) (r : Int) (h : (driver cfg x).Enable hw s = some (r, t)) :
    keepsOthers cfg x s t := by
  obtain ⟨ha, hg, _⟩ := hcfg
  cases x
  case Temperature =>
    simp only [driver, Driver_Sensor0, TemperatureSensorEnable, Option.some.injEq] at h
    split_ifs at h <;> simp only [Prod.mk.injEq] at h <;> obtain ⟨_, rfl⟩ := h <;>
      simp [keepsOthers, sensorUnLock, emit, sensorLock]
  case Humidity =>
    simp only [driver, Driver_Sensor1, HumiditySensorEnable, Option.some.injEq] at h
    split_ifs at h <;> simp only [Prod.mk.injEq] at h <;> obtain ⟨_, rfl⟩ := h <;>
      simp [keepsOthers, sensorUnLock, emit, sensorLock]
  case Pressure =>
    simp only [driver, Driver_Sensor2, PressureSensorEnable, Option.some.injEq] at h
    split_ifs at h <;> simp only [Prod.mk.injEq] at h <;> obtain ⟨_, rfl⟩ := h <;>
      simp [keepsOthers, sensorUnLock, emit, sensorLock]
  case Magnetometer =>
    simp only [driver, Driver_Sensor5, MagnetometerEnable, Option.some.injEq] at h
    split_ifs at h <;> simp only [Prod.mk.injEq] at h <;> obtain ⟨_, rfl⟩ := h <;>
      simp [keepsOthers, sensorUnLock, emit, sensorLock]
  case Accelerometer =>
    simp only [driver, Driver_Sensor3, AccelerometerEnable] at h
    split at h
    · split at h
      · split at h
        · exact absurd h (by simp)
        · rename_i s1 heq
          obtain ⟨k, hk⟩ := cleared_eq _ _ _ _ heq
          subst hk
          split at h
          · simp only [Option.some.injEq, Prod.mk.injEq] at h
            obtain ⟨_, rfl⟩ := h
            refine ⟨fun _ => by simp [sensorUnLock, emit, sensorLock],
              fun _ => by simp [sensorUnLock, emit, sensorLock],
              fun _ => by simp [sensorUnLock, emit, sensorLock],
              fun _ => by simp [sensorUnLock, emit, sensorLock], fun j hj h1 h2 => ?_⟩
            have hne : cfg.ISM330DHCX_ID_ACCELEROMETER ≠ j := fun e => h1 rfl e.symm
            simp only [sensorUnLock, emit, sensorLock, sensorLockCreate_ISM330DHCX_ActiveFlags]
            rw [set_testBit _ ha hj]
            simp [hne]
          · simp only [Option.some.injEq, Prod.mk.injEq] at h
            obtain ⟨_, rfl⟩ := h
            exact keepsOthers_of_flags cfg _ (by simp [flagsOf, sensorUnLock, emit, sensorLock])
      · simp only [Option.some.injEq, Prod.mk.injEq] at h
        obtain ⟨_, rfl⟩ := h
        exact keepsOthers_of_flags cfg _ (by simp)
    · simp only [Option.some.injEq, Prod.mk.injEq] at h
      obtain ⟨_, rfl⟩ := h
      exact keepsOthers_of_flags cfg _ rfl
  case Gyroscope =>
    simp only [driver, Driver_Sensor4, GyroscopeEnable] at h
    split at h
    · split at h
      · split at h
        · exact absurd h (by simp)
        · rename_i s1 heq
          obtain ⟨k, hk⟩ := cleared_eq _ _ _ _ heq
          subst hk
          split at h
          · simp only [Option.some.injEq, Prod.mk.injEq] at h
            obtain ⟨_, rfl⟩ := h
            refine ⟨fun _ => by simp [sensorUnLock, emit, sensorLock],
              fun _ => by simp [sensorUnLock, emit, sensorLock],
              fun _ => by simp [sensorUnLock, emit, sensorLock],
              fun _ => by simp [sensorUnLock, emit, sensorLock], fun j hj h1 h2 => ?_⟩
            have hne : cfg.ISM330DHCX_ID_GYROSCOPE ≠ j := fun e => h2 rfl e.symm
            simp only [sensorUnLock, emit, sensorLock, sensorLockCreate_ISM330DHCX_ActiveFlags]
            rw [set_testBit _ hg hj]
            simp [hne]
          · simp only [Option.some.injEq, Prod.mk.injEq] at h
            obtain ⟨_, rfl⟩ := h
            exact keepsOthers_of_flags cfg _ (by simp [flagsOf, sensorUnLock, emit, sensorLock])
      · simp only [Option.some.injEq, Prod.mk.injEq] at h
        obtain ⟨_, rfl⟩ := h
        exact keepsOthers_of_flags cfg _ (by simp)
    · simp only [Option.some.injEq, Prod.mk.injEq] at h
      obtain ⟨_, rfl⟩ := h
      exact keepsOthers_of_flags cfg _ rfl

theorem Disable_keepsOthers (cfg : Cfg) (hcfg : cfg.WF) (x : Sensor) (hw : Hw)
    (s : DriverState) : keepsOthers cfg x s ((driver cfg x).Disable hw s).2 := by
  obtain ⟨ha, hg, _⟩ := hcfg
  cases x
  case Temperature =>
    simp only [driver, Driver_Sensor0, TemperatureSensorDisable]
    split_ifs <;> simp [keepsOthers, sensorUnLock, emit, sensorLock]
  case Humidity =>
    simp only [driver, Driver_Sensor1, HumiditySensorDisable]
    split_ifs <;> simp [keepsOthers, sensorUnLock, emit, sensorLock]
  case Pressure =>
    simp only [driver, Driver_Sensor2, PressureSensorDisable]
    split_ifs <;> simp [keepsOthers, sensorUnLock, emit, sensorLock]
  case Magnetometer =>
    simp only [driver, Driver_Sensor5, MagnetometerDisable]
    split_ifs <;> simp [keepsOthers, sensorUnLock, emit, sensorLock]
  case Accelerometer =>
    simp only [driver, Driver_Sensor3, AccelerometerDisable]
    split
    · split
      · split
        · refine ⟨fun _ => by simp [sensorUnLock, emit, sensorLock],
            fun _ => by simp [sensorUnLock, emit, sensorLock],
            fun _ => by simp [sensorUnLock, emit, sensorLock],
            fun _ => by simp [sensorUnLock, emit, sensorLock], fun j hj h1 h2 => ?_⟩
          have hne : cfg.ISM330DHCX_ID_ACCELEROMETER ≠ j := fun e => h1 rfl e.symm
          simp only [sensorUnLock, emit, sensorLock, sensorLockDelete_ISM330DHCX_ActiveFlags]
          rw [clear_testBit _ ha hj]
          simp [hne]
        · exact keepsOthers_of_flags cfg _ (by simp)
      · exact keepsOthers_of_flags cfg _ (by simp)
    · exact keepsOthers_of_flags cfg _ rfl
  case Gyroscope =>
    simp only [driver, Driver_Sensor4, GyroscopeDisable]
    split
    · split
      · split
        · refine ⟨fun _ => by simp [sensorUnLock, emit, sensorLock],
            fun _ => by simp [sensorUnLock, emit, sensorLock],
            fun _ => by simp [sensorUnLock, emit, sensorLock],
            fun _ => by simp [sensorUnLock, emit, sensorLock], fun j hj h1 h2 => ?_⟩
          have hne : cfg.ISM330DHCX_ID_GYROSCOPE ≠ j := fun e => h2 rfl e.symm
          simp only [sensorUnLock, emit, sensorLock, sensorLockDelete_ISM330DHCX_ActiveFlags]
          rw [clear_testBit _ hg hj]
          simp [hne]
        · exact keepsOthers_of_flags cfg _ (by simp)
      · exact keepsOthers_of_flags cfg _ (by simp)
    · exact keepsOthers_of_flags cfg _ rfl

theorem step_keepsOthers (cfg : Cfg) (hcfg : cfg.WF) (c : Call) (s t : DriverState)
    (h : step cfg s c = some t) : keepsOthers cfg c.sensor s t := by
  obtain ⟨x, op, hw⟩ := c
  cases op
  case Enable =>
    simp only [step] at h
    cases hE : (driver cfg x).Enable hw s with
    | none => rw [hE] at h; simp at h
    | some rt =>
      obtain ⟨r, u⟩ := rt
      rw [hE] at h
      simp only [Option.map_some', Option.some.injEq] at h
      subst h
      exact Enable_keepsOthers cfg hcfg x hw s u r hE
  case Disable =>
    simp only [step, Option.some.injEq] at h
    subst h
    exact Disable_keepsOthers cfg hcfg x hw s
  case GetStatus =>
    simp only [step, Option.some.injEq] at h
    subst h
    exact keepsOthers_of_flags cfg x rfl
  case ReadSamples num buf size =>
    simp only [step, Option.some.injEq] at h
    subst h
    exact keepsOthers_of_flags cfg x (ReadSamples_effect cfg x hw num buf size s).1
  case RegisterEvents cb mask =>
    simp only [step, Option.some.injEq] at h
    subst h
    exact keepsOthers_of_flags cfg x rfl

theorem shr_and_one_congr (m n i : Nat) (h : m.testBit i = n.testBit i) :
    (m >>> i) &&& 1 = (n >>> i) &&& 1 := by
  rw [Nat.testBit_to_div_mod, Nat.testBit_to_div_mod, decide_eq_decide] at h
  rw [Nat.and_one_is_mod, Nat.and_one_is_mod, Nat.shiftRight_eq_div_pow,
    Nat.shiftRight_eq_div_pow]
  have h1 : m / 2 ^ i % 2 < 2 := Nat.mod_lt _ (by norm_num)
  have h2 : n / 2 ^ i % 2 < 2 := Nat.mod_lt _ (by norm_num)
  omega

/-- What is kept decides what `GetStatus` of every other instance returns. -/
theorem GetStatus_of_keepsOthers (cfg : Cfg) (hcfg : cfg.WF) (x y : Sensor) (hxy : x ≠ y)
    {s t : DriverState} (h : keepsOthers cfg x s t) :
    (driver cfg y).GetStatus t = (driver cfg y).GetStatus s := by
  obtain ⟨ha, hg, hag⟩ := hcfg
  obtain ⟨k1, k2, k3, k4, k5⟩ := h
  cases y
  · simp only [driver, Driver_Sensor0, TemperatureSensorGetStatus, k1 hxy]
  · simp only [driver, Driver_Sensor1, HumiditySensorGetStatus, k2 hxy]
  · simp only [driver, Driver_Sensor2, PressureSensorGetStatus, k3 hxy]
  · simp only [driver, Driver_Sensor3, AccelerometerGetStatus]
    rw [shr_and_one_congr _ _ _ (k5 _ ha (fun h => absurd h hxy) (fun _ => hag))]
  · simp only [driver, Driver_Sensor4, GyroscopeGetStatus]
    rw [shr_and_one_congr _ _ _ (k5 _ hg (fun _ => hag.symm) (fun h => absurd h hxy))]
  · simp only [driver, Driver_Sensor5, MagnetometerGetStatus, k4 hxy]

/-- C22: independent active state. For a call `c` of `Enable`, `Disable`,
`GetStatus`, `ReadSamples` or `RegisterEvents` on an instance, made in any
state with any answers of the hardware, and any other instance `y`: when the
call returns, `GetStatus` of `y` returns what it returned before, so `y` is
ACTIVE after the call exactly when it was before; and of the eight bits of the
mask shared by the accelerometer and the gyroscope the call changes at most
the bit of its own instance. The channel ids are two distinct bit positions in
0..7. -/
theorem C22_independent_active_state (cfg : Cfg) (hcfg : cfg.WF) (c : Call) (y : Sensor)
    (hne : c.sensor ≠ y) (s t : DriverState) (h : step cfg s c = some t) :
    (driver cfg y).GetStatus t = (driver cfg y).GetStatus s ∧
    isActive cfg t y = isActive cfg s y ∧
    ∀ j, j < 8 → (c.sensor = Sensor.Accelerometer → j ≠ cfg.ISM330DHCX_ID_ACCELEROMETER) →
      (c.sensor = Sensor.Gyroscope → j ≠ cfg.ISM330DHCX_ID_GYROSCOPE) →
      t.ISM330DHCX_ActiveFlags.testBit j = s.ISM330DHCX_ActiveFlags.testBit j := by
  have hk := step_keepsOthers cfg hcfg c s t h
  exact ⟨GetStatus_of_keepsOthers cfg hcfg c.sensor y hne hk,
    isActive_of_keepsOthers cfg hcfg c.sensor y hne hk, hk.2.2.2.2⟩

/-- C22 at the `Enable` of the gyroscope while the accelerometer is ACTIVE:
the accelerometer is still ACTIVE afterwards. -/
theorem C22_witness :
    ∃ s t, run Cfg.std DriverState.init [⟨Sensor.Accelerometer, Op.Enable, Hw.ok⟩] = some s ∧
      step Cfg.std s ⟨Sensor.Gyroscope, Op.Enable, Hw.ok⟩ = some t ∧
      isActive Cfg.std s Sensor.Accelerometer = true ∧
      isActive Cfg.std t Sensor.Accelerometer = isActive Cfg.std s Sensor.Accelerometer ∧
      (driver Cfg.std Sensor.Accelerometer).GetStatus t =
        (driver Cfg.std Sensor.Accelerometer).GetStatus s := by
  refine ⟨_, _, rfl, rfl, by decide, ?_, ?_⟩
  · refine (C22_independent_active_state Cfg.std ⟨by decide, by decide, by decide⟩
      ⟨Sensor.Gyroscope, Op.Enable, Hw.ok⟩ Sensor.Accelerometer (by decide) _ _ ?_).2.1
    rfl
  · refine (C22_independent_active_state Cfg.std ⟨by decide, by decide, by decide⟩
      ⟨Sensor.Gyroscope, Op.Enable, Hw.ok⟩ Sensor.Accelerometer (by decide) _ _ ?_).1
    rfl

/-! ## The reference count when no hardware call fails -/

/-- A run returns when the stale-sample loop of each `Enable` of a FIFO sensor
ends. -/
theorem run_isSome (cfg : Cfg) (calls : List Call) :
    ∀ s : DriverState,
      (∀ c ∈ calls, c.op = Op.Enable → c.sensor.isFifo = true → 0 ∈ c.hw.drain) →
      (run cfg s calls).isSome = true := by
  induction calls with
  | nil => intro s _; rfl
  | cons c cs ih =>
    intro s hd
    have hstep : (step cfg s c).isSome = true := by
      have hc := hd c (List.mem_cons_self c cs)
      obtain ⟨x, op, hw⟩ := c
      cases op
      case Enable =>
        obtain ⟨rt, hE⟩ := Option.isSome_iff_exists.mp
          (Enable_isSome cfg x hw s (fun hf _ => hc rfl hf))
        simp [step, hE]
      all_goals rfl
    obtain ⟨u, hu⟩ := Option.isSome_iff_exists.mp hstep
    simp only [run, hu]
    exact ih u (fun c' hc' => hd c' (List.mem_cons_of_mem c hc'))

/-- C23: when no hardware enable or disable call fails and each stale-sample
loop ends, every sequence of `Enable`, `Disable`, `ReadSamples`, `GetStatus`
and `RegisterEvents` calls on the six instances runs from the initial state,
and after every step `k` of it `lock_cnt` is the number of instances that are
ACTIVE, for any two distinct bit positions in 0..7 as channel ids. -/
theorem C23_count_is_active_instances (cfg : Cfg) (hcfg : cfg.WF) (calls : List Call) (k : Nat)
    (hen : ∀ c ∈ calls, c.enableOk = true) (hdis : ∀ c ∈ calls, c.disableOk = true)
    (hdrain : ∀ c ∈ calls, c.op = Op.Enable → c.sensor.isFifo = true → 0 ∈ c.hw.drain) :
    ∃ s, run cfg DriverState.init (calls.take k) = some s ∧
      s.lock_cnt = activeCount cfg s := by
  have hmem : ∀ c ∈ calls.take k, c ∈ calls := fun c hc => List.mem_of_mem_take hc
  obtain ⟨s, hs⟩ := Option.isSome_iff_exists.mp
    (run_isSome cfg (calls.take k) DriverState.init (fun c hc => hdrain c (hmem c hc)))
  have hc := run_count cfg hcfg (calls.take k) DriverState.init s init_WF
    (by rw [activeCount_init]; rfl) (fun c hc => hen c (hmem c hc))
    (fun c hc => hdis c (hmem c hc)) hs
  exact ⟨s, hs, hc.2.symm⟩

/-- C23 at a run of all five operations: enable the gyroscope, enable the
magnetometer, read the magnetometer, ask the gyroscope its status, register
no events, disable the gyroscope (refused, its channel id is 1) and the
magnetometer. Two instances are ACTIVE after five calls, one after all
seven. -/
theorem C23_witness :
    (∃ s, run Cfg.std DriverState.init
        ([(⟨Sensor.Gyroscope, Op.Enable, Hw.ok⟩ : Call), ⟨Sensor.Magnetometer, Op.Enable, Hw.ok⟩,
          ⟨Sensor.Magnetometer, Op.ReadSamples 1 (some [0, 0, 0, 0, 0, 0]) 6, Hw.ok⟩,
          ⟨Sensor.Gyroscope, Op.GetStatus, Hw.ok⟩,
          ⟨Sensor.Pressure, Op.RegisterEvents none 0, Hw.ok⟩,
          ⟨Sensor.Gyroscope, Op.Disable, Hw.ok⟩,
          ⟨Sensor.Magnetometer, Op.Disable, Hw.ok⟩].take 7) = some s ∧
      s.lock_cnt = activeCount Cfg.std s) ∧
    activeCount Cfg.std
      { DriverState.init with ISM330DHCX_ActiveFlags := 2, lock_cnt := 1 } = 1 :=
  ⟨C23_count_is_active_instances Cfg.std ⟨by decide, by decide, by decide⟩
    [⟨Sensor.Gyroscope, Op.Enable, Hw.ok⟩, ⟨Sensor.Magnetometer, Op.Enable, Hw.ok⟩,
      ⟨Sensor.Magnetometer, Op.ReadSamples 1 (some [0, 0, 0, 0, 0, 0]) 6, Hw.ok⟩,
      ⟨Sensor.Gyroscope, Op.GetStatus, Hw.ok⟩,
      ⟨Sensor.Pressure, Op.RegisterEvents none 0, Hw.ok⟩,
      ⟨Sensor.Gyroscope, Op.Disable, Hw.ok⟩,
      ⟨Sensor.Magnetometer, Op.Disable, Hw.ok⟩] 7 (by decide) (by decide) (by decide),
   by decide⟩

end SensorDrv
